import Mathlib

/-!
# bms-backend: multi-tenant authentication, role gate and society filter

A shallow embedding of the Go sources under `src/`:

* `internal/middleware/auth.go`  : `AuthMiddleware`, `RequireRole`, `GetSocietyFilter`
* `pkg/auth/jwt.go`              : `GenerateToken`, `ValidateToken`
* `internal/config/config.go`    : `getEnv`, `Load`
* `internal/handlers/*.go`       : `ValidateSociety`, `Login`, `Register`, `GetProfile`,
  `GetUserByID`, `GetVisitorByID`, `GetMaintenanceByID` and the seven mutating handlers

Go strings are Lean strings, `map[string]interface{}` values are association lists in
insertion order, MongoDB collections are lists in natural order, and every handler returns
its HTTP response together with the new store and the list of calls it made to the store,
to bcrypt and to the token codec.  The external libraries (golang-jwt, bcrypt, the gin
binding validator) are parameters collected in `Env`.
-/

namespace BMS

/-! ## Strings, object ids, association lists -/

/-- Go `strings.TrimPrefix(s, pfx)`. -/
def TrimPrefix (s pfx : String) : String :=
  if pfx.data.isPrefixOf s.data then String.mk (s.data.drop pfx.data.length) else s

/-- Go `strings.Trim(s, cutset)`: drop leading and trailing characters that are in `cutset`. -/
def Trim (s cutset : String) : String :=
  String.mk
    (((s.data.dropWhile (fun ch => cutset.data.contains ch)).reverse.dropWhile
      (fun ch => cutset.data.contains ch)).reverse)

/-- The string holding one double-quote character, the Go raw string written between backquotes
in `auth.go`. -/
def dquote : String := String.mk [Char.ofNat 34]

/-- A `primitive.ObjectID`: twelve bytes, read as a number below `2 ^ 96`. -/
abbrev ObjectID := Fin (2 ^ 96)

/-- The zero object id, which Go leaves in the result of a failed `ObjectIDFromHex`. -/
def NilObjectID : ObjectID := 0

/-- One lowercase hexadecimal digit. -/
def hexDigit (n : Nat) : Char :=
  if n < 10 then Char.ofNat (48 + n) else Char.ofNat (87 + n)

/-- The `k` low hexadecimal digits of `n`, most significant first. -/
def hexOfNat : Nat → Nat → List Char
  | 0, _ => []
  | k + 1, n => hexOfNat k (n / 16) ++ [hexDigit (n % 16)]

/-- Go `ObjectID.Hex()`: 24 lowercase hexadecimal digits. -/
def ObjectID.Hex (id : ObjectID) : String := String.mk (hexOfNat 24 id.val)

/-- Value of one hexadecimal digit, either case, as `encoding/hex` reads it. -/
def hexVal (ch : Char) : Option Nat :=
  let n := ch.toNat
  if 48 ≤ n ∧ n ≤ 57 then some (n - 48)
  else if 97 ≤ n ∧ n ≤ 102 then some (n - 87)
  else if 65 ≤ n ∧ n ≤ 70 then some (n - 55)
  else none

/-- Reads a list of hexadecimal digits as a number, `acc` holding the digits read so far. -/
def hexToNat : Nat → List Char → Option Nat
  | acc, [] => some acc
  | acc, ch :: rest =>
    match hexVal ch with
    | none => none
    | some d => hexToNat (acc * 16 + d) rest

/-- Go `primitive.ObjectIDFromHex`: exactly 24 hexadecimal digits, otherwise an error. -/
def ObjectIDFromHex (s : String) : Option ObjectID :=
  if s.data.length ≠ 24 then none
  else
    match hexToNat 0 s.data with
    | none => none
    | some n => some (Fin.ofNat n)

/-- The idiom `objID, _ := primitive.ObjectIDFromHex(s)`: the error is dropped and the zero id
is used. -/
def ObjectIDFromHexOrNil (s : String) : ObjectID :=
  (ObjectIDFromHex s).getD NilObjectID

/-- Go map read `m[k]` on an association list. -/
def assocGet {β : Type} : List (String × β) → String → Option β
  | [], _ => none
  | (k, v) :: rest, key => if k = key then some v else assocGet rest key

/-- Go map assignment `m[k] = v`: overwrite the entry when the key is present, add it otherwise. -/
def assocSet {β : Type} : List (String × β) → String → β → List (String × β)
  | [], key, val => [(key, val)]
  | (k, v) :: rest, key, val =>
    if k = key then (key, val) :: rest else (k, v) :: assocSet rest key val

/-! ## Request context (gin.Context keys) -/

/-- A value stored under a context key: `interface{}` holding a string or anything else. -/
inductive CtxVal where
  | str (s : String)
  | other (tag : Nat)
  deriving DecidableEq, Repr

/-- The `Keys` map of a `gin.Context`. -/
abbrev Context := List (String × CtxVal)

/-- Go `c.Get(key)`. -/
def Context.Get (c : Context) (key : String) : Option CtxVal := assocGet c key

/-- Go `c.Set(key, value)`. -/
def Context.Set (c : Context) (key : String) (v : CtxVal) : Context := assocSet c key v

/-- Go `c.GetString(key)`: the empty string when the key is absent or holds no string. -/
def Context.GetString (c : Context) (key : String) : String :=
  match c.Get key with
  | some (CtxVal.str s) => s
  | _ => ""

/-- What a middleware did with the request. -/
inductive MwOutcome where
  /-- `c.Next()` was called once and no response was written; `ctx` is the context handed on. -/
  | next (ctx : Context)
  /-- `c.JSON(status, gin.H{"error": error})` followed by `c.Abort()`. -/
  | abort (status : Nat) (error : String) (ctx : Context)
  /-- A failed type assertion. -/
  | panic
  deriving DecidableEq, Repr

/-! ## Token codec (pkg/auth/jwt.go) -/

/-- The `Claims` struct with the three registered claims that `GenerateToken` fills in.
Numeric dates are whole Unix seconds (`jwt.NewNumericDate` truncates to seconds). `ExpiresAt`
is always present, as in every token `GenerateToken` mints; a token without `exp`, which the
parser accepts at any time, is not represented. -/
structure Claims where
  UserID : ObjectID
  Email : String
  Role : String
  SocietyCode : String
  ExpiresAt : Nat
  IssuedAt : Nat
  Issuer : String
  deriving DecidableEq, Repr

/-- Errors of the golang-jwt parser. -/
inductive JwtError where
  | malformed
  | signatureInvalid
  | expired
  | signing
  deriving DecidableEq, Repr

/-- The golang-jwt library with HS256, a parameter of the model: signing a claim set under a key,
and decoding plus signature check of a token string under a key. -/
structure JwtLib where
  /-- Models `jwt.NewWithClaims(jwt.SigningMethodHS256, claims).SignedString(key)`. -/
  SignedString : Claims → String → Except JwtError String
  /-- Segment decoding and HMAC verification done by `ParseWithClaims` before claim validation. -/
  verify : String → String → Except JwtError Claims

/-- One second in nanoseconds. -/
def nsPerSec : Nat := 1000000000

/-- Go `24 * time.Hour` in nanoseconds. -/
def tokenTTL : Nat := 24 * 3600 * nsPerSec

/-- Go `jwt.NewNumericDate(t)` for a clock reading in Unix nanoseconds. -/
def NewNumericDate (t : Nat) : Nat := t / nsPerSec

/-- The claim set built by `GenerateToken`; `t1` and `t2` are its two readings of `time.Now()`
in Unix nanoseconds. -/
def mintClaims (userID : ObjectID) (email role societyCode : String) (t1 t2 : Nat) : Claims :=
  let expirationTime := t1 + tokenTTL
  { UserID := userID
    Email := email
    Role := role
    SocietyCode := societyCode
    ExpiresAt := NewNumericDate expirationTime
    IssuedAt := NewNumericDate t2
    Issuer := "building-management-system" }

/-- Go `auth.GenerateToken`. -/
def GenerateToken (lib : JwtLib) (userID : ObjectID) (email role societyCode secret : String)
    (t1 t2 : Nat) : Except JwtError String :=
  lib.SignedString (mintClaims userID email role societyCode t1 t2) secret

/-- Go `jwt.ParseWithClaims` with the key function of `ValidateToken`: decode and verify, then
validate the registered claims; with no parser option only `exp` is checked, and the token is
good while `now` is before it. `now` is in Unix nanoseconds. -/
def ParseWithClaims (lib : JwtLib) (tokenString key : String) (now : Nat) :
    Except JwtError Claims :=
  match lib.verify tokenString key with
  | .error e => .error e
  | .ok claims =>
    if now < claims.ExpiresAt * nsPerSec then .ok claims else .error JwtError.expired

/-- Go `auth.ValidateToken`. The `!token.Valid` branch cannot be taken when the parser returned
no error, so the parser's answer is returned as it is. -/
def ValidateToken (lib : JwtLib) (tokenString secret : String) (now : Nat) :
    Except JwtError Claims :=
  ParseWithClaims lib tokenString secret now

/-! ## Configuration (internal/config/config.go) -/

/-- The `Config` struct. -/
structure Config where
  Port : String
  DatabaseURL : String
  JWTSecret : String
  Environment : String
  deriving DecidableEq, Repr

/-- Go `getEnv`; `osEnv` is `os.Getenv`, which gives the empty string for an unset variable. -/
def getEnv (osEnv : String → String) (key defaultValue : String) : String :=
  let value := osEnv key
  if value ≠ "" then value else defaultValue

/-- Go `config.Load`, with `osEnv` the process environment after `godotenv.Load`. -/
def Load (osEnv : String → String) : Config :=
  { Port := getEnv osEnv "PORT" "8080"
    DatabaseURL := getEnv osEnv "DATABASE_URL" "mongodb://localhost:27017/building_management_society"
    JWTSecret := getEnv osEnv "JWT_SECRET" "jwt-secret"
    Environment := getEnv osEnv "ENVIRONMENT" "development" }

/-! ## Middleware (internal/middleware/auth.go) -/

/-- The parts of an HTTP request the middleware reads. -/
structure Request where
  Method : String
  /-- The `Authorization` header, `none` when the request has none. -/
  Authorization : Option String
  deriving DecidableEq, Repr

/-- Go `c.GetHeader("Authorization")`: the empty string when the header is absent. -/
def Request.GetAuthorization (r : Request) : String := r.Authorization.getD ""

/-- Result of `AuthMiddleware`: the outcome and the strings handed to `ValidateToken`. -/
structure AuthResult where
  outcome : MwOutcome
  validated : List String
  deriving DecidableEq, Repr

/-- Go `AuthMiddleware`. `now` is the clock reading used by the token parser. -/
def AuthMiddleware (lib : JwtLib) (osEnv : String → String) (now : Nat)
    (r : Request) (c : Context) : AuthResult :=
  if r.Method = "OPTIONS" then
    { outcome := .next c, validated := [] }
  else
    let authHeader := r.GetAuthorization
    if authHeader = "" then
      { outcome := .abort 401 "Authorization header required" c, validated := [] }
    else
      let tokenString := TrimPrefix authHeader "Bearer "
      let tokenString := Trim tokenString dquote
      if tokenString = authHeader then
        { outcome := .abort 401 "Invalid authorization header format" c, validated := [] }
      else
        let cfg := Load osEnv
        match ValidateToken lib tokenString cfg.JWTSecret now with
        | .error _ =>
          { outcome := .abort 401 "Invalid token" c, validated := [tokenString] }
        | .ok claims =>
          let c := c.Set "user_id" (.str claims.UserID.Hex)
          let c := c.Set "user_email" (.str claims.Email)
          let c := c.Set "user_role" (.str claims.Role)
          let c := c.Set "society_code" (.str claims.SocietyCode)
          { outcome := .next c, validated := [tokenString] }

/-- The `for _, role := range roles` loop of `RequireRole` and the lines after it. -/
def RequireRole.scan (roleStr : String) (c : Context) : List String → MwOutcome
  | [] => .abort 403 "Insufficient permissions" c
  | role :: rest => if roleStr = role then .next c else RequireRole.scan roleStr c rest

/-- Go `RequireRole(roles...)`. -/
def RequireRole (roles : List String) (c : Context) : MwOutcome :=
  match c.Get "user_role" with
  | none => .abort 403 "User role not found" c
  | some userRole =>
    match userRole with
    | .str roleStr => RequireRole.scan roleStr c roles
    | .other _ => .panic

/-! ## Store (MongoDB collections) -/

/-- A BSON value as the handlers write and compare it. -/
inductive BVal where
  | str (s : String)
  | bool (b : Bool)
  | oid (id : ObjectID)
  | time (t : Nat)
  | num (n : Int)
  | null
  deriving DecidableEq, Repr

/-- A query document (`bson.M` or `map[string]interface{}`) of equality constraints. -/
abbrev Filter := List (String × BVal)

/-- A stored BSON document: field names with their values. -/
abbrev Doc := List (String × BVal)

/-- MongoDB equality match: every entry of the filter is a field of the document with that
value. -/
def matchesFilter (f : Filter) (d : Doc) : Bool :=
  f.all (fun kv => decide (assocGet d kv.1 = some kv.2))

/-- The `models.Building` struct. -/
structure Building where
  ID : ObjectID
  Name : String
  Floors : Int
  UnitsPerFloor : Int
  SocietyID : ObjectID
  deriving DecidableEq, Repr

/-- The `models.Society` struct. -/
structure Society where
  ID : ObjectID
  Name : String
  Code : String
  Address : String
  City : String
  State : String
  PinCode : String
  ContactEmail : String
  ContactPhone : String
  Buildings : List Building
  IsActive : Bool
  CreatedAt : Nat
  UpdatedAt : Nat
  deriving DecidableEq, Repr

/-- The `models.User` struct. -/
structure User where
  ID : ObjectID
  Name : String
  Email : String
  Password : String
  Role : String
  Unit : String
  Building : String
  Phone : String
  Avatar : String
  SocietyID : ObjectID
  SocietyCode : String
  IsActive : Bool
  CreatedAt : Nat
  UpdatedAt : Nat
  deriving DecidableEq, Repr

/-- The scalar fields of a society document, under their `bson` tags. -/
def Society.toDoc (s : Society) : Doc :=
  [("_id", .oid s.ID), ("name", .str s.Name), ("code", .str s.Code),
   ("address", .str s.Address), ("city", .str s.City), ("state", .str s.State),
   ("pin_code", .str s.PinCode), ("contact_email", .str s.ContactEmail),
   ("contact_phone", .str s.ContactPhone), ("is_active", .bool s.IsActive),
   ("created_at", .time s.CreatedAt), ("updated_at", .time s.UpdatedAt)]

/-- The user document, under the `bson` tags of `models.User`. -/
def User.toDoc (u : User) : Doc :=
  [("_id", .oid u.ID), ("name", .str u.Name), ("email", .str u.Email),
   ("password", .str u.Password), ("role", .str u.Role), ("unit", .str u.Unit),
   ("building", .str u.Building), ("phone", .str u.Phone), ("avatar", .str u.Avatar),
   ("society_id", .oid u.SocietyID), ("society_code", .str u.SocietyCode),
   ("is_active", .bool u.IsActive), ("created_at", .time u.CreatedAt),
   ("updated_at", .time u.UpdatedAt)]

/-- The database: societies and users as decoded structs, the other tenant-scoped collections
as BSON documents. -/
structure Store where
  societies : List Society
  users : List User
  visitors : List Doc
  maintenance : List Doc
  amenities : List Doc
  amenity_bookings : List Doc
  notices : List Doc
  deriving DecidableEq, Repr

/-- Go `collection.FindOne(ctx, filter)`: the first document in natural order that matches,
`none` standing for `mongo.ErrNoDocuments`. -/
def FindOne {α : Type} (toDoc : α → Doc) (coll : List α) (f : Filter) : Option α :=
  coll.find? (fun r => matchesFilter f (toDoc r))

/-- The `$set` operator: assign each listed field. -/
def applySet (d : Doc) (set : Doc) : Doc :=
  set.foldl (fun acc kv => assocSet acc kv.1 kv.2) d

/-- Whether a `$set` document would give the matched document another `_id`, which the server
refuses. -/
def changesId (d : Doc) (set : Doc) : Bool :=
  match assocGet set "_id" with
  | none => false
  | some v => decide (assocGet d "_id" ≠ some v)

/-- Go `collection.UpdateOne(ctx, filter, bson.M{"$set": set})`: the new collection and
`MatchedCount`, or `none` for a write error. Only the first matching document is touched; an
empty `$set` is the no-op it is on MongoDB 5.0 and later. -/
def UpdateOne : List Doc → Filter → Doc → Option (List Doc × Nat)
  | [], _, _ => some ([], 0)
  | d :: rest, f, set =>
    if matchesFilter f d then
      if changesId d set then none else some (applySet d set :: rest, 1)
    else
      match UpdateOne rest f set with
      | none => none
      | some (rest', n) => some (d :: rest', n)

/-- Go `collection.InsertOne` on `users`, under the unique index on `(email, society_code)`
created in `database.go` and the primary key on `_id`; `none` is the duplicate key error. -/
def InsertOneUser (users : List User) (u : User) : Option (List User) :=
  if users.any (fun v => decide (v.ID = u.ID) ||
      (decide (v.Email = u.Email) && decide (v.SocietyCode = u.SocietyCode))) then none
  else some (users ++ [u])

/-! ## Requests, responses, effects -/

/-- The `models.SocietyCodeRequest` struct. -/
structure SocietyCodeRequest where
  Code : String
  deriving DecidableEq, Repr

/-- The `models.SocietyResponse` struct. -/
structure SocietyResponse where
  ID : ObjectID
  Name : String
  Code : String
  Address : String
  City : String
  State : String
  deriving DecidableEq, Repr

/-- The `models.LoginRequest` struct. -/
structure LoginRequest where
  Email : String
  Password : String
  SocietyCode : String
  deriving DecidableEq, Repr

/-- The `models.RegisterRequest` struct. -/
structure RegisterRequest where
  Name : String
  Email : String
  Password : String
  Role : String
  Unit : String
  Building : String
  Phone : String
  SocietyCode : String
  deriving DecidableEq, Repr

/-- The `models.LoginResponse` struct. -/
structure LoginResponse where
  Token : String
  User : User
  Society : SocietyResponse
  deriving DecidableEq, Repr

/-- The `models.VisitorApprovalRequest` struct. -/
structure VisitorApprovalRequest where
  Status : String
  ApprovedBy : String
  deriving DecidableEq, Repr

/-- The `models.PaymentRequest` struct; of the amount only the binding test for zero is read. -/
structure PaymentRequest where
  MaintenanceID : String
  Amount : Int
  PaymentMethod : String
  deriving DecidableEq, Repr

/-- The JSON value handed to `c.JSON`. -/
inductive Body where
  /-- `gin.H{"error": msg}` -/
  | error (msg : String)
  /-- `gin.H{"error": err.Error()}` for a body that fails `ShouldBindJSON` -/
  | bindError
  /-- `gin.H{"message": msg}` -/
  | message (msg : String)
  /-- `gin.H{"valid": true, "society": society}` -/
  | societyValid (society : SocietyResponse)
  | login (r : LoginResponse)
  /-- `gin.H{"message": "User created successfully", "user": user}` -/
  | userCreated (user : User)
  | user (u : User)
  | doc (d : Doc)
  /-- `gin.H{"message": msg, "payment_id": paymentID, "receipt_url": receiptURL}` -/
  | payment (msg paymentID receiptURL : String)
  /-- The `stats` map of `UserHandler.GetStats`. -/
  | stats (totalUsers totalResidents pendingVisitors overdueMaintenance : Nat)
      (societyCode : String)
  deriving DecidableEq, Repr

/-- An HTTP response: status code and JSON body. -/
structure Response where
  status : Nat
  body : Body
  deriving DecidableEq, Repr

/-- A call a handler makes to the store, to bcrypt or to the token codec. -/
inductive Event where
  | findOne (coll : String) (filter : Filter)
  | insertOneUser (user : User)
  | updateOne (coll : String) (filter : Filter) (set : Doc)
  | compareHashAndPassword (hash password : String)
  | generateFromPassword (password : String)
  | generateToken (claims : Claims)
  | insertOne (coll : String) (doc : Doc)
  | countDocuments (coll : String) (filter : Filter)
  deriving DecidableEq, Repr

/-- What a handler call leaves behind: the response, the store and its calls in order. -/
structure Result where
  resp : Response
  store : Store
  log : List Event
  deriving DecidableEq, Repr

/-- The libraries the handlers call. -/
structure Env where
  jwt : JwtLib
  /-- The `email` rule of the binding validator. -/
  isEmail : String → Bool
  /-- Whether `bcrypt.CompareHashAndPassword(hash, password)` returns no error. -/
  CompareHashAndPassword : String → String → Bool
  /-- Models `bcrypt.GenerateFromPassword(password, bcrypt.DefaultCost)` with the salt of this
  call; `none` is its error. -/
  GenerateFromPassword : String → Option String

/-- The `AuthHandler` struct; its database handle is the store passed to each call. -/
structure AuthHandler where
  jwtSecret : String
  deriving DecidableEq, Repr

/-- `ShouldBindJSON` on a `SocietyCodeRequest`: `code` is required. -/
def SocietyCodeRequest.bind (req : SocietyCodeRequest) : Bool :=
  decide (req.Code ≠ "")

/-- `ShouldBindJSON` on a `LoginRequest`: all three fields required, `email` well-formed. -/
def LoginRequest.bind (env : Env) (req : LoginRequest) : Bool :=
  decide (req.Email ≠ "") && env.isEmail req.Email && decide (req.Password ≠ "") &&
    decide (req.SocietyCode ≠ "")

/-- `ShouldBindJSON` on a `RegisterRequest`: name, email, password, role and society code
required, `email` well-formed. -/
def RegisterRequest.bind (env : Env) (req : RegisterRequest) : Bool :=
  decide (req.Name ≠ "") && decide (req.Email ≠ "") && env.isEmail req.Email &&
    decide (req.Password ≠ "") && decide (req.Role ≠ "") && decide (req.SocietyCode ≠ "")

/-- `ShouldBindJSON` on a `VisitorApprovalRequest`: `status` is required. -/
def VisitorApprovalRequest.bind (req : VisitorApprovalRequest) : Bool :=
  decide (req.Status ≠ "")

/-- `ShouldBindJSON` on a `PaymentRequest`: `maintenance_id` and `amount` are required. -/
def PaymentRequest.bind (req : PaymentRequest) : Bool :=
  decide (req.MaintenanceID ≠ "") && decide (req.Amount ≠ 0)

/-- The `models.SocietyResponse` literal built in `ValidateSociety` and `Login`. -/
def societyResponse (society : Society) : SocietyResponse :=
  { ID := society.ID
    Name := society.Name
    Code := society.Code
    Address := society.Address
    City := society.City
    State := society.State }

/-- Go `middleware.GetSocietyFilter`. -/
def GetSocietyFilter (c : Context) : Filter :=
  let societyCode := c.GetString "society_code"
  [("society_code", .str societyCode)]

/-! ## The context and the maps as state -/

/-- The maps of the Go heap: a map value is a reference, here the position of the map among the
maps made so far. -/
abbrev MapHeap := List Filter

/-- A reference to a map of the heap. -/
abbrev MapRef := Nat

/-- A Go map literal: a new map is made and its reference returned. -/
def MapHeap.make (heap : MapHeap) (m : Filter) : MapRef × MapHeap := (heap.length, heap ++ [m])

/-- The map behind a reference, `none` for a reference no map was made for. -/
def MapHeap.deref : MapHeap → MapRef → Option Filter
  | [], _ => none
  | m :: _, 0 => some m
  | _ :: rest, r + 1 => MapHeap.deref rest r

/-- The Go assignment `m[key] = val` through the reference `r`. -/
def MapHeap.assign : MapHeap → MapRef → String → BVal → MapHeap
  | [], _, _, _ => []
  | m :: rest, 0, key, val => assocSet m key val :: rest
  | m :: rest, r + 1, key, val => m :: MapHeap.assign rest r key val

/-- Go `c.GetString(key)` with the context as state: gin looks the key up in `c.Keys` under the
read lock and stores nothing; the result is the string and the context after the call. -/
def Context.GetStringStep (c : Context) (key : String) : String × Context :=
  (c.GetString key, c)

/-- Go `middleware.GetSocietyFilter` with the request context and the heap as state: the result
is the reference of the map made by the map literal, the context after the call and the heap
after the call. -/
def GetSocietyFilterStep (c : Context) (heap : MapHeap) : MapRef × Context × MapHeap :=
  let (societyCode, c) := c.GetStringStep "society_code"
  let (r, heap) := heap.make [("society_code", .str societyCode)]
  (r, c, heap)

/-! ## Handlers (internal/handlers) -/

/-- Go `AuthHandler.ValidateSociety`. -/
def AuthHandler.ValidateSociety (_h : AuthHandler) (st : Store) (req : SocietyCodeRequest) :
    Result :=
  if !req.bind then
    { resp := ⟨400, .bindError⟩, store := st, log := [] }
  else
    let filter : Filter := [("code", .str req.Code), ("is_active", .bool true)]
    match FindOne Society.toDoc st.societies filter with
    | none =>
      { resp := ⟨404, .error "Invalid society code"⟩, store := st,
        log := [.findOne "societies" filter] }
    | some society =>
      { resp := ⟨200, .societyValid (societyResponse society)⟩, store := st,
        log := [.findOne "societies" filter] }

/-- Go `AuthHandler.Login`; `t1` and `t2` are the clock readings of `GenerateToken`. -/
def AuthHandler.Login (h : AuthHandler) (env : Env) (st : Store) (req : LoginRequest)
    (t1 t2 : Nat) : Result :=
  if !req.bind env then
    { resp := ⟨400, .bindError⟩, store := st, log := [] }
  else
    let societyFilter : Filter := [("code", .str req.SocietyCode), ("is_active", .bool true)]
    match FindOne Society.toDoc st.societies societyFilter with
    | none =>
      { resp := ⟨404, .error "Invalid society code"⟩, store := st,
        log := [.findOne "societies" societyFilter] }
    | some society =>
      let userFilter : Filter :=
        [("email", .str req.Email), ("society_code", .str req.SocietyCode),
         ("is_active", .bool true)]
      match FindOne User.toDoc st.users userFilter with
      | none =>
        { resp := ⟨401, .error "Invalid credentials"⟩, store := st,
          log := [.findOne "societies" societyFilter, .findOne "users" userFilter] }
      | some user =>
        if !env.CompareHashAndPassword user.Password req.Password then
          { resp := ⟨401, .error "Invalid credentials"⟩, store := st,
            log := [.findOne "societies" societyFilter, .findOne "users" userFilter,
                    .compareHashAndPassword user.Password req.Password] }
        else
          let minted := mintClaims user.ID user.Email user.Role user.SocietyCode t1 t2
          let log := [.findOne "societies" societyFilter, .findOne "users" userFilter,
                      .compareHashAndPassword user.Password req.Password,
                      .generateToken minted]
          match GenerateToken env.jwt user.ID user.Email user.Role user.SocietyCode
              h.jwtSecret t1 t2 with
          | .error _ =>
            { resp := ⟨500, .error "Failed to generate token"⟩, store := st, log := log }
          | .ok token =>
            let user := { user with Password := "" }
            { resp := ⟨200, .login
                { Token := token, User := user, Society := societyResponse society }⟩,
              store := st, log := log }

/-- Go `AuthHandler.Register`; `newID` is `primitive.NewObjectID()`, `tc` and `tu` the two
readings of `time.Now()`. -/
def AuthHandler.Register (_h : AuthHandler) (env : Env) (st : Store) (req : RegisterRequest)
    (newID : ObjectID) (tc tu : Nat) : Result :=
  if !req.bind env then
    { resp := ⟨400, .bindError⟩, store := st, log := [] }
  else
    let societyFilter : Filter := [("code", .str req.SocietyCode), ("is_active", .bool true)]
    match FindOne Society.toDoc st.societies societyFilter with
    | none =>
      { resp := ⟨404, .error "Invalid society code"⟩, store := st,
        log := [.findOne "societies" societyFilter] }
    | some society =>
      match env.GenerateFromPassword req.Password with
      | none =>
        { resp := ⟨500, .error "Failed to hash password"⟩, store := st,
          log := [.findOne "societies" societyFilter, .generateFromPassword req.Password] }
      | some hashedPassword =>
        let user : User :=
          { ID := newID
            Name := req.Name
            Email := req.Email
            Password := hashedPassword
            Role := req.Role
            Unit := req.Unit
            Building := req.Building
            Phone := req.Phone
            Avatar := ""
            SocietyID := society.ID
            SocietyCode := req.SocietyCode
            IsActive := true
            CreatedAt := tc
            UpdatedAt := tu }
        let log := [.findOne "societies" societyFilter, .generateFromPassword req.Password,
                    .insertOneUser user]
        match InsertOneUser st.users user with
        | none =>
          { resp := ⟨409, .error "User already exists in this society"⟩, store := st,
            log := log }
        | some users =>
          let user := { user with Password := "" }
          { resp := ⟨201, .userCreated user⟩, store := { st with users := users }, log := log }

/-- Go `AuthHandler.GetProfile`. -/
def AuthHandler.GetProfile (_h : AuthHandler) (st : Store) (c : Context) : Result :=
  let userID := c.GetString "user_id"
  let societyCode := c.GetString "society_code"
  let objID := ObjectIDFromHexOrNil userID
  let filter : Filter := [("_id", .oid objID), ("society_code", .str societyCode)]
  match FindOne User.toDoc st.users filter with
  | none =>
    { resp := ⟨404, .error "User not found"⟩, store := st, log := [.findOne "users" filter] }
  | some user =>
    let user := { user with Password := "" }
    { resp := ⟨200, .user user⟩, store := st, log := [.findOne "users" filter] }

/-- Go `UserHandler.GetUserByID`; `userID` is the path parameter `id`. -/
def UserHandler.GetUserByID (st : Store) (c : Context) (userID : String) : Result :=
  match ObjectIDFromHex userID with
  | none => { resp := ⟨400, .error "Invalid user ID"⟩, store := st, log := [] }
  | some objID =>
    let societyFilter := GetSocietyFilter c
    let societyFilter := assocSet societyFilter "_id" (.oid objID)
    match FindOne User.toDoc st.users societyFilter with
    | none =>
      { resp := ⟨404, .error "User not found in your society"⟩, store := st,
        log := [.findOne "users" societyFilter] }
    | some user =>
      let user := { user with Password := "" }
      { resp := ⟨200, .user user⟩, store := st, log := [.findOne "users" societyFilter] }

/-- Go `VisitorHandler.GetVisitorByID`. Stored documents are taken to decode into
`models.Visitor`; the 500 `Database error` answer to a found document that does not decode, or
to a driver error, is not modelled. -/
def VisitorHandler.GetVisitorByID (st : Store) (_c : Context) (visitorID : String) : Result :=
  match ObjectIDFromHex visitorID with
  | none => { resp := ⟨400, .error "Invalid visitor ID"⟩, store := st, log := [] }
  | some objID =>
    let filter : Filter := [("_id", .oid objID)]
    match FindOne id st.visitors filter with
    | none =>
      { resp := ⟨404, .error "Visitor not found"⟩, store := st,
        log := [.findOne "visitors" filter] }
    | some visitor =>
      { resp := ⟨200, .doc visitor⟩, store := st, log := [.findOne "visitors" filter] }

/-- Go `VisitorHandler.GetVisitorByQR`, mounted outside the authenticated group. -/
def VisitorHandler.GetVisitorByQR (st : Store) (qrCode : String) : Result :=
  let filter : Filter := [("qr_code", .str qrCode)]
  match FindOne id st.visitors filter with
  | none =>
    { resp := ⟨404, .error "Visitor not found"⟩, store := st,
      log := [.findOne "visitors" filter] }
  | some visitor =>
    { resp := ⟨200, .doc visitor⟩, store := st, log := [.findOne "visitors" filter] }

/-- Go `MaintenanceHandler.GetMaintenanceByID`. Stored documents are taken to decode into
`models.MaintenanceRecord`; the 500 `Database error` answer to a found document that does not
decode, or to a driver error, is not modelled. -/
def MaintenanceHandler.GetMaintenanceByID (st : Store) (_c : Context) (noticeID : String) :
    Result :=
  match ObjectIDFromHex noticeID with
  | none => { resp := ⟨400, .error "Invalid maintenance ID"⟩, store := st, log := [] }
  | some objID =>
    let filter : Filter := [("_id", .oid objID)]
    match FindOne id st.maintenance filter with
    | none =>
      { resp := ⟨404, .error "Maintenance not found"⟩, store := st,
        log := [.findOne "maintenance" filter] }
    | some maintenance =>
      { resp := ⟨200, .doc maintenance⟩, store := st, log := [.findOne "maintenance" filter] }

/-- Go `VisitorHandler.ApproveVisitor`; `now` is `time.Now()`. -/
def VisitorHandler.ApproveVisitor (st : Store) (c : Context) (visitorID : String)
    (req : VisitorApprovalRequest) (now : Nat) : Result :=
  match ObjectIDFromHex visitorID with
  | none => { resp := ⟨400, .error "Invalid visitor ID"⟩, store := st, log := [] }
  | some objID =>
    if !req.bind then
      { resp := ⟨400, .bindError⟩, store := st, log := [] }
    else
      let approvedBy := ObjectIDFromHexOrNil (c.GetString "user_id")
      let societyFilter := GetSocietyFilter c
      let societyFilter := assocSet societyFilter "_id" (.oid objID)
      let update : Doc :=
        [("status", .str req.Status), ("approved_by", .oid approvedBy),
         ("updated_at", .time now)]
      match UpdateOne st.visitors societyFilter update with
      | none =>
        { resp := ⟨500, .error "Failed to update visitor"⟩, store := st,
          log := [.updateOne "visitors" societyFilter update] }
      | some (visitors, matchedCount) =>
        if matchedCount = 0 then
          { resp := ⟨404, .error "Visitor not found in your society"⟩,
            store := { st with visitors := visitors },
            log := [.updateOne "visitors" societyFilter update] }
        else
          { resp := ⟨200, .message ("Visitor " ++ req.Status ++ " successfully")⟩,
            store := { st with visitors := visitors },
            log := [.updateOne "visitors" societyFilter update] }

/-- Go `VisitorHandler.CheckInVisitor`; `now` is `time.Now()`. -/
def VisitorHandler.CheckInVisitor (st : Store) (c : Context) (visitorID : String) (now : Nat) :
    Result :=
  match ObjectIDFromHex visitorID with
  | none => { resp := ⟨400, .error "Invalid visitor ID"⟩, store := st, log := [] }
  | some objID =>
    let societyFilter := GetSocietyFilter c
    let societyFilter := assocSet societyFilter "_id" (.oid objID)
    let update : Doc := [("actual_arrival", .time now), ("updated_at", .time now)]
    match UpdateOne st.visitors societyFilter update with
    | none =>
      { resp := ⟨500, .error "Failed to check in visitor"⟩, store := st,
        log := [.updateOne "visitors" societyFilter update] }
    | some (visitors, matchedCount) =>
      if matchedCount = 0 then
        { resp := ⟨404, .error "Visitor not found in your society"⟩,
          store := { st with visitors := visitors },
          log := [.updateOne "visitors" societyFilter update] }
      else
        { resp := ⟨200, .message "Visitor checked in successfully"⟩,
          store := { st with visitors := visitors },
          log := [.updateOne "visitors" societyFilter update] }

/-- Go `VisitorHandler.CheckOutVisitor`; `now` is `time.Now()`. -/
def VisitorHandler.CheckOutVisitor (st : Store) (c : Context) (visitorID : String) (now : Nat) :
    Result :=
  match ObjectIDFromHex visitorID with
  | none => { resp := ⟨400, .error "Invalid visitor ID"⟩, store := st, log := [] }
  | some objID =>
    let societyFilter := GetSocietyFilter c
    let societyFilter := assocSet societyFilter "_id" (.oid objID)
    let update : Doc :=
      [("actual_departure", .time now), ("status", .str "completed"),
       ("updated_at", .time now)]
    match UpdateOne st.visitors societyFilter update with
    | none =>
      { resp := ⟨500, .error "Failed to check out visitor"⟩, store := st,
        log := [.updateOne "visitors" societyFilter update] }
    | some (visitors, matchedCount) =>
      if matchedCount = 0 then
        { resp := ⟨404, .error "Visitor not found in your society"⟩,
          store := { st with visitors := visitors },
          log := [.updateOne "visitors" societyFilter update] }
      else
        { resp := ⟨200, .message "Visitor checked out successfully"⟩,
          store := { st with visitors := visitors },
          log := [.updateOne "visitors" societyFilter update] }

/-- Go `MaintenanceHandler.PayMaintenance`; `newID` is `primitive.NewObjectID()` and `now` is
`time.Now()`. -/
def MaintenanceHandler.PayMaintenance (st : Store) (c : Context) (req : PaymentRequest)
    (newID : ObjectID) (now : Nat) : Result :=
  if !req.bind then
    { resp := ⟨400, .bindError⟩, store := st, log := [] }
  else
    match ObjectIDFromHex req.MaintenanceID with
    | none => { resp := ⟨400, .error "Invalid maintenance ID"⟩, store := st, log := [] }
    | some maintenanceID =>
      let societyFilter := GetSocietyFilter c
      let societyFilter := assocSet societyFilter "_id" (.oid maintenanceID)
      let paymentID := newID.Hex
      let update : Doc :=
        [("status", .str "paid"), ("paid_date", .time now),
         ("receipt_url", .str ("/receipts/" ++ paymentID ++ ".pdf"))]
      match UpdateOne st.maintenance societyFilter update with
      | none =>
        { resp := ⟨500, .error "Failed to process payment"⟩, store := st,
          log := [.updateOne "maintenance" societyFilter update] }
      | some (maintenance, matchedCount) =>
        if matchedCount = 0 then
          { resp := ⟨404, .error "Maintenance record not found in your society"⟩,
            store := { st with maintenance := maintenance },
            log := [.updateOne "maintenance" societyFilter update] }
        else
          { resp := ⟨200, .payment "Payment processed successfully" paymentID
              ("/receipts/" ++ paymentID ++ ".pdf")⟩,
            store := { st with maintenance := maintenance },
            log := [.updateOne "maintenance" societyFilter update] }

/-- Go `AmenityHandler.CancelBooking`. -/
def AmenityHandler.CancelBooking (st : Store) (c : Context) (bookingID : String) : Result :=
  match ObjectIDFromHex bookingID with
  | none => { resp := ⟨400, .error "Invalid booking ID"⟩, store := st, log := [] }
  | some objID =>
    let societyFilter := GetSocietyFilter c
    let societyFilter := assocSet societyFilter "_id" (.oid objID)
    let update : Doc := [("status", .str "cancelled")]
    match UpdateOne st.amenity_bookings societyFilter update with
    | none =>
      { resp := ⟨500, .error "Failed to cancel booking"⟩, store := st,
        log := [.updateOne "amenity_bookings" societyFilter update] }
    | some (bookings, matchedCount) =>
      if matchedCount = 0 then
        { resp := ⟨404, .error "Booking not found in your society"⟩,
          store := { st with amenity_bookings := bookings },
          log := [.updateOne "amenity_bookings" societyFilter update] }
      else
        { resp := ⟨200, .message "Booking cancelled successfully"⟩,
          store := { st with amenity_bookings := bookings },
          log := [.updateOne "amenity_bookings" societyFilter update] }

/-- Go `NoticeHandler.UpdateNotice`; `updates` is the JSON object of the request body, bound
into a `bson.M` with no validation. -/
def NoticeHandler.UpdateNotice (st : Store) (c : Context) (noticeID : String) (updates : Doc) :
    Result :=
  match ObjectIDFromHex noticeID with
  | none => { resp := ⟨400, .error "Invalid notice ID"⟩, store := st, log := [] }
  | some objID =>
    let societyFilter := GetSocietyFilter c
    let societyFilter := assocSet societyFilter "_id" (.oid objID)
    match UpdateOne st.notices societyFilter updates with
    | none =>
      { resp := ⟨500, .error "Failed to update notice"⟩, store := st,
        log := [.updateOne "notices" societyFilter updates] }
    | some (notices, matchedCount) =>
      if matchedCount = 0 then
        { resp := ⟨404, .error "Notice not found in your society"⟩,
          store := { st with notices := notices },
          log := [.updateOne "notices" societyFilter updates] }
      else
        { resp := ⟨200, .message "Notice updated successfully"⟩,
          store := { st with notices := notices },
          log := [.updateOne "notices" societyFilter updates] }

/-- Go `NoticeHandler.DeleteNotice`: a soft delete. -/
def NoticeHandler.DeleteNotice (st : Store) (c : Context) (noticeID : String) : Result :=
  match ObjectIDFromHex noticeID with
  | none => { resp := ⟨400, .error "Invalid notice ID"⟩, store := st, log := [] }
  | some objID =>
    let societyFilter := GetSocietyFilter c
    let societyFilter := assocSet societyFilter "_id" (.oid objID)
    let update : Doc := [("is_active", .bool false)]
    match UpdateOne st.notices societyFilter update with
    | none =>
      { resp := ⟨500, .error "Failed to delete notice"⟩, store := st,
        log := [.updateOne "notices" societyFilter update] }
    | some (notices, matchedCount) =>
      if matchedCount = 0 then
        { resp := ⟨404, .error "Notice not found in your society"⟩,
          store := { st with notices := notices },
          log := [.updateOne "notices" societyFilter update] }
      else
        { resp := ⟨200, .message "Notice deleted successfully"⟩,
          store := { st with notices := notices },
          log := [.updateOne "notices" societyFilter update] }

/-! ## Environment variables: set, empty, unset -/

/-- The character `-`. -/
def dash : Char := Char.ofNat 45

/-- One decimal digit. -/
def decimalDigit (d : Nat) : Char := Char.ofNat (48 + d)

/-- The decimal digits of `n`, most significant first; `fuel` bounds the number of digits. -/
def decimalOf : Nat → Nat → List Char
  | 0, _ => []
  | fuel + 1, n =>
    if n < 10 then [decimalDigit n] else decimalOf fuel (n / 10) ++ [decimalDigit (n % 10)]

/-- The verb `%d` of `fmt` on a natural number. -/
def formatNat (n : Nat) : List Char := decimalOf (n + 1) n

/-- The verb `%d` of `fmt` on an `int64`. -/
def formatInt : Int → String
  | Int.ofNat n => String.mk (formatNat n)
  | Int.negSucc n => String.mk (dash :: formatNat (n + 1))

/-- Go `utils.GenerateQRCode`; `timestamp` is its reading `time.Now().Unix()`. -/
def GenerateQRCode (visitorID societyCode : String) (timestamp : Int) : String :=
  "BMS-" ++ societyCode ++ "-" ++ visitorID ++ "-" ++ formatInt timestamp

/-! ## Creating visitors and notices, the stats of a society -/

/-- The `models.Visitor` struct; `none` in `ExpectedTime` is the zero `time.Time`. -/
structure Visitor where
  ID : ObjectID
  Name : String
  Phone : String
  Purpose : String
  HostID : ObjectID
  HostName : String
  HostUnit : String
  ExpectedTime : Option Nat
  ActualArrival : Option Nat
  ActualDeparture : Option Nat
  QRCode : String
  Status : String
  VehicleNumber : String
  PhotoURL : String
  ApprovedBy : Option ObjectID
  SocietyID : ObjectID
  SocietyCode : String
  CreatedAt : Nat
  UpdatedAt : Nat
  deriving DecidableEq, Repr

/-- An optional time as a BSON value. -/
def optTime : Option Nat → BVal
  | some t => .time t
  | none => .null

/-- The visitor document under the `bson` tags of `models.Visitor`; fields tagged `omitempty`
are left out when empty. -/
def Visitor.toDoc (v : Visitor) : Doc :=
  [("_id", .oid v.ID), ("name", .str v.Name), ("phone", .str v.Phone),
   ("purpose", .str v.Purpose), ("host_id", .oid v.HostID), ("host_name", .str v.HostName),
   ("host_unit", .str v.HostUnit), ("expected_time", optTime v.ExpectedTime)] ++
  (match v.ActualArrival with
    | some t => [("actual_arrival", BVal.time t)]
    | none => []) ++
  (match v.ActualDeparture with
    | some t => [("actual_departure", BVal.time t)]
    | none => []) ++
  [("qr_code", .str v.QRCode), ("status", .str v.Status)] ++
  (if v.VehicleNumber = "" then [] else [("vehicle_number", BVal.str v.VehicleNumber)]) ++
  (if v.PhotoURL = "" then [] else [("photo_url", BVal.str v.PhotoURL)]) ++
  (match v.ApprovedBy with
    | some a => [("approved_by", BVal.oid a)]
    | none => []) ++
  [("society_id", .oid v.SocietyID), ("society_code", .str v.SocietyCode),
   ("created_at", .time v.CreatedAt), ("updated_at", .time v.UpdatedAt)]

/-- `ShouldBindJSON` on a `Visitor`: name, phone and purpose are required. -/
def Visitor.bind (v : Visitor) : Bool :=
  decide (v.Name ≠ "") && decide (v.Phone ≠ "") && decide (v.Purpose ≠ "")

/-- Go `collection.InsertOne` on `visitors`, under the primary key on `_id` and the unique index
on `qr_code` created in `database.go`; `none` is the duplicate key error. -/
def InsertOneVisitor (visitors : List Doc) (d : Doc) : Option (List Doc) :=
  if visitors.any (fun v => decide (assocGet v "_id" = assocGet d "_id") ||
      decide (assocGet v "qr_code" = assocGet d "qr_code")) then none
  else some (visitors ++ [d])

/-- Go `VisitorHandler.CreateVisitor`; `newID` is `primitive.NewObjectID()`, `timestamp` the
clock reading of `GenerateQRCode`, and `tc`, `tu`, `te` the readings of `time.Now()` for
`CreatedAt`, `UpdatedAt` and a missing `ExpectedTime`. -/
def VisitorHandler.CreateVisitor (st : Store) (c : Context) (visitor : Visitor)
    (newID : ObjectID) (timestamp : Int) (tc tu te : Nat) : Result :=
  if !visitor.bind then
    { resp := ⟨400, .bindError⟩, store := st, log := [] }
  else
    let userID := c.GetString "user_id"
    let societyCode := c.GetString "society_code"
    let hostID := ObjectIDFromHexOrNil userID
    let societyFilter : Filter := [("code", .str societyCode)]
    match FindOne Society.toDoc st.societies societyFilter with
    | none =>
      { resp := ⟨500, .error "Society not found"⟩, store := st,
        log := [.findOne "societies" societyFilter] }
    | some society =>
      let visitor : Visitor :=
        { visitor with
          ID := newID
          HostID := hostID
          Status := "pending"
          QRCode := GenerateQRCode newID.Hex societyCode timestamp
          SocietyID := society.ID
          SocietyCode := societyCode
          CreatedAt := tc
          UpdatedAt := tu }
      let visitor : Visitor :=
        match visitor.ExpectedTime with
        | none => { visitor with ExpectedTime := some te }
        | some _ => visitor
      let log := [.findOne "societies" societyFilter, .insertOne "visitors" visitor.toDoc]
      match InsertOneVisitor st.visitors visitor.toDoc with
      | none =>
        { resp := ⟨500, .error "Failed to create visitor"⟩, store := st, log := log }
      | some visitors =>
        { resp := ⟨201, .doc visitor.toDoc⟩, store := { st with visitors := visitors },
          log := log }

/-- The `models.Notice` struct. -/
structure Notice where
  ID : ObjectID
  Title : String
  Content : String
  /-- The field `Type` of the Go struct. -/
  NoticeType : String
  AuthorID : ObjectID
  AuthorName : String
  SocietyID : ObjectID
  SocietyCode : String
  IsActive : Bool
  ExpiresAt : Option Nat
  CreatedAt : Nat
  deriving DecidableEq, Repr

/-- The notice document under the `bson` tags of `models.Notice`. -/
def Notice.toDoc (n : Notice) : Doc :=
  [("_id", .oid n.ID), ("title", .str n.Title), ("content", .str n.Content),
   ("type", .str n.NoticeType), ("author_id", .oid n.AuthorID), ("author_name", .str n.AuthorName),
   ("society_id", .oid n.SocietyID), ("society_code", .str n.SocietyCode),
   ("is_active", .bool n.IsActive)] ++
  (match n.ExpiresAt with
    | some t => [("expires_at", BVal.time t)]
    | none => []) ++
  [("created_at", .time n.CreatedAt)]

/-- `ShouldBindJSON` on a `Notice`: title and content are required. -/
def Notice.bind (n : Notice) : Bool :=
  decide (n.Title ≠ "") && decide (n.Content ≠ "")

/-- Go `collection.InsertOne` on `notices`, under the primary key on `_id`; `none` is the
duplicate key error. -/
def InsertOneNotice (notices : List Doc) (d : Doc) : Option (List Doc) :=
  if notices.any (fun n => decide (assocGet n "_id" = assocGet d "_id")) then none
  else some (notices ++ [d])

/-- Go `NoticeHandler.CreateNotice`; `newID` is `primitive.NewObjectID()` and `tc` is
`time.Now()`. -/
def NoticeHandler.CreateNotice (st : Store) (c : Context) (notice : Notice) (newID : ObjectID)
    (tc : Nat) : Result :=
  if !notice.bind then
    { resp := ⟨400, .bindError⟩, store := st, log := [] }
  else
    let authorID := ObjectIDFromHexOrNil (c.GetString "user_id")
    let societyCode := c.GetString "society_code"
    let societyFilter : Filter := [("code", .str societyCode)]
    match FindOne Society.toDoc st.societies societyFilter with
    | none =>
      { resp := ⟨500, .error "Society not found"⟩, store := st,
        log := [.findOne "societies" societyFilter] }
    | some society =>
      let notice : Notice :=
        { notice with
          ID := newID
          AuthorID := authorID
          SocietyID := society.ID
          SocietyCode := societyCode
          IsActive := true
          CreatedAt := tc }
      let log := [.findOne "societies" societyFilter, .insertOne "notices" notice.toDoc]
      match InsertOneNotice st.notices notice.toDoc with
      | none =>
        { resp := ⟨500, .error "Failed to create notice"⟩, store := st, log := log }
      | some notices =>
        { resp := ⟨201, .doc notice.toDoc⟩, store := { st with notices := notices },
          log := log }

/-- Go `collection.CountDocuments(ctx, filter)`: how many documents match. -/
def CountDocuments {α : Type} (toDoc : α → Doc) (coll : List α) (f : Filter) : Nat :=
  (coll.filter (fun r => matchesFilter f (toDoc r))).length

/-- Go `UserHandler.GetStats`. A Go map is a reference: `userFilter := societyFilter` and the
three assignments after it name the one map that `GetSocietyFilter` returned, so each
`filter[k] = v` is made on the map as the lines before left it. -/
def UserHandler.GetStats (st : Store) (c : Context) : Result :=
  let societyFilter := GetSocietyFilter c
  let userFilter := assocSet societyFilter "is_active" (.bool true)
  let totalUsers := CountDocuments User.toDoc st.users userFilter
  let residentFilter := assocSet userFilter "role" (.str "resident")
  let residentFilter := assocSet residentFilter "is_active" (.bool true)
  let totalResidents := CountDocuments User.toDoc st.users residentFilter
  let visitorFilter := assocSet residentFilter "status" (.str "pending")
  let pendingVisitors := CountDocuments id st.visitors visitorFilter
  let maintenanceFilter := assocSet visitorFilter "status" (.str "overdue")
  let overdueMaintenance := CountDocuments id st.maintenance maintenanceFilter
  { resp := ⟨200, .stats totalUsers totalResidents pendingVisitors overdueMaintenance
      (c.GetString "society_code")⟩,
    store := st,
    log := [.countDocuments "users" userFilter, .countDocuments "users" residentFilter,
            .countDocuments "visitors" visitorFilter,
            .countDocuments "maintenance" maintenanceFilter] }

/-! ## Predicates used in the statements -/

/-- The unique index on `(email, society_code)`: two stored accounts with the same email and
society code are one account. -/
def UniqueEmailSociety (users : List User) : Prop :=
  ∀ a ∈ users, ∀ b ∈ users, a.Email = b.Email → a.SocietyCode = b.SocietyCode → a = b

/-- The codec gives back what it signed: `claims` signed under `key` is a token that verifies
under `key` to `claims`. -/
def JwtLib.RoundTripAt (lib : JwtLib) (claims : Claims) (key : String) : Prop :=
  ∃ token, lib.SignedString claims key = .ok token ∧ lib.verify token key = .ok claims

/-- The account `Register` builds from a request that passed the society check. -/
def registeredUser (req : RegisterRequest) (society : Society) (hashedPassword : String)
    (newID : ObjectID) (tc tu : Nat) : User :=
  { ID := newID, Name := req.Name, Email := req.Email, Password := hashedPassword,
    Role := req.Role, Unit := req.Unit, Building := req.Building, Phone := req.Phone,
    Avatar := "", SocietyID := society.ID, SocietyCode := req.SocietyCode, IsActive := true,
    CreatedAt := tc, UpdatedAt := tu }

/-- Every document of `before` is still in place, unchanged, in `after`, unless it belonged to
society `code`. -/
def UntouchedOutside (code : String) (before after : List Doc) : Prop :=
  List.Forall₂ (fun d d' => d' = d ∨ assocGet d "society_code" = some (.str code)) before after

/-- What tenant isolation asks of one by-id update on the collection read by `get` and written
by `put`: the one store call is an update under the filter `{society_code, _id}`, no other
collection changes, no document of another society changes, and when no document has both the
id and the requester's society code the answer is 404 and the store is as before. -/
def TenantScopedUpdate (collName : String) (get : Store → List Doc)
    (put : Store → List Doc → Store) (c : Context) (objID : ObjectID) (st : Store)
    (r : Result) : Prop :=
  (∃ set, r.log = [.updateOne collName
    [("society_code", .str (c.GetString "society_code")), ("_id", .oid objID)] set]) ∧
  r.store = put st (get r.store) ∧
  UntouchedOutside (c.GetString "society_code") (get st) (get r.store) ∧
  ((∀ d ∈ get st, assocGet d "_id" = some (.oid objID) →
      assocGet d "society_code" ≠ some (.str (c.GetString "society_code"))) →
    r.resp.status = 404 ∧ r.store = st)

/-- The shared tail of the seven mutating handlers: the reply to the outcome of `UpdateOne`. -/
def updateReply (collName : String) (put : Store → List Doc → Store) (st : Store)
    (filter : Filter) (set : Doc) (failed notFound : String) (ok : Body) :
    Option (List Doc × Nat) → Result
  | none =>
    { resp := ⟨500, .error failed⟩, store := st, log := [.updateOne collName filter set] }
  | some (docs, matchedCount) =>
    if matchedCount = 0 then
      { resp := ⟨404, .error notFound⟩, store := put st docs,
        log := [.updateOne collName filter set] }
    else
      { resp := ⟨200, ok⟩, store := put st docs, log := [.updateOne collName filter set] }

/-- Writes the `visitors` collection. -/
def putVisitors (st : Store) (docs : List Doc) : Store := { st with visitors := docs }

/-- Writes the `maintenance` collection. -/
def putMaintenance (st : Store) (docs : List Doc) : Store := { st with maintenance := docs }

/-- Writes the `amenity_bookings` collection. -/
def putBookings (st : Store) (docs : List Doc) : Store := { st with amenity_bookings := docs }

/-- Writes the `notices` collection. -/
def putNotices (st : Store) (docs : List Doc) : Store := { st with notices := docs }

/-- The handler idiom `filter[k] = v`, repeated: further constraints added to a filter. -/
def addConstraints (f : Filter) (extra : List (String × BVal)) : Filter :=
  extra.foldl (fun acc kv => assocSet acc kv.1 kv.2) f

/-- The response a middleware wrote: status and error message, `none` when it wrote nothing. -/
def MwOutcome.response : MwOutcome → Option (Nat × String)
  | .abort status error _ => some (status, error)
  | _ => none

/-- The chain `AuthMiddleware(), RequireRole(roles...)` of a protected route: `c.Next()` in the
first stage runs the second on the context the first hands on; an aborted request goes no
further. -/
def protectedChain (lib : JwtLib) (osEnv : String → String) (now : Nat) (roles : List String)
    (r : Request) (c : Context) : MwOutcome :=
  match (AuthMiddleware lib osEnv now r c).outcome with
  | .next c' => RequireRole roles c'
  | out => out

/-- The codec verifies what it signed: a token signed from `claims` under `key` verifies under
`key` to `claims`. -/
def JwtLib.Lawful (lib : JwtLib) : Prop :=
  ∀ claims key token, lib.SignedString claims key = .ok token →
    lib.verify token key = .ok claims

/-- The token string `AuthMiddleware` cuts out of a header value. -/
def bearerToken (authHeader : String) : String :=
  Trim (TrimPrefix authHeader "Bearer ") dquote

/-- The context after the four `c.Set` calls of `AuthMiddleware`. -/
def identityContext (c : Context) (claims : Claims) : Context :=
  (((c.Set "user_id" (.str claims.UserID.Hex)).Set "user_email" (.str claims.Email)).Set
    "user_role" (.str claims.Role)).Set "society_code" (.str claims.SocietyCode)

/-- Reads decimal digits back as a number. -/
def decimalValue (cs : List Char) : Nat := cs.foldl (fun acc c => acc * 10 + (c.toNat - 48)) 0

/-! ## Concrete data for the witnesses and counterexamples -/

/-- Society `SOC-A`, active. -/
def demoSocietyA : Society :=
  { ID := 1, Name := "Alpha Towers", Code := "SOC-A", Address := "1 Main Road", City := "Pune",
    State := "MH", PinCode := "411001", ContactEmail := "a@x.com", ContactPhone := "100",
    Buildings := [], IsActive := true, CreatedAt := 0, UpdatedAt := 0 }

/-- Society `SOC-B`, active. -/
def demoSocietyB : Society :=
  { demoSocietyA with ID := 2, Name := "Beta Heights", Code := "SOC-B" }

/-- Society `SOC-C`, deactivated. -/
def demoSocietyC : Society :=
  { demoSocietyA with ID := 3, Name := "Gamma Court", Code := "SOC-C", IsActive := false }

/-- An active resident of `SOC-A` whose stored hash is `hash(pw)`. -/
def demoUserA : User :=
  { ID := 10, Name := "Bob", Email := "bob@x.com", Password := "hash(pw)", Role := "resident",
    Unit := "A-101", Building := "A", Phone := "200", Avatar := "", SocietyID := 1,
    SocietyCode := "SOC-A", IsActive := true, CreatedAt := 0, UpdatedAt := 0 }

/-- The same email registered in `SOC-B` as a secretary. -/
def demoUserB : User :=
  { demoUserA with
    ID := 11
    Password := "hash(pw2)"
    Role := "secretary"
    SocietyID := 2
    SocietyCode := "SOC-B" }

/-- A visitor record of `SOC-B`. -/
def demoVisitorB : Doc :=
  [("_id", .oid 20), ("name", .str "Eve"), ("host_id", .oid 11), ("status", .str "pending"),
   ("society_code", .str "SOC-B")]

/-- A maintenance record of `SOC-B`. -/
def demoMaintenanceB : Doc :=
  [("_id", .oid 30), ("unit_number", .str "B-7"), ("status", .str "pending"),
   ("society_code", .str "SOC-B")]

/-- A notice of `SOC-B`. -/
def demoNoticeB : Doc :=
  [("_id", .oid 40), ("title", .str "Water"), ("is_active", .bool true),
   ("society_code", .str "SOC-B")]

/-- A store with three societies, two accounts sharing an email, and records of `SOC-B`. -/
def demoStore : Store :=
  { societies := [demoSocietyA, demoSocietyB, demoSocietyC]
    users := [demoUserA, demoUserB]
    visitors := [demoVisitorB]
    maintenance := [demoMaintenanceB]
    amenities := []
    amenity_bookings := []
    notices := [demoNoticeB] }

/-- A toy codec: a token is the text `tok:` followed by the society code of its claims, and
verification under the key `k` answers with the claims of the one token it knows. -/
def demoJwt : JwtLib :=
  { SignedString := fun claims _ => .ok ("tok:" ++ claims.SocietyCode)
    verify := fun tokenString key =>
      if tokenString = "tok:SOC-A" ∧ key = "k" then
        .ok (mintClaims 10 "bob@x.com" "resident" "SOC-A" 0 0)
      else .error JwtError.malformed }

/-- A toy library set: any text with an `@` is an email, the hash of `p` is `hash(p)`. -/
def demoEnv : Env :=
  { jwt := demoJwt
    isEmail := fun s => s.data.contains (Char.ofNat 64)
    CompareHashAndPassword := fun hash password => decide (hash = "hash(" ++ password ++ ")")
    GenerateFromPassword := fun password => some ("hash(" ++ password ++ ")") }

/-- The handler configured with the key `k`. -/
def demoHandler : AuthHandler := { jwtSecret := "k" }

/-- The context `AuthMiddleware` leaves for the resident of `SOC-A`. -/
def demoContextA : Context :=
  [("user_id", .str "00000000000000000000000a"), ("user_email", .str "bob@x.com"),
   ("user_role", .str "resident"), ("society_code", .str "SOC-A")]

/-- The environment in which `JWT_SECRET` is `k`. -/
def demoOsEnv : String → String := fun key => if key = "JWT_SECRET" then "k" else ""

/-- Society `SOC-A` registration of a new email. -/
def demoRegister : RegisterRequest :=
  { Name := "Carol", Email := "carol@x.com", Password := "pw", Role := "security", Unit := "",
    Building := "", Phone := "", SocietyCode := "SOC-A" }

/-- A toy codec that signs one claim set under one key and verifies what it signed. -/
def demoLawfulJwt : JwtLib :=
  { SignedString := fun claims key =>
      if claims = mintClaims 10 "bob@x.com" "resident" "SOC-A" 0 0 ∧ key = "k" then
        .ok "tok:SOC-A"
      else .error JwtError.signing
    verify := demoJwt.verify }

/-- The context `AuthMiddleware` leaves for the secretary of `SOC-B`. -/
def demoContextB : Context :=
  [("user_id", .str "00000000000000000000000b"), ("user_email", .str "bob@x.com"),
   ("user_role", .str "secretary"), ("society_code", .str "SOC-B")]

/-- A registration with a role outside the three role names. -/
def demoRegisterAdmin : RegisterRequest :=
  { demoRegister with Role := "admin" }

/-- A visitor as a resident submits it. -/
def demoVisitorRequest : Visitor :=
  { ID := 0, Name := "Eve", Phone := "300", Purpose := "delivery", HostID := 0, HostName := "",
    HostUnit := "", ExpectedTime := none, ActualArrival := none, ActualDeparture := none,
    QRCode := "", Status := "", VehicleNumber := "", PhotoURL := "", ApprovedBy := none,
    SocietyID := 0, SocietyCode := "", CreatedAt := 0, UpdatedAt := 0 }

/-- A notice as a secretary submits it, with society fields of another society in the body. -/
def demoNoticeRequest : Notice :=
  { ID := 0, Title := "Lift", Content := "Lift under repair", NoticeType := "announcement",
    AuthorID := 0, AuthorName := "", SocietyID := 1, SocietyCode := "SOC-A", IsActive := false,
    ExpiresAt := none, CreatedAt := 0 }

/-- A store of `SOC-A` with one active resident, one pending visitor and one overdue
maintenance record. -/
def demoStatsStore : Store :=
  { societies := [demoSocietyA]
    users := [demoUserA]
    visitors := [[("_id", .oid 21), ("name", .str "Eve"), ("status", .str "pending"),
                  ("society_code", .str "SOC-A")]]
    maintenance := [[("_id", .oid 31), ("unit_number", .str "A-101"),
                     ("status", .str "overdue"), ("society_code", .str "SOC-A")]]
    amenities := []
    amenity_bookings := []
    notices := [] }

/-- A second account under the email and society code of `demoUserA`, with another password. -/
def demoUserA2 : User :=
  { demoUserA with
    ID := 12
    Password := "hash(pw2)" }

/-- The store `demoStore` with two accounts under the pair `(bob@x.com, SOC-A)`. -/
def demoDuplicateStore : Store := { demoStore with users := [demoUserA, demoUserA2] }

theorem matchesFilter_cons (k : String) (v : BVal) (f : Filter) (d : Doc) :
    matchesFilter ((k, v) :: f) d = (decide (assocGet d k = some v) && matchesFilter f d) := by
  simp [matchesFilter]

theorem matchesFilter_nil (d : Doc) : matchesFilter [] d = true := by
  simp [matchesFilter]

theorem FindOne_some {α : Type} (toDoc : α → Doc) (coll : List α) (f : Filter) (r : α)
    (h : FindOne toDoc coll f = some r) : r ∈ coll ∧ matchesFilter f (toDoc r) = true := by
  unfold FindOne at h
  exact ⟨List.mem_of_find?_eq_some h,
    List.find?_some (p := fun r => matchesFilter f (toDoc r)) h⟩

theorem FindOne_none {α : Type} (toDoc : α → Doc) (coll : List α) (f : Filter) :
    FindOne toDoc coll f = none ↔ ∀ r ∈ coll, matchesFilter f (toDoc r) = false := by
  unfold FindOne
  simp [List.find?_eq_none]

theorem RequireRole_scan_eq (roleStr : String) (c : Context) (roles : List String) :
    RequireRole.scan roleStr c roles =
      if roleStr ∈ roles then MwOutcome.next c
      else MwOutcome.abort 403 "Insufficient permissions" c := by
  induction roles with
  | nil => simp [RequireRole.scan]
  | cons role rest ih =>
    by_cases h : roleStr = role
    · simp [RequireRole.scan, h]
    · simp [RequireRole.scan, h, ih]

theorem GetSocietyFilter_scoped (c : Context) (objID : ObjectID) :
    assocSet (GetSocietyFilter c) "_id" (.oid objID) =
      [("society_code", .str (c.GetString "society_code")), ("_id", .oid objID)] := by
  simp [GetSocietyFilter, assocSet]

theorem matches_societyFilter (s : Society) (code : String) :
    matchesFilter [("code", .str code), ("is_active", .bool true)] s.toDoc =
      (decide (s.Code = code) && decide (s.IsActive = true)) := by
  simp [matchesFilter, Society.toDoc, assocGet]

theorem matches_loginFilter (u : User) (email code : String) :
    matchesFilter [("email", .str email), ("society_code", .str code), ("is_active", .bool true)]
        u.toDoc =
      (decide (u.Email = email) && (decide (u.SocietyCode = code) && decide (u.IsActive = true))) := by
  simp [matchesFilter, User.toDoc, assocGet]

theorem society_lookup_some (societies : List Society) (code : String) (s : Society)
    (h : FindOne Society.toDoc societies [("code", .str code), ("is_active", .bool true)] = some s) :
    s ∈ societies ∧ s.Code = code ∧ s.IsActive = true := by
  obtain ⟨hm, hf⟩ := FindOne_some _ _ _ _ h
  rw [matches_societyFilter] at hf
  simp at hf
  exact ⟨hm, hf.1, hf.2⟩

theorem society_lookup_none (societies : List Society) (code : String) :
    FindOne Society.toDoc societies [("code", .str code), ("is_active", .bool true)] = none ↔
      ∀ s ∈ societies, s.Code = code → s.IsActive = false := by
  rw [FindOne_none]
  constructor
  · intro h s hs hc
    have := h s hs
    rw [matches_societyFilter] at this
    simp [hc] at this
    exact this
  · intro h s hs
    rw [matches_societyFilter]
    by_cases hc : s.Code = code
    · simp [hc, h s hs hc]
    · simp [hc]

theorem user_lookup_some (users : List User) (email code : String) (u : User)
    (h : FindOne User.toDoc users
      [("email", .str email), ("society_code", .str code), ("is_active", .bool true)] = some u) :
    u ∈ users ∧ u.Email = email ∧ u.SocietyCode = code ∧ u.IsActive = true := by
  obtain ⟨hm, hf⟩ := FindOne_some _ _ _ _ h
  rw [matches_loginFilter] at hf
  simp at hf
  exact ⟨hm, hf.1, hf.2.1, hf.2.2⟩

theorem user_lookup_none (users : List User) (email code : String) :
    FindOne User.toDoc users
      [("email", .str email), ("society_code", .str code), ("is_active", .bool true)] = none ↔
      ∀ u ∈ users, u.Email = email → u.SocietyCode = code → u.IsActive = false := by
  rw [FindOne_none]
  constructor
  · intro h u hu he hc
    have := h u hu
    rw [matches_loginFilter] at this
    simp [he, hc] at this
    exact this
  · intro h u hu
    rw [matches_loginFilter]
    by_cases he : u.Email = email
    · by_cases hc : u.SocietyCode = code
      · simp [he, hc, h u hu he hc]
      · simp [hc]
    · simp [he]

theorem except_error_or_ok {ε α : Type} (x : Except ε α) :
    (∃ e, x = .error e) ∨ (∃ a, x = .ok a) := by
  cases x with
  | error e => exact Or.inl ⟨e, rfl⟩
  | ok a => exact Or.inr ⟨a, rfl⟩

/-- What a successful `Login` did: the society and the account it found, and the token. -/
theorem Login_success_inv (h : AuthHandler) (env : Env) (st : Store) (req : LoginRequest)
    (t1 t2 : Nat) (hok : (h.Login env st req t1 t2).resp.status = 200) :
    ∃ society account token,
      req.bind env = true ∧
      FindOne Society.toDoc st.societies
        [("code", .str req.SocietyCode), ("is_active", .bool true)] = some society ∧
      FindOne User.toDoc st.users
        [("email", .str req.Email), ("society_code", .str req.SocietyCode),
         ("is_active", .bool true)] = some account ∧
      env.CompareHashAndPassword account.Password req.Password = true ∧
      GenerateToken env.jwt account.ID account.Email account.Role account.SocietyCode
        h.jwtSecret t1 t2 = .ok token ∧
      h.Login env st req t1 t2 =
        { resp := ⟨200, .login
            { Token := token, User := { account with Password := "" },
              Society := societyResponse society }⟩,
          store := st,
          log := [.findOne "societies" [("code", .str req.SocietyCode), ("is_active", .bool true)],
                  .findOne "users" [("email", .str req.Email),
                    ("society_code", .str req.SocietyCode), ("is_active", .bool true)],
                  .compareHashAndPassword account.Password req.Password,
                  .generateToken (mintClaims account.ID account.Email account.Role
                    account.SocietyCode t1 t2)] } := by
  rcases Bool.eq_false_or_eq_true (req.bind env) with hb | hb
  swap
  · simp [AuthHandler.Login, hb] at hok
  rcases Option.eq_none_or_eq_some (FindOne Society.toDoc st.societies
      [("code", .str req.SocietyCode), ("is_active", .bool true)]) with hs | ⟨society, hs⟩
  · simp [AuthHandler.Login, hb, hs] at hok
  rcases Option.eq_none_or_eq_some (FindOne User.toDoc st.users
      [("email", .str req.Email), ("society_code", .str req.SocietyCode),
       ("is_active", .bool true)]) with hu | ⟨account, hu⟩
  · simp [AuthHandler.Login, hb, hs, hu] at hok
  rcases Bool.eq_false_or_eq_true (env.CompareHashAndPassword account.Password req.Password)
    with hc | hc
  swap
  · simp [AuthHandler.Login, hb, hs, hu, hc] at hok
  rcases except_error_or_ok (GenerateToken env.jwt account.ID account.Email account.Role
      account.SocietyCode h.jwtSecret t1 t2) with ⟨e, hg⟩ | ⟨token, hg⟩
  · simp [AuthHandler.Login, hb, hs, hu, hc, hg] at hok
  refine ⟨society, account, token, hb, hs, hu, hc, hg, ?_⟩
  simp [AuthHandler.Login, hb, hs, hu, hc, hg]

theorem society_lookup_isSome (societies : List Society) (code : String) (s : Society)
    (hs : s ∈ societies) (hc : s.Code = code) (ha : s.IsActive = true) :
    ∃ s', FindOne Society.toDoc societies
      [("code", .str code), ("is_active", .bool true)] = some s' := by
  rcases Option.eq_none_or_eq_some (FindOne Society.toDoc societies
      [("code", .str code), ("is_active", .bool true)]) with hn | hsome
  · have := (society_lookup_none societies code).1 hn s hs hc
    rw [ha] at this
    exact absurd this (by decide)
  · exact hsome

theorem user_lookup_isSome (users : List User) (email code : String) (u : User)
    (hu : u ∈ users) (he : u.Email = email) (hc : u.SocietyCode = code)
    (ha : u.IsActive = true) :
    ∃ u', FindOne User.toDoc users
      [("email", .str email), ("society_code", .str code), ("is_active", .bool true)] =
        some u' := by
  rcases Option.eq_none_or_eq_some (FindOne User.toDoc users
      [("email", .str email), ("society_code", .str code), ("is_active", .bool true)])
    with hn | hsome
  · have := (user_lookup_none users email code).1 hn u hu he hc
    rw [ha] at this
    exact absurd this (by decide)
  · exact hsome

theorem ValidateToken_of_verify (lib : JwtLib) (token key : String) (now : Nat) (claims : Claims)
    (hv : lib.verify token key = .ok claims) (hnow : now < claims.ExpiresAt * nsPerSec) :
    ValidateToken lib token key now = .ok claims := by
  simp [ValidateToken, ParseWithClaims, hv, hnow]

/-- What a successful `Register` did: the society it found, the hash, and the appended account. -/
theorem Register_success_inv (h : AuthHandler) (env : Env) (st : Store) (req : RegisterRequest)
    (newID : ObjectID) (tc tu : Nat)
    (hok : (h.Register env st req newID tc tu).resp.status = 201) :
    ∃ society hashedPassword,
      req.bind env = true ∧
      FindOne Society.toDoc st.societies
        [("code", .str req.SocietyCode), ("is_active", .bool true)] = some society ∧
      env.GenerateFromPassword req.Password = some hashedPassword ∧
      (h.Register env st req newID tc tu).store =
        { st with users := st.users ++ [registeredUser req society hashedPassword newID tc tu] } ∧
      (h.Register env st req newID tc tu).resp =
        ⟨201, .userCreated
          { registeredUser req society hashedPassword newID tc tu with Password := "" }⟩ := by
  rcases Bool.eq_false_or_eq_true (req.bind env) with hb | hb
  swap
  · simp [AuthHandler.Register, hb] at hok
  rcases Option.eq_none_or_eq_some (FindOne Society.toDoc st.societies
      [("code", .str req.SocietyCode), ("is_active", .bool true)]) with hs | ⟨society, hs⟩
  · simp [AuthHandler.Register, hb, hs] at hok
  rcases Option.eq_none_or_eq_some (env.GenerateFromPassword req.Password)
    with hg | ⟨hashed, hg⟩
  · simp [AuthHandler.Register, hb, hs, hg] at hok
  rcases Option.eq_none_or_eq_some
      (InsertOneUser st.users (registeredUser req society hashed newID tc tu))
    with hi | ⟨users, hi⟩
  · simp [AuthHandler.Register, hb, hs, hg] at hok
    simp [registeredUser] at hi
    simp [hi] at hok
  have hi' := hi
  simp only [InsertOneUser] at hi'
  split at hi'
  · exact absurd hi' (by simp)
  · simp only [Option.some.injEq] at hi'
    subst hi'
    refine ⟨society, hashed, hb, hs, hg, ?_, ?_⟩
    · simp [registeredUser] at hi
      simp [AuthHandler.Register, hb, hs, hg, hi, registeredUser]
    · simp [registeredUser] at hi
      simp [AuthHandler.Register, hb, hs, hg, hi, registeredUser]

theorem Login_no_society (h : AuthHandler) (env : Env) (st : Store) (req : LoginRequest)
    (t1 t2 : Nat) (hb : req.bind env = true)
    (hs : FindOne Society.toDoc st.societies
      [("code", .str req.SocietyCode), ("is_active", .bool true)] = none) :
    h.Login env st req t1 t2 =
      { resp := ⟨404, .error "Invalid society code"⟩, store := st,
        log := [.findOne "societies"
          [("code", .str req.SocietyCode), ("is_active", .bool true)]] } := by
  simp [AuthHandler.Login, hb, hs]

theorem Login_no_account (h : AuthHandler) (env : Env) (st : Store) (req : LoginRequest)
    (t1 t2 : Nat) (society : Society) (hb : req.bind env = true)
    (hs : FindOne Society.toDoc st.societies
      [("code", .str req.SocietyCode), ("is_active", .bool true)] = some society)
    (hu : FindOne User.toDoc st.users
      [("email", .str req.Email), ("society_code", .str req.SocietyCode),
       ("is_active", .bool true)] = none) :
    h.Login env st req t1 t2 =
      { resp := ⟨401, .error "Invalid credentials"⟩, store := st,
        log := [.findOne "societies" [("code", .str req.SocietyCode), ("is_active", .bool true)],
                .findOne "users" [("email", .str req.Email),
                  ("society_code", .str req.SocietyCode), ("is_active", .bool true)]] } := by
  simp [AuthHandler.Login, hb, hs, hu]

theorem Login_wrong_password (h : AuthHandler) (env : Env) (st : Store) (req : LoginRequest)
    (t1 t2 : Nat) (society : Society) (account : User) (hb : req.bind env = true)
    (hs : FindOne Society.toDoc st.societies
      [("code", .str req.SocietyCode), ("is_active", .bool true)] = some society)
    (hu : FindOne User.toDoc st.users
      [("email", .str req.Email), ("society_code", .str req.SocietyCode),
       ("is_active", .bool true)] = some account)
    (hc : env.CompareHashAndPassword account.Password req.Password = false) :
    h.Login env st req t1 t2 =
      { resp := ⟨401, .error "Invalid credentials"⟩, store := st,
        log := [.findOne "societies" [("code", .str req.SocietyCode), ("is_active", .bool true)],
                .findOne "users" [("email", .str req.Email),
                  ("society_code", .str req.SocietyCode), ("is_active", .bool true)],
                .compareHashAndPassword account.Password req.Password] } := by
  simp [AuthHandler.Login, hb, hs, hu, hc]

theorem Login_ok (h : AuthHandler) (env : Env) (st : Store) (req : LoginRequest)
    (t1 t2 : Nat) (society : Society) (account : User) (token : String)
    (hb : req.bind env = true)
    (hs : FindOne Society.toDoc st.societies
      [("code", .str req.SocietyCode), ("is_active", .bool true)] = some society)
    (hu : FindOne User.toDoc st.users
      [("email", .str req.Email), ("society_code", .str req.SocietyCode),
       ("is_active", .bool true)] = some account)
    (hc : env.CompareHashAndPassword account.Password req.Password = true)
    (hg : GenerateToken env.jwt account.ID account.Email account.Role account.SocietyCode
      h.jwtSecret t1 t2 = .ok token) :
    h.Login env st req t1 t2 =
      { resp := ⟨200, .login
          { Token := token, User := { account with Password := "" },
            Society := societyResponse society }⟩,
        store := st,
        log := [.findOne "societies" [("code", .str req.SocietyCode), ("is_active", .bool true)],
                .findOne "users" [("email", .str req.Email),
                  ("society_code", .str req.SocietyCode), ("is_active", .bool true)],
                .compareHashAndPassword account.Password req.Password,
                .generateToken (mintClaims account.ID account.Email account.Role
                  account.SocietyCode t1 t2)] } := by
  simp [AuthHandler.Login, hb, hs, hu, hc, hg]

theorem Register_no_society (h : AuthHandler) (env : Env) (st : Store) (req : RegisterRequest)
    (newID : ObjectID) (tc tu : Nat) (hb : req.bind env = true)
    (hs : FindOne Society.toDoc st.societies
      [("code", .str req.SocietyCode), ("is_active", .bool true)] = none) :
    h.Register env st req newID tc tu =
      { resp := ⟨404, .error "Invalid society code"⟩, store := st,
        log := [.findOne "societies"
          [("code", .str req.SocietyCode), ("is_active", .bool true)]] } := by
  simp [AuthHandler.Register, hb, hs]

theorem matches_scoped (code : String) (objID : ObjectID) (d : Doc) :
    matchesFilter [("society_code", .str code), ("_id", .oid objID)] d = true ↔
      assocGet d "society_code" = some (.str code) ∧ assocGet d "_id" = some (.oid objID) := by
  simp [matchesFilter]

theorem UpdateOne_no_match (coll : List Doc) (f : Filter) (set : Doc)
    (h : ∀ d ∈ coll, matchesFilter f d = false) : UpdateOne coll f set = some (coll, 0) := by
  induction coll with
  | nil => rfl
  | cons d rest ih =>
    have hd := h d (List.mem_cons_self d rest)
    have hr := ih (fun x hx => h x (List.mem_cons_of_mem d hx))
    simp [UpdateOne, hd, hr]

theorem UpdateOne_touches_match_only (coll : List Doc) (f : Filter) (set : Doc)
    (coll' : List Doc) (n : Nat) (h : UpdateOne coll f set = some (coll', n)) :
    List.Forall₂ (fun d d' => d' = d ∨ matchesFilter f d = true) coll coll' := by
  induction coll generalizing coll' n with
  | nil =>
    simp [UpdateOne] at h
    obtain ⟨rfl, _⟩ := h
    exact List.Forall₂.nil
  | cons d rest ih =>
    rcases Bool.eq_false_or_eq_true (matchesFilter f d) with hm | hm
    · rcases Bool.eq_false_or_eq_true (changesId d set) with hc | hc
      · simp [UpdateOne, hm, hc] at h
      · simp [UpdateOne, hm, hc] at h
        obtain ⟨rfl, _⟩ := h
        refine List.Forall₂.cons (Or.inr hm) ?_
        exact List.forall₂_same.2 (fun x _ => Or.inl rfl)
    · rcases Option.eq_none_or_eq_some (UpdateOne rest f set) with hr | ⟨⟨rest', m⟩, hr⟩
      · simp [UpdateOne, hm, hr] at h
      · simp [UpdateOne, hm, hr] at h
        obtain ⟨rfl, _⟩ := h
        exact List.Forall₂.cons (Or.inl rfl) (ih rest' m hr)

theorem updateReply_scoped (collName : String) (get : Store → List Doc)
    (put : Store → List Doc → Store) (c : Context) (objID : ObjectID) (st : Store)
    (set : Doc) (failed notFound : String) (ok : Body)
    (hgp : ∀ s l, get (put s l) = l) (hpg : ∀ s, put s (get s) = s) :
    TenantScopedUpdate collName get put c objID st
      (updateReply collName put st
        [("society_code", .str (c.GetString "society_code")), ("_id", .oid objID)] set
        failed notFound ok
        (UpdateOne (get st)
          [("society_code", .str (c.GetString "society_code")), ("_id", .oid objID)] set)) := by
  have hscoped : ∀ coll' n, UpdateOne (get st)
      [("society_code", .str (c.GetString "society_code")), ("_id", .oid objID)] set =
        some (coll', n) →
      UntouchedOutside (c.GetString "society_code") (get st) coll' := by
    intro coll' n hu
    refine List.Forall₂.imp ?_ (UpdateOne_touches_match_only _ _ _ _ _ hu)
    intro d d' hdd
    rcases hdd with hdd | hdd
    · exact Or.inl hdd
    · exact Or.inr ((matches_scoped _ _ _).1 hdd).1
  have hnomatch : (∀ d ∈ get st, assocGet d "_id" = some (.oid objID) →
      assocGet d "society_code" ≠ some (.str (c.GetString "society_code"))) →
      UpdateOne (get st)
        [("society_code", .str (c.GetString "society_code")), ("_id", .oid objID)] set =
        some (get st, 0) := by
    intro hno
    apply UpdateOne_no_match
    intro d hd
    rcases Bool.eq_false_or_eq_true (matchesFilter
      [("society_code", .str (c.GetString "society_code")), ("_id", .oid objID)] d) with hm | hm
    · obtain ⟨h1, h2⟩ := (matches_scoped _ _ _).1 hm
      exact absurd h1 (hno d hd h2)
    · exact hm
  refine ⟨?_, ?_, ?_, ?_⟩
  · refine ⟨set, ?_⟩
    rcases Option.eq_none_or_eq_some (UpdateOne (get st)
      [("society_code", .str (c.GetString "society_code")), ("_id", .oid objID)] set)
      with hu | ⟨⟨coll', n⟩, hu⟩
    · rw [hu]; rfl
    · rw [hu]
      by_cases hn : n = 0 <;> simp [updateReply, hn]
  · rcases Option.eq_none_or_eq_some (UpdateOne (get st)
      [("society_code", .str (c.GetString "society_code")), ("_id", .oid objID)] set)
      with hu | ⟨⟨coll', n⟩, hu⟩
    · rw [hu]; simp [updateReply, hpg]
    · rw [hu]
      by_cases hn : n = 0 <;> simp [updateReply, hn, hgp]
  · rcases Option.eq_none_or_eq_some (UpdateOne (get st)
      [("society_code", .str (c.GetString "society_code")), ("_id", .oid objID)] set)
      with hu | ⟨⟨coll', n⟩, hu⟩
    · rw [hu]
      simp only [updateReply]
      exact List.forall₂_same.2 (fun x _ => Or.inl rfl)
    · have := hscoped coll' n hu
      rw [hu]
      by_cases hn : n = 0 <;> simp [updateReply, hn, hgp, this]
  · intro hno
    rw [hnomatch hno]
    simp [updateReply, hpg]

theorem ApproveVisitor_eq (st : Store) (c : Context) (visitorID : String) (objID : ObjectID)
    (req : VisitorApprovalRequest) (now : Nat)
    (hid : ObjectIDFromHex visitorID = some objID) (hb : req.bind = true) :
    VisitorHandler.ApproveVisitor st c visitorID req now =
      updateReply "visitors" putVisitors st
        [("society_code", .str (c.GetString "society_code")), ("_id", .oid objID)]
        [("status", .str req.Status),
         ("approved_by", .oid (ObjectIDFromHexOrNil (c.GetString "user_id"))),
         ("updated_at", .time now)]
        "Failed to update visitor" "Visitor not found in your society"
        (.message ("Visitor " ++ req.Status ++ " successfully"))
        (UpdateOne st.visitors
          [("society_code", .str (c.GetString "society_code")), ("_id", .oid objID)]
          [("status", .str req.Status),
           ("approved_by", .oid (ObjectIDFromHexOrNil (c.GetString "user_id"))),
           ("updated_at", .time now)]) := by
  simp only [VisitorHandler.ApproveVisitor, hid, hb, GetSocietyFilter_scoped]
  cases UpdateOne st.visitors
      [("society_code", .str (c.GetString "society_code")), ("_id", .oid objID)]
      [("status", .str req.Status),
       ("approved_by", .oid (ObjectIDFromHexOrNil (c.GetString "user_id"))),
       ("updated_at", .time now)] <;> rfl

theorem CheckInVisitor_eq (st : Store) (c : Context) (visitorID : String) (objID : ObjectID)
    (now : Nat) (hid : ObjectIDFromHex visitorID = some objID) :
    VisitorHandler.CheckInVisitor st c visitorID now =
      updateReply "visitors" putVisitors st
        [("society_code", .str (c.GetString "society_code")), ("_id", .oid objID)]
        [("actual_arrival", .time now), ("updated_at", .time now)]
        "Failed to check in visitor" "Visitor not found in your society"
        (.message "Visitor checked in successfully")
        (UpdateOne st.visitors
          [("society_code", .str (c.GetString "society_code")), ("_id", .oid objID)]
          [("actual_arrival", .time now), ("updated_at", .time now)]) := by
  simp only [VisitorHandler.CheckInVisitor, hid, GetSocietyFilter_scoped]
  cases UpdateOne st.visitors
      [("society_code", .str (c.GetString "society_code")), ("_id", .oid objID)]
      [("actual_arrival", .time now), ("updated_at", .time now)] <;> rfl

theorem CheckOutVisitor_eq (st : Store) (c : Context) (visitorID : String) (objID : ObjectID)
    (now : Nat) (hid : ObjectIDFromHex visitorID = some objID) :
    VisitorHandler.CheckOutVisitor st c visitorID now =
      updateReply "visitors" putVisitors st
        [("society_code", .str (c.GetString "society_code")), ("_id", .oid objID)]
        [("actual_departure", .time now), ("status", .str "completed"),
         ("updated_at", .time now)]
        "Failed to check out visitor" "Visitor not found in your society"
        (.message "Visitor checked out successfully")
        (UpdateOne st.visitors
          [("society_code", .str (c.GetString "society_code")), ("_id", .oid objID)]
          [("actual_departure", .time now), ("status", .str "completed"),
           ("updated_at", .time now)]) := by
  simp only [VisitorHandler.CheckOutVisitor, hid, GetSocietyFilter_scoped]
  cases UpdateOne st.visitors
      [("society_code", .str (c.GetString "society_code")), ("_id", .oid objID)]
      [("actual_departure", .time now), ("status", .str "completed"),
       ("updated_at", .time now)] <;> rfl

theorem PayMaintenance_eq (st : Store) (c : Context) (req : PaymentRequest)
    (objID newID : ObjectID) (now : Nat)
    (hid : ObjectIDFromHex req.MaintenanceID = some objID) (hb : req.bind = true) :
    MaintenanceHandler.PayMaintenance st c req newID now =
      updateReply "maintenance" putMaintenance st
        [("society_code", .str (c.GetString "society_code")), ("_id", .oid objID)]
        [("status", .str "paid"), ("paid_date", .time now),
         ("receipt_url", .str ("/receipts/" ++ newID.Hex ++ ".pdf"))]
        "Failed to process payment" "Maintenance record not found in your society"
        (.payment "Payment processed successfully" newID.Hex
          ("/receipts/" ++ newID.Hex ++ ".pdf"))
        (UpdateOne st.maintenance
          [("society_code", .str (c.GetString "society_code")), ("_id", .oid objID)]
          [("status", .str "paid"), ("paid_date", .time now),
           ("receipt_url", .str ("/receipts/" ++ newID.Hex ++ ".pdf"))]) := by
  simp only [MaintenanceHandler.PayMaintenance, hid, hb, GetSocietyFilter_scoped]
  cases UpdateOne st.maintenance
      [("society_code", .str (c.GetString "society_code")), ("_id", .oid objID)]
      [("status", .str "paid"), ("paid_date", .time now),
       ("receipt_url", .str ("/receipts/" ++ newID.Hex ++ ".pdf"))] <;> rfl

theorem CancelBooking_eq (st : Store) (c : Context) (bookingID : String) (objID : ObjectID)
    (hid : ObjectIDFromHex bookingID = some objID) :
    AmenityHandler.CancelBooking st c bookingID =
      updateReply "amenity_bookings" putBookings st
        [("society_code", .str (c.GetString "society_code")), ("_id", .oid objID)]
        [("status", .str "cancelled")]
        "Failed to cancel booking" "Booking not found in your society"
        (.message "Booking cancelled successfully")
        (UpdateOne st.amenity_bookings
          [("society_code", .str (c.GetString "society_code")), ("_id", .oid objID)]
          [("status", .str "cancelled")]) := by
  simp only [AmenityHandler.CancelBooking, hid, GetSocietyFilter_scoped]
  cases UpdateOne st.amenity_bookings
      [("society_code", .str (c.GetString "society_code")), ("_id", .oid objID)]
      [("status", .str "cancelled")] <;> rfl

theorem UpdateNotice_eq (st : Store) (c : Context) (noticeID : String) (objID : ObjectID)
    (updates : Doc) (hid : ObjectIDFromHex noticeID = some objID) :
    NoticeHandler.UpdateNotice st c noticeID updates =
      updateReply "notices" putNotices st
        [("society_code", .str (c.GetString "society_code")), ("_id", .oid objID)]
        updates "Failed to update notice" "Notice not found in your society"
        (.message "Notice updated successfully")
        (UpdateOne st.notices
          [("society_code", .str (c.GetString "society_code")), ("_id", .oid objID)]
          updates) := by
  simp only [NoticeHandler.UpdateNotice, hid, GetSocietyFilter_scoped]
  cases UpdateOne st.notices
      [("society_code", .str (c.GetString "society_code")), ("_id", .oid objID)]
      updates <;> rfl

theorem DeleteNotice_eq (st : Store) (c : Context) (noticeID : String) (objID : ObjectID)
    (hid : ObjectIDFromHex noticeID = some objID) :
    NoticeHandler.DeleteNotice st c noticeID =
      updateReply "notices" putNotices st
        [("society_code", .str (c.GetString "society_code")), ("_id", .oid objID)]
        [("is_active", .bool false)] "Failed to delete notice"
        "Notice not found in your society" (.message "Notice deleted successfully")
        (UpdateOne st.notices
          [("society_code", .str (c.GetString "society_code")), ("_id", .oid objID)]
          [("is_active", .bool false)]) := by
  simp only [NoticeHandler.DeleteNotice, hid, GetSocietyFilter_scoped]
  cases UpdateOne st.notices
      [("society_code", .str (c.GetString "society_code")), ("_id", .oid objID)]
      [("is_active", .bool false)] <;> rfl

theorem dropWhile_head_false {α : Type} (p : α → Bool) (l : List α)
    (h : ∀ a, l.head? = some a → p a = false) : l.dropWhile p = l := by
  cases l with
  | nil => rfl
  | cons a rest => simp [List.dropWhile, h a rfl]

theorem Trim_dquote_of_no_quote (s : String)
    (hfirst : s.data.head? ≠ some (Char.ofNat 34))
    (hlast : s.data.getLast? ≠ some (Char.ofNat 34)) : Trim s dquote = s := by
  have h1 : s.data.dropWhile (fun ch => dquote.data.contains ch) = s.data := by
    apply dropWhile_head_false
    intro a ha
    have : a ≠ Char.ofNat 34 := fun hh => hfirst (hh ▸ ha)
    simp [dquote, this]
  have h2 : s.data.reverse.dropWhile (fun ch => dquote.data.contains ch) = s.data.reverse := by
    apply dropWhile_head_false
    intro a ha
    rw [List.head?_reverse] at ha
    have : a ≠ Char.ofNat 34 := fun hh => hlast (hh ▸ ha)
    simp [dquote, this]
  unfold Trim
  rw [h1, h2, List.reverse_reverse]

/-- A header with no `Bearer ` in front and no double quote at either end is rejected as
malformed before the token parser is reached. -/
theorem AuthMiddleware_rejects_bare_unquoted (lib : JwtLib) (osEnv : String → String)
    (now : Nat) (r : Request) (c : Context) (hm : r.Method ≠ "OPTIONS")
    (hne : r.GetAuthorization ≠ "")
    (hpfx : "Bearer ".data.isPrefixOf r.GetAuthorization.data = false)
    (hfirst : r.GetAuthorization.data.head? ≠ some (Char.ofNat 34))
    (hlast : r.GetAuthorization.data.getLast? ≠ some (Char.ofNat 34)) :
    AuthMiddleware lib osEnv now r c =
      { outcome := .abort 401 "Invalid authorization header format" c, validated := [] } := by
  have ht : TrimPrefix r.GetAuthorization "Bearer " = r.GetAuthorization := by
    simp [TrimPrefix, hpfx]
  simp [AuthMiddleware, hm, hne, ht, Trim_dquote_of_no_quote _ hfirst hlast]

/-- The sibling by-id read `GetUserByID` stays inside the requester's society. -/
theorem GetUserByID_same_society (st : Store) (c : Context) (userID : String) (u : User)
    (h : (UserHandler.GetUserByID st c userID).resp = ⟨200, .user u⟩) :
    u.SocietyCode = c.GetString "society_code" := by
  unfold UserHandler.GetUserByID at h
  rcases Option.eq_none_or_eq_some (ObjectIDFromHex userID) with hid | ⟨objID, hid⟩
  · simp [hid] at h
  · rcases Option.eq_none_or_eq_some (FindOne User.toDoc st.users
      (assocSet (GetSocietyFilter c) "_id" (.oid objID))) with hf | ⟨found, hf⟩
    · simp [hid, hf] at h
    · simp [hid, hf] at h
      obtain ⟨_, hmatch⟩ := FindOne_some _ _ _ _ hf
      simp [GetSocietyFilter, assocSet, matchesFilter, User.toDoc, assocGet] at hmatch
      rw [← h]
      exact hmatch.1

theorem assocGet_assocSet_same {β : Type} (m : List (String × β)) (k : String) (v : β) :
    assocGet (assocSet m k v) k = some v := by
  induction m with
  | nil => simp [assocSet, assocGet]
  | cons p rest ih =>
    obtain ⟨k', v'⟩ := p
    by_cases h : k' = k
    · simp [assocSet, assocGet, h]
    · simp [assocSet, assocGet, h, ih]

theorem assocGet_assocSet_other {β : Type} (m : List (String × β)) (k k' : String) (v : β)
    (h : k' ≠ k) : assocGet (assocSet m k v) k' = assocGet m k' := by
  induction m with
  | nil => simp [assocSet, assocGet, h.symm]
  | cons p rest ih =>
    obtain ⟨k0, v0⟩ := p
    by_cases h0 : k0 = k
    · subst h0
      simp [assocSet, assocGet, h.symm]
    · by_cases h1 : k0 = k'
      · subst h1
        simp [assocSet, assocGet, h0]
      · simp [assocSet, assocGet, h0, h1, ih]

theorem assocGet_addConstraints (f : Filter) (extra : List (String × BVal)) (k : String)
    (h : ∀ kv ∈ extra, kv.1 ≠ k) : assocGet (addConstraints f extra) k = assocGet f k := by
  induction extra generalizing f with
  | nil => rfl
  | cons kv rest ih =>
    have h1 : kv.1 ≠ k := h kv (List.mem_cons_self kv rest)
    have h2 : ∀ x ∈ rest, x.1 ≠ k := fun x hx => h x (List.mem_cons_of_mem kv hx)
    simp only [addConstraints, List.foldl_cons]
    have := ih (assocSet f kv.1 kv.2) h2
    simp only [addConstraints] at this
    rw [this, assocGet_assocSet_other f kv.1 k kv.2 (Ne.symm h1)]

theorem matchesFilter_assocGet (f : Filter) (d : Doc) (k : String) (v : BVal)
    (hm : matchesFilter f d = true) (hk : assocGet f k = some v) : assocGet d k = some v := by
  induction f with
  | nil => simp [assocGet] at hk
  | cons p rest ih =>
    obtain ⟨k0, v0⟩ := p
    rw [matchesFilter_cons] at hm
    simp only [Bool.and_eq_true, decide_eq_true_eq] at hm
    by_cases h0 : k0 = k
    · subst h0
      simp [assocGet] at hk
      subst hk
      exact hm.1
    · simp [assocGet, h0] at hk
      exact ih hm.2 hk

theorem AuthMiddleware_options (lib : JwtLib) (osEnv : String → String) (now : Nat)
    (r : Request) (c : Context) (hm : r.Method = "OPTIONS") :
    AuthMiddleware lib osEnv now r c = { outcome := .next c, validated := [] } := by
  simp [AuthMiddleware, hm]

theorem AuthMiddleware_missing (lib : JwtLib) (osEnv : String → String) (now : Nat)
    (r : Request) (c : Context) (hm : r.Method ≠ "OPTIONS") (hh : r.GetAuthorization = "") :
    AuthMiddleware lib osEnv now r c =
      { outcome := .abort 401 "Authorization header required" c, validated := [] } := by
  simp [AuthMiddleware, hm, hh]

theorem AuthMiddleware_malformed (lib : JwtLib) (osEnv : String → String) (now : Nat)
    (r : Request) (c : Context) (hm : r.Method ≠ "OPTIONS") (hh : r.GetAuthorization ≠ "")
    (ht : bearerToken r.GetAuthorization = r.GetAuthorization) :
    AuthMiddleware lib osEnv now r c =
      { outcome := .abort 401 "Invalid authorization header format" c, validated := [] } := by
  unfold bearerToken at ht
  simp [AuthMiddleware, hm, hh, ht]

theorem AuthMiddleware_invalid (lib : JwtLib) (osEnv : String → String) (now : Nat)
    (r : Request) (c : Context) (e : JwtError) (hm : r.Method ≠ "OPTIONS")
    (hh : r.GetAuthorization ≠ "")
    (ht : bearerToken r.GetAuthorization ≠ r.GetAuthorization)
    (hv : ValidateToken lib (bearerToken r.GetAuthorization) (Load osEnv).JWTSecret now =
      .error e) :
    AuthMiddleware lib osEnv now r c =
      { outcome := .abort 401 "Invalid token" c,
        validated := [bearerToken r.GetAuthorization] } := by
  unfold bearerToken at ht hv
  simp [AuthMiddleware, hm, hh, ht, hv, bearerToken]

theorem AuthMiddleware_valid (lib : JwtLib) (osEnv : String → String) (now : Nat)
    (r : Request) (c : Context) (claims : Claims) (hm : r.Method ≠ "OPTIONS")
    (hh : r.GetAuthorization ≠ "")
    (ht : bearerToken r.GetAuthorization ≠ r.GetAuthorization)
    (hv : ValidateToken lib (bearerToken r.GetAuthorization) (Load osEnv).JWTSecret now =
      .ok claims) :
    AuthMiddleware lib osEnv now r c =
      { outcome := .next (identityContext c claims),
        validated := [bearerToken r.GetAuthorization] } := by
  unfold bearerToken at ht hv
  simp [AuthMiddleware, hm, hh, ht, hv, bearerToken, identityContext]

/-- The five ways through `AuthMiddleware`. -/
theorem AuthMiddleware_cases (lib : JwtLib) (osEnv : String → String) (now : Nat)
    (r : Request) (c : Context) :
    (r.Method = "OPTIONS" ∧
      AuthMiddleware lib osEnv now r c = { outcome := .next c, validated := [] }) ∨
    (r.Method ≠ "OPTIONS" ∧ r.GetAuthorization = "" ∧
      AuthMiddleware lib osEnv now r c =
        { outcome := .abort 401 "Authorization header required" c, validated := [] }) ∨
    (r.Method ≠ "OPTIONS" ∧ r.GetAuthorization ≠ "" ∧
      bearerToken r.GetAuthorization = r.GetAuthorization ∧
      AuthMiddleware lib osEnv now r c =
        { outcome := .abort 401 "Invalid authorization header format" c,
          validated := [] }) ∨
    (r.Method ≠ "OPTIONS" ∧ r.GetAuthorization ≠ "" ∧
      bearerToken r.GetAuthorization ≠ r.GetAuthorization ∧
      (∃ e, ValidateToken lib (bearerToken r.GetAuthorization) (Load osEnv).JWTSecret now =
        .error e) ∧
      AuthMiddleware lib osEnv now r c =
        { outcome := .abort 401 "Invalid token" c,
          validated := [bearerToken r.GetAuthorization] }) ∨
    (r.Method ≠ "OPTIONS" ∧ r.GetAuthorization ≠ "" ∧
      bearerToken r.GetAuthorization ≠ r.GetAuthorization ∧
      ∃ claims, ValidateToken lib (bearerToken r.GetAuthorization) (Load osEnv).JWTSecret now =
        .ok claims ∧
      AuthMiddleware lib osEnv now r c =
        { outcome := .next (identityContext c claims),
          validated := [bearerToken r.GetAuthorization] }) := by
  by_cases hm : r.Method = "OPTIONS"
  · exact Or.inl ⟨hm, AuthMiddleware_options lib osEnv now r c hm⟩
  by_cases hh : r.GetAuthorization = ""
  · exact Or.inr (Or.inl ⟨hm, hh, AuthMiddleware_missing lib osEnv now r c hm hh⟩)
  by_cases ht : bearerToken r.GetAuthorization = r.GetAuthorization
  · exact Or.inr (Or.inr (Or.inl ⟨hm, hh, ht,
      AuthMiddleware_malformed lib osEnv now r c hm hh ht⟩))
  rcases except_error_or_ok (ValidateToken lib (bearerToken r.GetAuthorization)
      (Load osEnv).JWTSecret now) with ⟨e, hv⟩ | ⟨claims, hv⟩
  · exact Or.inr (Or.inr (Or.inr (Or.inl ⟨hm, hh, ht, ⟨e, hv⟩,
      AuthMiddleware_invalid lib osEnv now r c e hm hh ht hv⟩)))
  · exact Or.inr (Or.inr (Or.inr (Or.inr ⟨hm, hh, ht, claims, hv,
      AuthMiddleware_valid lib osEnv now r c claims hm hh ht hv⟩)))

theorem identityContext_get (c : Context) (claims : Claims) :
    (identityContext c claims).Get "user_id" = some (.str claims.UserID.Hex) ∧
    (identityContext c claims).Get "user_email" = some (.str claims.Email) ∧
    (identityContext c claims).Get "user_role" = some (.str claims.Role) ∧
    (identityContext c claims).Get "society_code" = some (.str claims.SocietyCode) ∧
    (∀ key, key ≠ "user_id" → key ≠ "user_email" → key ≠ "user_role" →
      key ≠ "society_code" → (identityContext c claims).Get key = c.Get key) := by
  unfold identityContext Context.Get Context.Set
  refine ⟨?_, ?_, ?_, ?_, ?_⟩
  · rw [assocGet_assocSet_other _ _ _ _ (by decide), assocGet_assocSet_other _ _ _ _ (by decide),
      assocGet_assocSet_other _ _ _ _ (by decide), assocGet_assocSet_same]
  · rw [assocGet_assocSet_other _ _ _ _ (by decide), assocGet_assocSet_other _ _ _ _ (by decide),
      assocGet_assocSet_same]
  · rw [assocGet_assocSet_other _ _ _ _ (by decide), assocGet_assocSet_same]
  · rw [assocGet_assocSet_same]
  · intro key h1 h2 h3 h4
    rw [assocGet_assocSet_other _ _ _ _ h4, assocGet_assocSet_other _ _ _ _ h3,
      assocGet_assocSet_other _ _ _ _ h2, assocGet_assocSet_other _ _ _ _ h1]


theorem TrimPrefix_append (pfx t : String) : TrimPrefix (pfx ++ t) pfx = t := by
  have h : pfx.data.isPrefixOf (pfx ++ t).data = true := by
    rw [String.data_append, List.isPrefixOf_iff_prefix]
    exact List.prefix_append _ _
  unfold TrimPrefix
  rw [if_pos h, String.data_append, List.drop_left]

theorem Trim_dquote_wrapped (t : String)
    (hfirst : t.data.head? ≠ some (Char.ofNat 34))
    (hlast : t.data.getLast? ≠ some (Char.ofNat 34)) :
    Trim (dquote ++ t ++ dquote) dquote = t := by
  have hq : ∀ ch : Char, dquote.data.contains ch = decide (ch = Char.ofNat 34) := by
    intro ch
    by_cases h : ch = Char.ofNat 34 <;> simp [dquote, h]
  have hdata : (dquote ++ t ++ dquote).data = Char.ofNat 34 :: (t.data ++ [Char.ofNat 34]) := by
    simp [String.data_append, dquote]
  have h1 : (t.data ++ [Char.ofNat 34]).reverse.dropWhile (fun ch => dquote.data.contains ch) =
      t.data.reverse := by
    rw [List.reverse_append]
    simp only [List.reverse_cons, List.reverse_nil, List.nil_append, List.singleton_append]
    rw [List.dropWhile_cons]
    simp only [hq, decide_True, if_true]
    apply dropWhile_head_false
    intro a ha
    rw [List.head?_reverse] at ha
    have : a ≠ Char.ofNat 34 := fun hh => hlast (hh ▸ ha)
    simp [hq, this]
  unfold Trim
  rw [hdata, List.dropWhile_cons]
  simp only [hq, decide_True, if_true]
  cases hd : t.data with
  | nil =>
    have : t = "" := String.ext hd
    subst this
    decide
  | cons a rest =>
    have ha : a ≠ Char.ofNat 34 := by
      intro hh
      apply hfirst
      rw [hd, hh]
      rfl
    have h0 : ((a :: rest) ++ [Char.ofNat 34]).dropWhile
        (fun ch => decide (ch = Char.ofNat 34)) = (a :: rest) ++ [Char.ofNat 34] := by
      simp [List.dropWhile, ha]
    rw [h0]
    have h1' := h1
    rw [hd] at h1'
    simp only [hq] at h1'
    rw [h1', List.reverse_reverse]
    exact String.ext (by simp [hd])

theorem append_ne_self (pfx t : String) (h : pfx ≠ "") : t ≠ pfx ++ t := by
  intro heq
  have hl := congrArg String.length heq
  rw [String.length_append] at hl
  have : pfx.length ≠ 0 := by
    intro h0
    apply h
    apply String.ext
    have : pfx.data.length = 0 := h0
    exact List.length_eq_zero.1 this
  omega

theorem RequireRole_cases (roles : List String) (c : Context) :
    (c.Get "user_role" = none ∧ RequireRole roles c = .abort 403 "User role not found" c) ∨
    (∃ role, c.Get "user_role" = some (.str role) ∧ role ∈ roles ∧
      RequireRole roles c = .next c) ∨
    (∃ role, c.Get "user_role" = some (.str role) ∧ role ∉ roles ∧
      RequireRole roles c = .abort 403 "Insufficient permissions" c) ∨
    (∃ tag, c.Get "user_role" = some (.other tag) ∧ RequireRole roles c = .panic) := by
  rcases Option.eq_none_or_eq_some (c.Get "user_role") with hn | ⟨v, hv⟩
  · exact Or.inl ⟨hn, by simp [RequireRole, hn]⟩
  · cases v with
    | str role =>
      by_cases hmem : role ∈ roles
      · exact Or.inr (Or.inl ⟨role, hv, hmem, by
          simp [RequireRole, hv, RequireRole_scan_eq, hmem]⟩)
      · exact Or.inr (Or.inr (Or.inl ⟨role, hv, hmem, by
          simp [RequireRole, hv, RequireRole_scan_eq, hmem]⟩))
    | other tag =>
      exact Or.inr (Or.inr (Or.inr ⟨tag, hv, by simp [RequireRole, hv]⟩))

theorem bearerToken_plain (t : String)
    (hfirst : t.data.head? ≠ some (Char.ofNat 34))
    (hlast : t.data.getLast? ≠ some (Char.ofNat 34)) : bearerToken ("Bearer " ++ t) = t := by
  unfold bearerToken
  rw [TrimPrefix_append, Trim_dquote_of_no_quote t hfirst hlast]

theorem bearerToken_quoted (t : String)
    (hfirst : t.data.head? ≠ some (Char.ofNat 34))
    (hlast : t.data.getLast? ≠ some (Char.ofNat 34)) :
    bearerToken ("Bearer " ++ (dquote ++ t ++ dquote)) = t := by
  unfold bearerToken
  rw [TrimPrefix_append, Trim_dquote_wrapped t hfirst hlast]

theorem ne_bearer_append (t u : String) (h : u.length ≥ t.length) : t ≠ "Bearer " ++ u := by
  intro heq
  have hl := congrArg String.length heq
  rw [String.length_append] at hl
  have : ("Bearer " : String).length = 7 := by decide
  omega

theorem AuthMiddleware_bearer (lib : JwtLib) (osEnv : String → String) (now : Nat)
    (method : String) (c : Context) (u t : String) (hm : method ≠ "OPTIONS")
    (htok : bearerToken ("Bearer " ++ u) = t) (hlen : u.length ≥ t.length) :
    AuthMiddleware lib osEnv now ⟨method, some ("Bearer " ++ u)⟩ c =
      match ValidateToken lib t (Load osEnv).JWTSecret now with
      | .error _ => { outcome := .abort 401 "Invalid token" c, validated := [t] }
      | .ok claims => { outcome := .next (identityContext c claims), validated := [t] } := by
  have hh : (Request.mk method (some ("Bearer " ++ u))).GetAuthorization = "Bearer " ++ u := rfl
  have hne : (Request.mk method (some ("Bearer " ++ u))).GetAuthorization ≠ "" := by
    rw [hh]
    intro h0
    have := congrArg String.length h0
    rw [String.length_append] at this
    have h7 : ("Bearer " : String).length = 7 := by decide
    have h00 : ("" : String).length = 0 := rfl
    omega
  have hdiff : bearerToken (Request.mk method (some ("Bearer " ++ u))).GetAuthorization ≠
      (Request.mk method (some ("Bearer " ++ u))).GetAuthorization := by
    rw [hh, htok]
    exact ne_bearer_append t u hlen
  rcases except_error_or_ok (ValidateToken lib t (Load osEnv).JWTSecret now)
    with ⟨e, hv⟩ | ⟨claims, hv⟩
  · have hv' : ValidateToken lib
        (bearerToken (Request.mk method (some ("Bearer " ++ u))).GetAuthorization)
        (Load osEnv).JWTSecret now = .error e := by rw [hh, htok]; exact hv
    rw [AuthMiddleware_invalid lib osEnv now _ c e hm hne hdiff hv', hv, hh, htok]
  · have hv' : ValidateToken lib
        (bearerToken (Request.mk method (some ("Bearer " ++ u))).GetAuthorization)
        (Load osEnv).JWTSecret now = .ok claims := by rw [hh, htok]; exact hv
    rw [AuthMiddleware_valid lib osEnv now _ c claims hm hne hdiff hv', hv, hh, htok]

theorem demoLawfulJwt_lawful : demoLawfulJwt.Lawful := by
  intro claims key token hs
  simp only [demoLawfulJwt] at hs ⊢
  split at hs
  · rename_i hc
    cases hs
    obtain ⟨h1, h2⟩ := hc
    subst h1
    subst h2
    rfl
  · cases hs

theorem NewNumericDate_add_ttl (t : Nat) :
    NewNumericDate (t + tokenTTL) = NewNumericDate t + 86400 := by
  unfold NewNumericDate tokenTTL nsPerSec
  omega

theorem NewNumericDate_mul_le (t : Nat) : NewNumericDate t * nsPerSec ≤ t := by
  unfold NewNumericDate
  exact Nat.div_mul_le_self t nsPerSec

theorem ValidateToken_expired_iff (lib : JwtLib) (token key : String) (now : Nat)
    (claims : Claims) (hv : lib.verify token key = .ok claims) :
    ValidateToken lib token key now = .error JwtError.expired ↔
      claims.ExpiresAt * nsPerSec ≤ now := by
  by_cases h : now < claims.ExpiresAt * nsPerSec
  · simp [ValidateToken, ParseWithClaims, hv, h]
  · simp [ValidateToken, ParseWithClaims, hv, h]
    omega

theorem InsertOneUser_some (users : List User) (u : User) (l : List User)
    (h : InsertOneUser users u = some l) :
    l = users ++ [u] ∧
    ∀ v ∈ users, v.ID ≠ u.ID ∧ ¬ (v.Email = u.Email ∧ v.SocietyCode = u.SocietyCode) := by
  unfold InsertOneUser at h
  split at h
  · exact absurd h (by simp)
  · rename_i hany
    simp only [Option.some.injEq] at h
    refine ⟨h.symm, ?_⟩
    intro v hv
    simp only [List.any_eq_true, Bool.or_eq_true, Bool.and_eq_true, decide_eq_true_eq,
      not_exists, not_and, not_or] at hany
    have := hany v hv
    exact ⟨this.1, fun hh => this.2 hh.1 hh.2⟩

theorem InsertOneUser_dup (users : List User) (u v : User) (hv : v ∈ users)
    (he : v.Email = u.Email) (hc : v.SocietyCode = u.SocietyCode) :
    InsertOneUser users u = none := by
  unfold InsertOneUser
  rw [if_pos]
  simp only [List.any_eq_true, Bool.or_eq_true, Bool.and_eq_true, decide_eq_true_eq]
  exact ⟨v, hv, Or.inr ⟨he, hc⟩⟩

theorem InsertOneUser_fresh (users : List User) (u : User)
    (hid : ∀ v ∈ users, v.ID ≠ u.ID)
    (hpair : ∀ v ∈ users, v.Email = u.Email → v.SocietyCode ≠ u.SocietyCode) :
    InsertOneUser users u = some (users ++ [u]) := by
  unfold InsertOneUser
  rw [if_neg]
  simp only [List.any_eq_true, Bool.or_eq_true, Bool.and_eq_true, decide_eq_true_eq,
    not_exists, not_and, not_or]
  intro v hv
  exact ⟨hid v hv, hpair v hv⟩

theorem Register_inserted (h : AuthHandler) (env : Env) (st : Store) (req : RegisterRequest)
    (newID : ObjectID) (tc tu : Nat) (society : Society) (hashed : String)
    (users : List User) (hb : req.bind env = true)
    (hs : FindOne Society.toDoc st.societies
      [("code", .str req.SocietyCode), ("is_active", .bool true)] = some society)
    (hg : env.GenerateFromPassword req.Password = some hashed)
    (hi : InsertOneUser st.users (registeredUser req society hashed newID tc tu) = some users) :
    h.Register env st req newID tc tu =
      { resp := ⟨201, .userCreated
          { registeredUser req society hashed newID tc tu with Password := "" }⟩,
        store := { st with users := users },
        log := [.findOne "societies"
                  [("code", .str req.SocietyCode), ("is_active", .bool true)],
                .generateFromPassword req.Password,
                .insertOneUser (registeredUser req society hashed newID tc tu)] } := by
  unfold registeredUser at hi
  simp [AuthHandler.Register, hb, hs, hg, hi, registeredUser]

theorem Register_duplicate (h : AuthHandler) (env : Env) (st : Store) (req : RegisterRequest)
    (newID : ObjectID) (tc tu : Nat) (society : Society) (hashed : String)
    (hb : req.bind env = true)
    (hs : FindOne Society.toDoc st.societies
      [("code", .str req.SocietyCode), ("is_active", .bool true)] = some society)
    (hg : env.GenerateFromPassword req.Password = some hashed)
    (hi : InsertOneUser st.users (registeredUser req society hashed newID tc tu) = none) :
    h.Register env st req newID tc tu =
      { resp := ⟨409, .error "User already exists in this society"⟩,
        store := st,
        log := [.findOne "societies"
                  [("code", .str req.SocietyCode), ("is_active", .bool true)],
                .generateFromPassword req.Password,
                .insertOneUser (registeredUser req society hashed newID tc tu)] } := by
  unfold registeredUser at hi
  simp [AuthHandler.Register, hb, hs, hg, hi, registeredUser]

/-- What `Register` leaves in the store: nothing new, or one account appended that passed the
unique indexes. -/
theorem Register_store_cases (h : AuthHandler) (env : Env) (st : Store) (req : RegisterRequest)
    (newID : ObjectID) (tc tu : Nat) :
    (h.Register env st req newID tc tu).store = st ∨
    ∃ society hashed,
      InsertOneUser st.users (registeredUser req society hashed newID tc tu) =
        some (st.users ++ [registeredUser req society hashed newID tc tu]) ∧
      (h.Register env st req newID tc tu).store =
        { st with users := st.users ++ [registeredUser req society hashed newID tc tu] } := by
  rcases Bool.eq_false_or_eq_true (req.bind env) with hb | hb
  swap
  · left; simp [AuthHandler.Register, hb]
  rcases Option.eq_none_or_eq_some (FindOne Society.toDoc st.societies
      [("code", .str req.SocietyCode), ("is_active", .bool true)]) with hs | ⟨society, hs⟩
  · left; simp [AuthHandler.Register, hb, hs]
  rcases Option.eq_none_or_eq_some (env.GenerateFromPassword req.Password)
    with hg | ⟨hashed, hg⟩
  · left; simp [AuthHandler.Register, hb, hs, hg]
  rcases Option.eq_none_or_eq_some
      (InsertOneUser st.users (registeredUser req society hashed newID tc tu))
    with hi | ⟨users, hi⟩
  · left
    rw [Register_duplicate h env st req newID tc tu society hashed hb hs hg hi]
  · right
    obtain ⟨hl, _⟩ := InsertOneUser_some _ _ _ hi
    subst hl
    exact ⟨society, hashed, hi, by
      rw [Register_inserted h env st req newID tc tu society hashed _ hb hs hg hi]⟩

theorem UniqueEmailSociety_append (users : List User) (u : User)
    (huniq : UniqueEmailSociety users)
    (hnew : ∀ v ∈ users, ¬ (v.Email = u.Email ∧ v.SocietyCode = u.SocietyCode)) :
    UniqueEmailSociety (users ++ [u]) := by
  intro a ha b hb he hc
  simp only [List.mem_append, List.mem_singleton] at ha hb
  rcases ha with ha | ha <;> rcases hb with hb | hb
  · exact huniq a ha b hb he hc
  · subst hb
    exact absurd ⟨he, hc⟩ (hnew a ha)
  · subst ha
    exact absurd ⟨he.symm, hc.symm⟩ (hnew b hb)
  · rw [ha, hb]

/-- What a successful `Register` did, in full. -/
theorem Register_success_full (h : AuthHandler) (env : Env) (st : Store)
    (req : RegisterRequest) (newID : ObjectID) (tc tu : Nat)
    (hok : (h.Register env st req newID tc tu).resp.status = 201) :
    ∃ society hashed,
      req.bind env = true ∧
      society ∈ st.societies ∧ society.Code = req.SocietyCode ∧ society.IsActive = true ∧
      env.GenerateFromPassword req.Password = some hashed ∧
      h.Register env st req newID tc tu =
        { resp := ⟨201, .userCreated
            { registeredUser req society hashed newID tc tu with Password := "" }⟩,
          store :=
            { st with users := st.users ++ [registeredUser req society hashed newID tc tu] },
          log := [.findOne "societies"
                    [("code", .str req.SocietyCode), ("is_active", .bool true)],
                  .generateFromPassword req.Password,
                  .insertOneUser (registeredUser req society hashed newID tc tu)] } := by
  obtain ⟨society, hashed, hb, hs, hg, hstore, _⟩ :=
    Register_success_inv h env st req newID tc tu hok
  obtain ⟨hsm, hsc, hsa⟩ := society_lookup_some _ _ _ hs
  refine ⟨society, hashed, hb, hsm, hsc, hsa, hg, ?_⟩
  rcases Option.eq_none_or_eq_some
      (InsertOneUser st.users (registeredUser req society hashed newID tc tu))
    with hi | ⟨users, hi⟩
  · rw [Register_duplicate h env st req newID tc tu society hashed hb hs hg hi] at hok
    simp at hok
  · obtain ⟨hl, _⟩ := InsertOneUser_some _ _ _ hi
    subst hl
    exact Register_inserted h env st req newID tc tu society hashed _ hb hs hg hi

theorem bind_role_irrelevant (env : Env) (req : RegisterRequest) (role : String)
    (h1 : req.Role ≠ "") (h2 : role ≠ "") :
    RegisterRequest.bind env { req with Role := role } = RegisterRequest.bind env req := by
  simp [RegisterRequest.bind, h1, h2]

theorem split_at_last_dash (x1 x2 y1 y2 : List Char) (h1 : dash ∉ y1) (h2 : dash ∉ y2)
    (h : x1 ++ dash :: y1 = x2 ++ dash :: y2) : x1 = x2 ∧ y1 = y2 := by
  induction x1 generalizing x2 with
  | nil =>
    cases x2 with
    | nil => simpa using h
    | cons c x2 =>
      simp only [List.nil_append, List.cons_append, List.cons.injEq] at h
      exact absurd (h.2 ▸ List.mem_append_right x2 (List.mem_cons_self dash y2)) h1
  | cons c x1 ih =>
    cases x2 with
    | nil =>
      simp only [List.nil_append, List.cons_append, List.cons.injEq] at h
      exact absurd (h.2 ▸ List.mem_append_right x1 (List.mem_cons_self dash y1)) h2
    | cons c2 x2 =>
      simp only [List.cons_append, List.cons.injEq] at h
      obtain ⟨hx, hy⟩ := ih x2 h.2
      exact ⟨by rw [h.1, hx], hy⟩

theorem decimalDigit_toNat (d : Nat) (h : d < 10) : (decimalDigit d).toNat = 48 + d := by
  interval_cases d <;> rfl

theorem decimalDigit_ne_dash (d : Nat) (h : d < 10) : decimalDigit d ≠ dash := by
  interval_cases d <;> decide

theorem decimalOf_digits (fuel n : Nat) :
    ∀ c ∈ decimalOf fuel n, ∃ d, d < 10 ∧ c = decimalDigit d := by
  induction fuel generalizing n with
  | zero => intro c hc; simp [decimalOf] at hc
  | succ fuel ih =>
    intro c hc
    unfold decimalOf at hc
    split at hc
    · rename_i hlt
      simp only [List.mem_singleton] at hc
      exact ⟨n, hlt, hc⟩
    · simp only [List.mem_append, List.mem_singleton] at hc
      rcases hc with hc | hc
      · exact ih _ c hc
      · exact ⟨n % 10, Nat.mod_lt _ (by decide), hc⟩

theorem dash_not_mem_formatNat (n : Nat) : dash ∉ formatNat n := by
  intro hmem
  obtain ⟨d, hd, he⟩ := decimalOf_digits _ _ _ hmem
  exact decimalDigit_ne_dash d hd he.symm

theorem decimalValue_decimalOf (fuel n : Nat) (h : n < fuel) :
    decimalValue (decimalOf fuel n) = n := by
  induction fuel generalizing n with
  | zero => omega
  | succ fuel ih =>
    unfold decimalOf
    split
    · rename_i hlt
      simp [decimalValue, decimalDigit_toNat n hlt]
    · rename_i hge
      have hrec := ih (n / 10) (by omega)
      unfold decimalValue at hrec ⊢
      rw [List.foldl_append, hrec]
      simp [decimalDigit_toNat (n % 10) (Nat.mod_lt _ (by decide))]
      omega

theorem formatNat_injective (n m : Nat) (h : formatNat n = formatNat m) : n = m := by
  have h1 := decimalValue_decimalOf (n + 1) n (by omega)
  have h2 := decimalValue_decimalOf (m + 1) m (by omega)
  unfold formatNat at h
  rw [h] at h1
  omega

theorem hexDigit_toNat (d : Nat) (h : d < 16) :
    (hexDigit d).toNat = if d < 10 then 48 + d else 87 + d := by
  interval_cases d <;> rfl

theorem hexDigit_ne_dash (d : Nat) (h : d < 16) : hexDigit d ≠ dash := by
  interval_cases d <;> decide

theorem hexDigit_injective (a b : Nat) (ha : a < 16) (hb : b < 16)
    (h : hexDigit a = hexDigit b) : a = b := by
  have h1 := hexDigit_toNat a ha
  have h2 := hexDigit_toNat b hb
  rw [h] at h1
  rw [h1] at h2
  split at h2 <;> split at h2 <;> omega

theorem dash_not_mem_hexOfNat (k n : Nat) : dash ∉ hexOfNat k n := by
  induction k generalizing n with
  | zero => simp [hexOfNat]
  | succ k ih =>
    unfold hexOfNat
    simp only [List.mem_append, List.mem_singleton, not_or]
    exact ⟨ih _, fun he => hexDigit_ne_dash _ (Nat.mod_lt _ (by decide)) he.symm⟩

theorem hexOfNat_length (k n : Nat) : (hexOfNat k n).length = k := by
  induction k generalizing n with
  | zero => simp [hexOfNat]
  | succ k ih => simp [hexOfNat, ih]

theorem hexOfNat_injective (k n m : Nat) (hn : n < 16 ^ k) (hm : m < 16 ^ k)
    (h : hexOfNat k n = hexOfNat k m) : n = m := by
  induction k generalizing n m with
  | zero => simp at hn hm; omega
  | succ k ih =>
    unfold hexOfNat at h
    have hlen : (hexOfNat k (n / 16)).length = (hexOfNat k (m / 16)).length := by
      rw [hexOfNat_length, hexOfNat_length]
    obtain ⟨hl, hr⟩ := List.append_inj h hlen
    simp only [List.cons.injEq, and_true] at hr
    have hd := hexDigit_injective _ _ (Nat.mod_lt n (by decide)) (Nat.mod_lt m (by decide)) hr
    have hq := ih (n / 16) (m / 16)
      (by rw [pow_succ] at hn; omega) (by rw [pow_succ] at hm; omega) hl
    omega

theorem Hex_injective (id1 id2 : ObjectID) (h : id1.Hex = id2.Hex) : id1 = id2 := by
  unfold ObjectID.Hex at h
  have hd : hexOfNat 24 id1.val = hexOfNat 24 id2.val := by
    simpa using congrArg String.data h
  have h1 : id1.val < 16 ^ 24 := by have := id1.isLt; norm_num at this ⊢; exact this
  have h2 : id2.val < 16 ^ 24 := by have := id2.isLt; norm_num at this ⊢; exact this
  exact Fin.ext (hexOfNat_injective 24 _ _ h1 h2 hd)

theorem dash_not_mem_Hex (id : ObjectID) : dash ∉ (ObjectID.Hex id).data := by
  unfold ObjectID.Hex
  exact dash_not_mem_hexOfNat 24 _

theorem GenerateQRCode_data (v s : String) (n : Nat) :
    (GenerateQRCode v s (Int.ofNat n)).data =
      (("BMS-".data ++ s.data) ++ dash :: v.data) ++ dash :: formatNat n := by
  simp [GenerateQRCode, formatInt, String.data_append, dash]

theorem QRCode_parts_equal (v1 v2 s1 s2 : String) (n1 n2 : Nat)
    (hv1 : dash ∉ v1.data) (hv2 : dash ∉ v2.data)
    (h : GenerateQRCode v1 s1 (Int.ofNat n1) = GenerateQRCode v2 s2 (Int.ofNat n2)) :
    v1 = v2 ∧ s1 = s2 ∧ n1 = n2 := by
  have hd := congrArg String.data h
  rw [GenerateQRCode_data, GenerateQRCode_data] at hd
  obtain ⟨hx, hf⟩ := split_at_last_dash _ _ _ _ (dash_not_mem_formatNat n1)
    (dash_not_mem_formatNat n2) hd
  obtain ⟨hs, hv⟩ := split_at_last_dash _ _ _ _ hv1 hv2 hx
  exact ⟨String.ext hv, String.ext (List.append_cancel_left hs), formatNat_injective _ _ hf⟩

/-- The created visitor of a successful `CreateVisitor` carries the QR code of its new id. -/
theorem CreateVisitor_qr_code (st : Store) (c : Context) (visitor : Visitor) (newID : ObjectID)
    (timestamp : Int) (tc tu te : Nat)
    (hok : (VisitorHandler.CreateVisitor st c visitor newID timestamp tc tu te).resp.status =
      201) :
    ∃ doc,
      (VisitorHandler.CreateVisitor st c visitor newID timestamp tc tu te).resp =
        ⟨201, .doc doc⟩ ∧
      assocGet doc "_id" = some (.oid newID) ∧
      assocGet doc "qr_code" =
        some (.str (GenerateQRCode newID.Hex (c.GetString "society_code") timestamp)) := by
  rcases Bool.eq_false_or_eq_true visitor.bind with hb | hb
  swap
  · simp [VisitorHandler.CreateVisitor, hb] at hok
  rcases Option.eq_none_or_eq_some
      (FindOne Society.toDoc st.societies [("code", .str (c.GetString "society_code"))])
    with hs | ⟨society, hs⟩
  · simp [VisitorHandler.CreateVisitor, hb, hs] at hok
  simp only [VisitorHandler.CreateVisitor, hb, hs, Bool.not_true, Bool.false_eq_true,
    if_false] at hok ⊢
  split at hok
  · simp at hok
  · rename_i visitors hi
    simp only [hi]
    refine ⟨_, rfl, ?_, ?_⟩
    · cases visitor.ExpectedTime <;> simp [Visitor.toDoc, assocGet]
    · cases visitor.ExpectedTime <;> cases visitor.ActualArrival <;>
        cases visitor.ActualDeparture <;> simp [Visitor.toDoc, assocGet]

theorem GetStringStep_eq (c : Context) (key : String) :
    c.GetStringStep key = (c.GetString key, c) := by
  rfl

theorem GetSocietyFilterStep_eq (c : Context) (heap : MapHeap) :
    GetSocietyFilterStep c heap = (heap.length, c, heap ++ [GetSocietyFilter c]) := by
  simp [GetSocietyFilterStep, GetStringStep_eq, MapHeap.make, GetSocietyFilter]

theorem deref_append_length (heap : MapHeap) (m : Filter) (rest : MapHeap) :
    MapHeap.deref (heap ++ m :: rest) heap.length = some m := by
  induction heap with
  | nil => rfl
  | cons a heap ih => simpa [MapHeap.deref] using ih

theorem deref_length (heap : MapHeap) : MapHeap.deref heap heap.length = none := by
  induction heap with
  | nil => rfl
  | cons a heap ih => simpa [MapHeap.deref] using ih

theorem deref_some_lt (heap : MapHeap) (r : MapRef) (m : Filter)
    (h : MapHeap.deref heap r = some m) : r < heap.length := by
  induction heap generalizing r with
  | nil => simp [MapHeap.deref] at h
  | cons a heap ih =>
    cases r with
    | zero => simp
    | succ r =>
      simp only [MapHeap.deref] at h
      exact Nat.succ_lt_succ (ih r h)

theorem deref_append_of_some (heap : MapHeap) (r : MapRef) (m : Filter) (more : MapHeap)
    (h : MapHeap.deref heap r = some m) : MapHeap.deref (heap ++ more) r = some m := by
  induction heap generalizing r with
  | nil => simp [MapHeap.deref] at h
  | cons a heap ih =>
    cases r with
    | zero => simpa [MapHeap.deref] using h
    | succ r =>
      simp only [MapHeap.deref, List.cons_append] at h ⊢
      exact ih r h

theorem deref_assign_other (heap : MapHeap) (r1 r2 : MapRef) (key : String) (val : BVal)
    (hne : r2 ≠ r1) :
    MapHeap.deref (MapHeap.assign heap r1 key val) r2 = MapHeap.deref heap r2 := by
  induction heap generalizing r1 r2 with
  | nil => simp [MapHeap.assign]
  | cons a heap ih =>
    cases r1 with
    | zero =>
      cases r2 with
      | zero => exact absurd rfl hne
      | succ r2 => simp [MapHeap.assign, MapHeap.deref]
    | succ r1 =>
      cases r2 with
      | zero => simp [MapHeap.assign, MapHeap.deref]
      | succ r2 =>
        simp only [MapHeap.assign, MapHeap.deref]
        exact ih r1 r2 (fun h => hne (by rw [h]))

/-- Claim C1, evaluated on the code where it fails: a requester whose context carries society
`SOC-A` calls the by-id reads `GetVisitorByID` and `GetMaintenanceByID` with the ids of records
of `SOC-B`; the filter handed to the store is `{_id}` alone, with no `society_code` entry, and
both handlers answer 200 with the record of the other society, where the sibling `GetUserByID`
asked for a user of `SOC-B` filters by `{society_code, _id}` and answers 404. -/
theorem byID_reads_cross_society :
    Context.GetString demoContextA "society_code" = "SOC-A" ∧
    VisitorHandler.GetVisitorByID demoStore demoContextA "000000000000000000000014" =
      { resp := ⟨200, .doc demoVisitorB⟩, store := demoStore,
        log := [.findOne "visitors" [("_id", .oid 20)]] } ∧
    assocGet demoVisitorB "society_code" = some (.str "SOC-B") ∧
    MaintenanceHandler.GetMaintenanceByID demoStore demoContextA "00000000000000000000001e" =
      { resp := ⟨200, .doc demoMaintenanceB⟩, store := demoStore,
        log := [.findOne "maintenance" [("_id", .oid 30)]] } ∧
    assocGet demoMaintenanceB "society_code" = some (.str "SOC-B") ∧
    UserHandler.GetUserByID demoStore demoContextA "00000000000000000000000b" =
      { resp := ⟨404, .error "User not found in your society"⟩, store := demoStore,
        log := [.findOne "users" [("society_code", .str "SOC-A"), ("_id", .oid 11)]] } := by
  decide

/-- Claim C2: `RequireRole` is a three-way decision. With no `user_role` entry the request is
aborted with 403 `User role not found`; with a role string the next stage runs exactly when the
string is an element of the allow-list, and otherwise the request is aborted with 403
`Insufficient permissions`, so an empty allow-list rejects every role; `RequireRole("secretary")`
rejects `resident` and `RequireRole("resident", "secretary")` passes `secretary`. -/
theorem RequireRole_three_way (roles : List String) (c : Context) :
    (c.Get "user_role" = none →
        RequireRole roles c = .abort 403 "User role not found" c) ∧
    (∀ roleStr, c.Get "user_role" = some (.str roleStr) →
        (RequireRole roles c = .next c ↔ roleStr ∈ roles) ∧
        (roleStr ∉ roles → RequireRole roles c = .abort 403 "Insufficient permissions" c) ∧
        RequireRole [] c = .abort 403 "Insufficient permissions" c) ∧
    RequireRole ["secretary"] [("user_role", .str "resident")] =
      .abort 403 "Insufficient permissions" [("user_role", .str "resident")] ∧
    RequireRole ["resident", "secretary"] [("user_role", .str "secretary")] =
      .next [("user_role", .str "secretary")] := by
  refine ⟨?_, ?_, ?_, ?_⟩
  · intro h
    simp [RequireRole, h]
  · intro roleStr h
    refine ⟨?_, ?_, ?_⟩
    · simp only [RequireRole, h, RequireRole_scan_eq]
      by_cases hm : roleStr ∈ roles <;> simp [hm]
    · intro hm
      simp [RequireRole, h, RequireRole_scan_eq, hm]
    · simp [RequireRole, h, RequireRole.scan]
  · decide
  · decide

theorem RequireRole_three_way_witness :
    (Context.Get demoContextA "user_role" = some (.str "resident")) ∧
    ((RequireRole ["secretary", "security"] demoContextA = .next demoContextA ↔
        "resident" ∈ ["secretary", "security"]) ∧
      ("resident" ∉ ["secretary", "security"] →
        RequireRole ["secretary", "security"] demoContextA =
          .abort 403 "Insufficient permissions" demoContextA) ∧
      RequireRole [] demoContextA = .abort 403 "Insufficient permissions" demoContextA) :=
  ⟨by decide,
   (RequireRole_three_way ["secretary", "security"] demoContextA).2.1 "resident" (by decide)⟩

/-- Claim C3, evaluated on the code where it fails: the header value is a token wrapped in double
quotes with no `Bearer ` in front; `AuthMiddleware` strips the quotes, finds the result different
from the header and hands the bare token to `ValidateToken`, whatever the codec, the environment
and the context; with a codec that accepts the token the request goes through with the identity
of the token. -/
theorem AuthMiddleware_quoted_header_taken_as_token (lib : JwtLib) (osEnv : String → String)
    (now : Nat) (c : Context) :
    "Bearer ".data.isPrefixOf "\x22tok:SOC-A\x22".data = false ∧
    (AuthMiddleware lib osEnv now ⟨"GET", some "\x22tok:SOC-A\x22"⟩ c).validated =
      ["tok:SOC-A"] ∧
    AuthMiddleware demoJwt demoOsEnv 0 ⟨"GET", some "\x22tok:SOC-A\x22"⟩ [] =
      { outcome := .next demoContextA, validated := ["tok:SOC-A"] } := by
  refine ⟨by decide, ?_, by decide⟩
  have h1 : (Request.mk "GET" (some "\x22tok:SOC-A\x22")).GetAuthorization =
      "\x22tok:SOC-A\x22" := rfl
  have h2 : Trim (TrimPrefix "\x22tok:SOC-A\x22" "Bearer ") dquote = "tok:SOC-A" := by decide
  have h3 : ("tok:SOC-A" : String) ≠ "\x22tok:SOC-A\x22" := by decide
  have h4 : ("\x22tok:SOC-A\x22" : String) ≠ "" := by decide
  have h5 : ("GET" : String) ≠ "OPTIONS" := by decide
  unfold AuthMiddleware
  simp only [h1, h2, h5, h4, h3, if_false]
  cases ValidateToken lib "tok:SOC-A" (Load osEnv).JWTSecret now <;> rfl

/-- Claim C4 fails as stated: in a store where two active accounts share the email `bob@x.com`
and the society code `SOC-A`, the request with the password of the second account matches an
active account of an active society, yet `Login` answers 401 `Invalid credentials`: the password
is compared with the first account the store returns for the pair. -/
theorem Login_rejects_duplicate_account :
    demoSocietyA ∈ demoDuplicateStore.societies ∧ demoSocietyA.Code = "SOC-A" ∧
    demoSocietyA.IsActive = true ∧
    demoUserA2 ∈ demoDuplicateStore.users ∧ demoUserA2.Email = "bob@x.com" ∧
    demoUserA2.SocietyCode = "SOC-A" ∧ demoUserA2.IsActive = true ∧
    demoEnv.CompareHashAndPassword demoUserA2.Password "pw2" = true ∧
    LoginRequest.bind demoEnv ⟨"bob@x.com", "pw2", "SOC-A"⟩ = true ∧
    (demoHandler.Login demoEnv demoDuplicateStore ⟨"bob@x.com", "pw2", "SOC-A"⟩ 0 0).resp =
      ⟨401, .error "Invalid credentials"⟩ ∧
    ¬ UniqueEmailSociety demoDuplicateStore.users := by
  refine ⟨by decide, by decide, by decide, by decide, by decide, by decide, by decide,
    by decide, by decide, by decide, ?_⟩
  intro huniq
  exact absurd (huniq demoUserA (by decide) demoUserA2 (by decide) rfl rfl) (by decide)

/-- Claim C4 as amended: on a store that keeps the pair `(email, society_code)` unique, for a
request that passes binding and matches an active account of an active society, `Login` answers
200 with a token minted by `GenerateToken` from exactly that account's id, email, role and
society code; when the codec gives back what it signs, validating the token under the handler's
secret before expiry yields claims with the account's society code, role, id and email. -/
theorem Login_token_minted_from_account (h : AuthHandler) (env : Env) (st : Store)
    (req : LoginRequest) (t1 t2 now : Nat) (society : Society) (account : User)
    (hbind : req.bind env = true)
    (hsoc : society ∈ st.societies) (hcode : society.Code = req.SocietyCode)
    (hact : society.IsActive = true)
    (hacc : account ∈ st.users) (hemail : account.Email = req.Email)
    (hsc : account.SocietyCode = req.SocietyCode) (hua : account.IsActive = true)
    (hpw : env.CompareHashAndPassword account.Password req.Password = true)
    (huniq : UniqueEmailSociety st.users)
    (hcodec : env.jwt.RoundTripAt
      (mintClaims account.ID account.Email account.Role account.SocietyCode t1 t2) h.jwtSecret)
    (hnow : now < NewNumericDate (t1 + tokenTTL) * nsPerSec) :
    ∃ token soc claims,
      (h.Login env st req t1 t2).resp =
        ⟨200, .login { Token := token, User := { account with Password := "" }, Society := soc }⟩ ∧
      GenerateToken env.jwt account.ID account.Email account.Role account.SocietyCode
        h.jwtSecret t1 t2 = .ok token ∧
      ValidateToken env.jwt token h.jwtSecret now = .ok claims ∧
      claims.SocietyCode = account.SocietyCode ∧ claims.Role = account.Role ∧
      claims.UserID = account.ID ∧ claims.Email = account.Email := by
  obtain ⟨s', hs'⟩ := society_lookup_isSome st.societies req.SocietyCode society hsoc hcode hact
  obtain ⟨u', hu'⟩ := user_lookup_isSome st.users req.Email req.SocietyCode account hacc hemail
    hsc hua
  obtain ⟨hu'm, hu'e, hu'c, _⟩ := user_lookup_some _ _ _ _ hu'
  have hsame : u' = account :=
    huniq u' hu'm account hacc (hu'e.trans hemail.symm) (hu'c.trans hsc.symm)
  subst hsame
  obtain ⟨token, hsign, hver⟩ := hcodec
  have hgen : GenerateToken env.jwt u'.ID u'.Email u'.Role u'.SocietyCode h.jwtSecret t1 t2 =
      .ok token := hsign
  refine ⟨token, societyResponse s', _, ?_, hgen, ValidateToken_of_verify _ _ _ _ _ hver hnow,
    rfl, rfl, rfl, rfl⟩
  simp [AuthHandler.Login, hbind, hs', hu', hpw, hgen]

theorem Login_token_minted_from_account_witness :
    ∃ token soc claims,
      (demoHandler.Login demoEnv demoStore ⟨"bob@x.com", "pw", "SOC-A"⟩ 0 0).resp =
        ⟨200, .login
          { Token := token, User := { demoUserA with Password := "" }, Society := soc }⟩ ∧
      GenerateToken demoEnv.jwt demoUserA.ID demoUserA.Email demoUserA.Role
        demoUserA.SocietyCode demoHandler.jwtSecret 0 0 = .ok token ∧
      ValidateToken demoEnv.jwt token demoHandler.jwtSecret 0 = .ok claims ∧
      claims.SocietyCode = demoUserA.SocietyCode ∧ claims.Role = demoUserA.Role ∧
      claims.UserID = demoUserA.ID ∧ claims.Email = demoUserA.Email :=
  Login_token_minted_from_account demoHandler demoEnv demoStore ⟨"bob@x.com", "pw", "SOC-A"⟩
    0 0 0 demoSocietyA demoUserA (by decide) (by decide) (by decide) (by decide) (by decide)
    (by decide) (by decide) (by decide) (by decide) (by unfold UniqueEmailSociety; decide)
    ⟨"tok:SOC-A", rfl, rfl⟩ (by decide)

/-- Claim C5: whenever `Login` answers 200, the account in the response is a stored account with
the request's email and the request's society code, the society in the response has that code,
and the token was minted with that code; no account of another society is returned, and under
the unique index on `(email, society_code)` the stored account with the request's email and
society code is the one returned. -/
theorem Login_success_returns_requested_account (h : AuthHandler) (env : Env) (st : Store)
    (req : LoginRequest) (t1 t2 : Nat)
    (hok : (h.Login env st req t1 t2).resp.status = 200) :
    ∃ token account soc,
      (h.Login env st req t1 t2).resp =
        ⟨200, .login { Token := token, User := { account with Password := "" }, Society := soc }⟩ ∧
      account ∈ st.users ∧
      account.Email = req.Email ∧ account.SocietyCode = req.SocietyCode ∧
      soc.Code = req.SocietyCode ∧
      GenerateToken env.jwt account.ID account.Email account.Role req.SocietyCode
        h.jwtSecret t1 t2 = .ok token ∧
      (∀ B ∈ st.users, B.SocietyCode ≠ req.SocietyCode → account ≠ B) ∧
      (UniqueEmailSociety st.users → ∀ A ∈ st.users, A.Email = req.Email →
        A.SocietyCode = req.SocietyCode → account = A) := by
  obtain ⟨society, account, token, _, hs, hu, _, hg, hL⟩ := Login_success_inv h env st req t1 t2 hok
  obtain ⟨_, hsc, _⟩ := society_lookup_some _ _ _ hs
  obtain ⟨hum, hue, huc, _⟩ := user_lookup_some _ _ _ _ hu
  refine ⟨token, account, societyResponse society, ?_, hum, hue, huc, ?_, ?_, ?_, ?_⟩
  · rw [hL]
  · simpa [societyResponse] using hsc
  · rw [← huc]; exact hg
  · intro B _ hB hAB
    exact hB (hAB ▸ huc)
  · intro huniq A hA hAe hAc
    exact huniq account hum A hA (hue.trans hAe.symm) (huc.trans hAc.symm)

theorem Login_success_returns_requested_account_witness :
    ∃ token account soc,
      (demoHandler.Login demoEnv demoStore ⟨"bob@x.com", "pw2", "SOC-B"⟩ 0 0).resp =
        ⟨200, .login { Token := token, User := { account with Password := "" }, Society := soc }⟩ ∧
      account ∈ demoStore.users ∧
      account.Email = "bob@x.com" ∧ account.SocietyCode = "SOC-B" ∧
      soc.Code = "SOC-B" ∧
      GenerateToken demoEnv.jwt account.ID account.Email account.Role "SOC-B"
        demoHandler.jwtSecret 0 0 = .ok token ∧
      (∀ B ∈ demoStore.users, B.SocietyCode ≠ "SOC-B" → account ≠ B) ∧
      (UniqueEmailSociety demoStore.users → ∀ A ∈ demoStore.users, A.Email = "bob@x.com" →
        A.SocietyCode = "SOC-B" → account = A) :=
  Login_success_returns_requested_account demoHandler demoEnv demoStore
    ⟨"bob@x.com", "pw2", "SOC-B"⟩ 0 0 (by decide)

/-- Claim C6: in an active society, a login for an email with no active account there (also a
deactivated one) and a login for an existing active account with a password the hash rejects
get the same response, 401 `Invalid credentials`, and neither call mints a token. -/
theorem Login_invalid_credentials_indistinguishable (h : AuthHandler) (env : Env) (st : Store)
    (code : String) (society : Society) (unknown known : LoginRequest) (account : User)
    (t1 t2 t3 t4 : Nat)
    (hsoc : society ∈ st.societies) (hcode : society.Code = code)
    (hact : society.IsActive = true)
    (hb1 : unknown.bind env = true) (hc1 : unknown.SocietyCode = code)
    (hnone : ∀ u ∈ st.users, u.Email = unknown.Email → u.SocietyCode = code →
      u.IsActive = false)
    (hb2 : known.bind env = true) (hc2 : known.SocietyCode = code)
    (hacc : account ∈ st.users) (hemail : account.Email = known.Email)
    (hsc : account.SocietyCode = code) (hua : account.IsActive = true)
    (hwrong : ∀ u ∈ st.users, u.Email = known.Email → u.SocietyCode = code →
      u.IsActive = true → env.CompareHashAndPassword u.Password known.Password = false) :
    (h.Login env st unknown t1 t2).resp = ⟨401, .error "Invalid credentials"⟩ ∧
    (h.Login env st known t3 t4).resp = (h.Login env st unknown t1 t2).resp ∧
    (∀ claims, Event.generateToken claims ∉ (h.Login env st unknown t1 t2).log) ∧
    (∀ claims, Event.generateToken claims ∉ (h.Login env st known t3 t4).log) := by
  subst hc1
  obtain ⟨s1, hs1⟩ := society_lookup_isSome st.societies unknown.SocietyCode society hsoc hcode
    hact
  have hs2 : FindOne Society.toDoc st.societies
      [("code", .str known.SocietyCode), ("is_active", .bool true)] = some s1 := by
    rw [hc2]; exact hs1
  have hu1 := (user_lookup_none st.users unknown.Email unknown.SocietyCode).2 hnone
  obtain ⟨u2, hu2⟩ := user_lookup_isSome st.users known.Email known.SocietyCode account hacc
    hemail (hsc.trans hc2.symm) hua
  obtain ⟨hu2m, hu2e, hu2c, hu2a⟩ := user_lookup_some _ _ _ _ hu2
  have hcmp := hwrong u2 hu2m hu2e (hu2c.trans hc2) hu2a
  have hA : h.Login env st unknown t1 t2 =
      { resp := ⟨401, .error "Invalid credentials"⟩, store := st,
        log := [.findOne "societies"
                  [("code", .str unknown.SocietyCode), ("is_active", .bool true)],
                .findOne "users" [("email", .str unknown.Email),
                  ("society_code", .str unknown.SocietyCode), ("is_active", .bool true)]] } := by
    simp [AuthHandler.Login, hb1, hs1, hu1]
  have hB : h.Login env st known t3 t4 =
      { resp := ⟨401, .error "Invalid credentials"⟩, store := st,
        log := [.findOne "societies"
                  [("code", .str known.SocietyCode), ("is_active", .bool true)],
                .findOne "users" [("email", .str known.Email),
                  ("society_code", .str known.SocietyCode), ("is_active", .bool true)],
                .compareHashAndPassword u2.Password known.Password] } := by
    simp [AuthHandler.Login, hb2, hs2, hu2, hcmp]
  rw [hA, hB]
  refine ⟨rfl, rfl, ?_, ?_⟩ <;> intro claims <;> simp

theorem Login_invalid_credentials_indistinguishable_witness :
    (demoHandler.Login demoEnv demoStore ⟨"nobody@x.com", "pw", "SOC-A"⟩ 1 2).resp =
      ⟨401, .error "Invalid credentials"⟩ ∧
    (demoHandler.Login demoEnv demoStore ⟨"bob@x.com", "guess", "SOC-A"⟩ 3 4).resp =
      (demoHandler.Login demoEnv demoStore ⟨"nobody@x.com", "pw", "SOC-A"⟩ 1 2).resp ∧
    (∀ claims, Event.generateToken claims ∉
      (demoHandler.Login demoEnv demoStore ⟨"nobody@x.com", "pw", "SOC-A"⟩ 1 2).log) ∧
    (∀ claims, Event.generateToken claims ∉
      (demoHandler.Login demoEnv demoStore ⟨"bob@x.com", "guess", "SOC-A"⟩ 3 4).log) :=
  Login_invalid_credentials_indistinguishable demoHandler demoEnv demoStore "SOC-A"
    demoSocietyA ⟨"nobody@x.com", "pw", "SOC-A"⟩ ⟨"bob@x.com", "guess", "SOC-A"⟩ demoUserA
    1 2 3 4 (by decide) (by decide) (by decide) (by decide) (by decide) (by decide)
    (by decide) (by decide) (by decide) (by decide) (by decide) (by decide) (by decide)

/-- Claim C7 as amended: after `Register` created the only account with email `e`, in society
`T1` with password `p`, `Login` with `(e, p, T2)` for another, active society `T2` answers 401
`Invalid credentials`, the same response as `Login` with `(e, wrong, T1)` for a non-empty
password the hash rejects; for a `T2` that is unknown or inactive it answers 404
`Invalid society code`; and `Login` with `(e, p, T1)` answers 200 with a token minted with, and
decoding to, the role given at registration. -/
theorem register_then_login (h : AuthHandler) (env : Env) (st : Store) (reg : RegisterRequest)
    (newID : ObjectID) (tc tu : Nat)
    (hreg : (h.Register env st reg newID tc tu).resp.status = 201)
    (honly : ∀ u ∈ st.users, u.Email ≠ reg.Email)
    (hbcrypt : ∀ hash, env.GenerateFromPassword reg.Password = some hash →
      env.CompareHashAndPassword hash reg.Password = true) :
    (∀ T2 t1 t2, T2 ≠ reg.SocietyCode → T2 ≠ "" →
      (∃ s ∈ st.societies, s.Code = T2 ∧ s.IsActive = true) →
      (h.Login env (h.Register env st reg newID tc tu).store
        ⟨reg.Email, reg.Password, T2⟩ t1 t2).resp = ⟨401, .error "Invalid credentials"⟩) ∧
    (∀ wrong t1 t2, wrong ≠ "" →
      (∀ hash, env.GenerateFromPassword reg.Password = some hash →
        env.CompareHashAndPassword hash wrong = false) →
      (h.Login env (h.Register env st reg newID tc tu).store
        ⟨reg.Email, wrong, reg.SocietyCode⟩ t1 t2).resp =
          ⟨401, .error "Invalid credentials"⟩) ∧
    (∀ T2 t1 t2, T2 ≠ "" → (∀ s ∈ st.societies, s.Code = T2 → s.IsActive = false) →
      (h.Login env (h.Register env st reg newID tc tu).store
        ⟨reg.Email, reg.Password, T2⟩ t1 t2).resp = ⟨404, .error "Invalid society code"⟩) ∧
    (∀ t1 t2 now,
      env.jwt.RoundTripAt (mintClaims newID reg.Email reg.Role reg.SocietyCode t1 t2)
        h.jwtSecret →
      now < NewNumericDate (t1 + tokenTTL) * nsPerSec →
      ∃ token user soc claims,
        (h.Login env (h.Register env st reg newID tc tu).store
          ⟨reg.Email, reg.Password, reg.SocietyCode⟩ t1 t2).resp =
            ⟨200, .login { Token := token, User := user, Society := soc }⟩ ∧
        GenerateToken env.jwt newID reg.Email reg.Role reg.SocietyCode h.jwtSecret t1 t2 =
          .ok token ∧
        ValidateToken env.jwt token h.jwtSecret now = .ok claims ∧
        claims.Role = reg.Role ∧ user.Role = reg.Role) := by
  obtain ⟨society, hashed, hb, hs, hg, hstore, _⟩ :=
    Register_success_inv h env st reg newID tc tu hreg
  have hbind : ∀ pw code, pw ≠ "" → code ≠ "" →
      LoginRequest.bind env ⟨reg.Email, pw, code⟩ = true := by
    intro pw code hpw hcode
    simp [RegisterRequest.bind] at hb
    simp [LoginRequest.bind, hb, hpw, hcode]
  have hregpw : reg.Password ≠ "" := by
    simp [RegisterRequest.bind] at hb
    exact hb.1.1.2
  have hregcode : reg.SocietyCode ≠ "" := by
    simp [RegisterRequest.bind] at hb
    exact hb.2
  obtain ⟨hsm, hsc, hsa⟩ := society_lookup_some _ _ _ hs
  have hfind : ∀ code, FindOne User.toDoc
      (st.users ++ [registeredUser reg society hashed newID tc tu])
      [("email", .str reg.Email), ("society_code", .str code), ("is_active", .bool true)] =
        if reg.SocietyCode = code then some (registeredUser reg society hashed newID tc tu)
        else none := by
    intro code
    unfold FindOne
    rw [List.find?_append]
    have hnone : List.find? (fun r => matchesFilter
        [("email", .str reg.Email), ("society_code", .str code), ("is_active", .bool true)]
        (User.toDoc r)) st.users = none := by
      rw [List.find?_eq_none]
      intro u hu
      rw [matches_loginFilter]
      simp [honly u hu]
    rw [hnone]
    simp only [Option.none_or, List.find?_cons, List.find?_nil, matches_loginFilter]
    by_cases hc : reg.SocietyCode = code <;> simp [registeredUser, hc]
  rw [hstore]
  refine ⟨?_, ?_, ?_, ?_⟩
  · intro T2 t1 t2 hne hT2 ⟨s, hsIn, hsCode, hsAct⟩
    obtain ⟨s', hs'⟩ := society_lookup_isSome st.societies T2 s hsIn hsCode hsAct
    have hu := hfind T2
    rw [if_neg (fun hh => hne hh.symm)] at hu
    rw [Login_no_account h env { st with users := st.users ++ [registeredUser reg society hashed newID tc tu] }
      ⟨reg.Email, reg.Password, T2⟩ t1 t2 s'
      (hbind reg.Password T2 hregpw hT2) hs' hu]
  · intro wrong t1 t2 hw hcmp
    have hu := hfind reg.SocietyCode
    rw [if_pos rfl] at hu
    have hc := hcmp hashed hg
    rw [Login_wrong_password h env { st with users := st.users ++ [registeredUser reg society hashed newID tc tu] }
      ⟨reg.Email, wrong, reg.SocietyCode⟩ t1 t2 society _
      (hbind wrong reg.SocietyCode hw hregcode) hs hu hc]
  · intro T2 t1 t2 hT2 hno
    have hnone := (society_lookup_none st.societies T2).2 hno
    rw [Login_no_society h env { st with users := st.users ++ [registeredUser reg society hashed newID tc tu] }
      ⟨reg.Email, reg.Password, T2⟩ t1 t2 (hbind reg.Password T2 hregpw hT2) hnone]
  · intro t1 t2 now ⟨token, hsign, hver⟩ hnow
    have hu := hfind reg.SocietyCode
    rw [if_pos rfl] at hu
    have hc := hbcrypt hashed hg
    have hgen : GenerateToken env.jwt newID reg.Email reg.Role reg.SocietyCode h.jwtSecret
        t1 t2 = .ok token := hsign
    refine ⟨token, { registeredUser reg society hashed newID tc tu with Password := "" },
      societyResponse society, _, ?_, hgen,
      ValidateToken_of_verify _ _ _ _ _ hver hnow, rfl, ?_⟩
    · rw [Login_ok h env { st with users := st.users ++ [registeredUser reg society hashed newID tc tu] }
        ⟨reg.Email, reg.Password, reg.SocietyCode⟩ t1 t2 society _ token
        (hbind reg.Password reg.SocietyCode hregpw hregcode) hs hu hc hgen]
    · rfl

theorem register_then_login_witness :
    (demoHandler.Login demoEnv (demoHandler.Register demoEnv demoStore demoRegister 12 0 0).store
      ⟨"carol@x.com", "pw", "SOC-B"⟩ 0 0).resp = ⟨401, .error "Invalid credentials"⟩ :=
  (register_then_login demoHandler demoEnv demoStore demoRegister 12 0 0 (by decide)
    (by decide) (by intro hash hh; cases hh; decide)).1 "SOC-B" 0 0 (by decide) (by decide)
    ⟨demoSocietyB, by decide, by decide, by decide⟩

/-- Claim C7 fails as stated: after registering `carol@x.com` in `SOC-A` only, a login with the
right password and the unknown society code `SOC-Z`, or the deactivated `SOC-C`, answers 404
`Invalid society code`, not the 401 `Invalid credentials` of a wrong password; and the empty
password, wrong as it is, answers 400 from the binding check. -/
theorem login_unknown_society_is_not_invalid_credentials :
    (demoHandler.Register demoEnv demoStore demoRegister 12 0 0).resp.status = 201 ∧
    demoStore.users.all (fun u => decide (u.Email ≠ demoRegister.Email)) = true ∧
    (demoHandler.Login demoEnv (demoHandler.Register demoEnv demoStore demoRegister 12 0 0).store
      ⟨"carol@x.com", "pw", "SOC-Z"⟩ 0 0).resp = ⟨404, .error "Invalid society code"⟩ ∧
    (demoHandler.Login demoEnv (demoHandler.Register demoEnv demoStore demoRegister 12 0 0).store
      ⟨"carol@x.com", "pw", "SOC-C"⟩ 0 0).resp = ⟨404, .error "Invalid society code"⟩ ∧
    (demoHandler.Login demoEnv (demoHandler.Register demoEnv demoStore demoRegister 12 0 0).store
      ⟨"carol@x.com", "nope", "SOC-A"⟩ 0 0).resp = ⟨401, .error "Invalid credentials"⟩ ∧
    (demoHandler.Login demoEnv (demoHandler.Register demoEnv demoStore demoRegister 12 0 0).store
      ⟨"carol@x.com", "", "SOC-A"⟩ 0 0).resp = ⟨400, .bindError⟩ := by
  decide

/-- Claim C8 as amended: for a society code that is absent from the store or belongs to an
inactive society, and for requests that pass binding, `ValidateSociety`, `Login` and `Register`
all answer 404 `Invalid society code`; the one store call of `Login` and of `Register` is the
society lookup, so no account is looked up, no token minted, nothing hashed, and the store is
unchanged. A request that fails binding is answered 400 with no store call at all. -/
theorem inactive_society_blocks_uniformly (h : AuthHandler) (env : Env) (st : Store)
    (code : String) (vreq : SocietyCodeRequest) (lreq : LoginRequest) (rreq : RegisterRequest)
    (newID : ObjectID) (tc tu t1 t2 : Nat)
    (hcode : ∀ s ∈ st.societies, s.Code = code → s.IsActive = false)
    (hv : vreq.Code = code) (hvb : vreq.bind = true)
    (hl : lreq.SocietyCode = code) (hlb : lreq.bind env = true)
    (hr : rreq.SocietyCode = code) (hrb : rreq.bind env = true) :
    (h.ValidateSociety st vreq).resp = ⟨404, .error "Invalid society code"⟩ ∧
    (h.Login env st lreq t1 t2).resp = ⟨404, .error "Invalid society code"⟩ ∧
    (h.Register env st rreq newID tc tu).resp = ⟨404, .error "Invalid society code"⟩ ∧
    (h.Login env st lreq t1 t2).log =
      [.findOne "societies" [("code", .str code), ("is_active", .bool true)]] ∧
    (h.Register env st rreq newID tc tu).log =
      [.findOne "societies" [("code", .str code), ("is_active", .bool true)]] ∧
    (h.Register env st rreq newID tc tu).store = st ∧
    (h.Login env st lreq t1 t2).store = st ∧
    (∀ v : SocietyCodeRequest, v.bind = false →
      h.ValidateSociety st v = { resp := ⟨400, .bindError⟩, store := st, log := [] }) ∧
    (∀ l : LoginRequest, l.bind env = false →
      h.Login env st l t1 t2 = { resp := ⟨400, .bindError⟩, store := st, log := [] }) ∧
    (∀ r : RegisterRequest, r.bind env = false →
      h.Register env st r newID tc tu =
        { resp := ⟨400, .bindError⟩, store := st, log := [] }) := by
  have hnone := (society_lookup_none st.societies code).2 hcode
  subst hv
  have hnl : FindOne Society.toDoc st.societies
      [("code", .str lreq.SocietyCode), ("is_active", .bool true)] = none := by
    rw [hl]; exact hnone
  have hnr : FindOne Society.toDoc st.societies
      [("code", .str rreq.SocietyCode), ("is_active", .bool true)] = none := by
    rw [hr]; exact hnone
  refine ⟨?_, ?_, ?_, ?_, ?_, ?_, ?_, ?_, ?_, ?_⟩
  · simp [AuthHandler.ValidateSociety, hvb, hnone]
  · rw [Login_no_society h env st lreq t1 t2 hlb hnl]
  · rw [Register_no_society h env st rreq newID tc tu hrb hnr]
  · rw [Login_no_society h env st lreq t1 t2 hlb hnl, hl]
  · rw [Register_no_society h env st rreq newID tc tu hrb hnr, hr]
  · rw [Register_no_society h env st rreq newID tc tu hrb hnr]
  · rw [Login_no_society h env st lreq t1 t2 hlb hnl]
  · intro v hv
    simp [AuthHandler.ValidateSociety, hv]
  · intro l hl'
    simp [AuthHandler.Login, hl']
  · intro r hr'
    simp [AuthHandler.Register, hr']

theorem inactive_society_blocks_uniformly_witness :
    (demoHandler.ValidateSociety demoStore ⟨"SOC-C"⟩).resp =
      ⟨404, .error "Invalid society code"⟩ ∧
    (demoHandler.Login demoEnv demoStore ⟨"bob@x.com", "pw", "SOC-C"⟩ 5 6).resp =
      ⟨404, .error "Invalid society code"⟩ ∧
    (demoHandler.Register demoEnv demoStore { demoRegister with SocietyCode := "SOC-C" }
      12 3 4).resp = ⟨404, .error "Invalid society code"⟩ ∧
    (demoHandler.Login demoEnv demoStore ⟨"bob@x.com", "pw", "SOC-C"⟩ 5 6).log =
      [.findOne "societies" [("code", .str "SOC-C"), ("is_active", .bool true)]] ∧
    (demoHandler.Register demoEnv demoStore { demoRegister with SocietyCode := "SOC-C" }
      12 3 4).log =
      [.findOne "societies" [("code", .str "SOC-C"), ("is_active", .bool true)]] ∧
    (demoHandler.Register demoEnv demoStore { demoRegister with SocietyCode := "SOC-C" }
      12 3 4).store = demoStore ∧
    (demoHandler.Login demoEnv demoStore ⟨"bob@x.com", "pw", "SOC-C"⟩ 5 6).store = demoStore :=
  have hw := inactive_society_blocks_uniformly demoHandler demoEnv demoStore "SOC-C" ⟨"SOC-C"⟩
    ⟨"bob@x.com", "pw", "SOC-C"⟩ { demoRegister with SocietyCode := "SOC-C" } 12 3 4 5 6
    (by decide) (by decide) (by decide) (by decide) (by decide) (by decide) (by decide)
  ⟨hw.1, hw.2.1, hw.2.2.1, hw.2.2.2.1, hw.2.2.2.2.1, hw.2.2.2.2.2.1, hw.2.2.2.2.2.2.1⟩

/-- Claim C8 fails as stated: with the unknown society code `SOC-Z`, `ValidateSociety` answers
404 but `Login` with an empty password and `Register` with a malformed email answer 400 from the
binding check; and the empty society code, also absent from the store, gets 400. -/
theorem unknown_society_with_bad_body_answers_400 :
    demoStore.societies.all (fun s => decide (s.Code ≠ "SOC-Z")) = true ∧
    (demoHandler.ValidateSociety demoStore ⟨"SOC-Z"⟩).resp =
      ⟨404, .error "Invalid society code"⟩ ∧
    (demoHandler.Login demoEnv demoStore ⟨"bob@x.com", "", "SOC-Z"⟩ 0 0).resp =
      ⟨400, .bindError⟩ ∧
    (demoHandler.Register demoEnv demoStore { demoRegister with SocietyCode := "SOC-Z", Email := "carol" }
      12 0 0).resp = ⟨400, .bindError⟩ ∧
    demoStore.societies.all (fun s => decide (s.Code ≠ "")) = true ∧
    (demoHandler.ValidateSociety demoStore ⟨""⟩).resp = ⟨400, .bindError⟩ := by
  decide

/-- Claim C9: when the id parses (and the body binds, where there is one), each of
`ApproveVisitor`, `CheckInVisitor`, `CheckOutVisitor`, `PayMaintenance`, `CancelBooking`,
`UpdateNotice` and `DeleteNotice` makes one store call, an update under the filter
`{society_code: context society code, _id: parsed id}`; it changes no other collection and no
document of another society, and when no document has both the id and the requester's society
code it answers 404 and leaves the store as it was. -/
theorem mutating_handlers_tenant_scoped (st : Store) (c : Context) (idParam : String)
    (objID : ObjectID) (hid : ObjectIDFromHex idParam = some objID) :
    (∀ req now, VisitorApprovalRequest.bind req = true →
      TenantScopedUpdate "visitors" Store.visitors putVisitors c objID st
        (VisitorHandler.ApproveVisitor st c idParam req now)) ∧
    (∀ now, TenantScopedUpdate "visitors" Store.visitors putVisitors c objID st
      (VisitorHandler.CheckInVisitor st c idParam now)) ∧
    (∀ now, TenantScopedUpdate "visitors" Store.visitors putVisitors c objID st
      (VisitorHandler.CheckOutVisitor st c idParam now)) ∧
    (∀ req newID now, PaymentRequest.bind req = true → req.MaintenanceID = idParam →
      TenantScopedUpdate "maintenance" Store.maintenance putMaintenance c objID st
        (MaintenanceHandler.PayMaintenance st c req newID now)) ∧
    TenantScopedUpdate "amenity_bookings" Store.amenity_bookings putBookings c objID st
      (AmenityHandler.CancelBooking st c idParam) ∧
    (∀ updates, TenantScopedUpdate "notices" Store.notices putNotices c objID st
      (NoticeHandler.UpdateNotice st c idParam updates)) ∧
    TenantScopedUpdate "notices" Store.notices putNotices c objID st
      (NoticeHandler.DeleteNotice st c idParam) := by
  refine ⟨?_, ?_, ?_, ?_, ?_, ?_, ?_⟩
  · intro req now hb
    rw [ApproveVisitor_eq st c idParam objID req now hid hb]
    exact updateReply_scoped _ _ _ _ _ _ _ _ _ _ (fun _ _ => rfl) (fun _ => rfl)
  · intro now
    rw [CheckInVisitor_eq st c idParam objID now hid]
    exact updateReply_scoped _ _ _ _ _ _ _ _ _ _ (fun _ _ => rfl) (fun _ => rfl)
  · intro now
    rw [CheckOutVisitor_eq st c idParam objID now hid]
    exact updateReply_scoped _ _ _ _ _ _ _ _ _ _ (fun _ _ => rfl) (fun _ => rfl)
  · intro req newID now hb hreq
    rw [PayMaintenance_eq st c req objID newID now (hreq ▸ hid) hb]
    exact updateReply_scoped _ _ _ _ _ _ _ _ _ _ (fun _ _ => rfl) (fun _ => rfl)
  · rw [CancelBooking_eq st c idParam objID hid]
    exact updateReply_scoped _ _ _ _ _ _ _ _ _ _ (fun _ _ => rfl) (fun _ => rfl)
  · intro updates
    rw [UpdateNotice_eq st c idParam objID updates hid]
    exact updateReply_scoped _ _ _ _ _ _ _ _ _ _ (fun _ _ => rfl) (fun _ => rfl)
  · rw [DeleteNotice_eq st c idParam objID hid]
    exact updateReply_scoped _ _ _ _ _ _ _ _ _ _ (fun _ _ => rfl) (fun _ => rfl)

theorem mutating_handlers_tenant_scoped_witness :
    TenantScopedUpdate "notices" Store.notices putNotices demoContextA 40 demoStore
      (NoticeHandler.DeleteNotice demoStore demoContextA "000000000000000000000028") ∧
    (NoticeHandler.DeleteNotice demoStore demoContextA "000000000000000000000028").resp =
      ⟨404, .error "Notice not found in your society"⟩ ∧
    (NoticeHandler.DeleteNotice demoStore demoContextA "000000000000000000000028").store =
      demoStore :=
  ⟨(mutating_handlers_tenant_scoped demoStore demoContextA "000000000000000000000028" 40
      (by decide)).2.2.2.2.2.2, by decide, by decide⟩

/-- Claim C10: `GetSocietyFilter` returns the map with the single entry `society_code`, whose value
is the context's `society_code` string, the empty string when the context holds none. Run on a
context and a heap of maps, the call leaves the context as it was, returns a reference no map
was made for before, behind which is that one-entry map, and leaves every earlier map as it was;
a second call returns another reference, and an assignment through the first reference does not
change the map of the second. -/
theorem GetSocietyFilter_single_entry (c : Context) :
    GetSocietyFilter c = [("society_code", .str (c.GetString "society_code"))] ∧
    (GetSocietyFilter c).length = 1 ∧
    (∀ s, c.Get "society_code" = some (.str s) → GetSocietyFilter c = [("society_code", .str s)]) ∧
    (c.Get "society_code" = none → GetSocietyFilter c = [("society_code", .str "")]) ∧
    (∀ heap : MapHeap,
      (GetSocietyFilterStep c heap).2.1 = c ∧
      MapHeap.deref (GetSocietyFilterStep c heap).2.2 (GetSocietyFilterStep c heap).1 =
        some (GetSocietyFilter c) ∧
      MapHeap.deref heap (GetSocietyFilterStep c heap).1 = none ∧
      (∀ r m, MapHeap.deref heap r = some m →
        r ≠ (GetSocietyFilterStep c heap).1 ∧
        MapHeap.deref (GetSocietyFilterStep c heap).2.2 r = some m)) ∧
    (∀ (heap : MapHeap) (key : String) (val : BVal),
      (GetSocietyFilterStep (GetSocietyFilterStep c heap).2.1
          (GetSocietyFilterStep c heap).2.2).1 ≠ (GetSocietyFilterStep c heap).1 ∧
      MapHeap.deref
        (MapHeap.assign
          (GetSocietyFilterStep (GetSocietyFilterStep c heap).2.1
            (GetSocietyFilterStep c heap).2.2).2.2
          (GetSocietyFilterStep c heap).1 key val)
        (GetSocietyFilterStep (GetSocietyFilterStep c heap).2.1
          (GetSocietyFilterStep c heap).2.2).1 = some (GetSocietyFilter c)) := by
  refine ⟨rfl, rfl, ?_, ?_, ?_, ?_⟩
  · intro s h
    simp [GetSocietyFilter, Context.GetString, h]
  · intro h
    simp [GetSocietyFilter, Context.GetString, h]
  · intro heap
    rw [GetSocietyFilterStep_eq]
    refine ⟨rfl, deref_append_length heap _ [], deref_length heap, ?_⟩
    intro r m h
    have hlt := deref_some_lt heap r m h
    exact ⟨Nat.ne_of_lt hlt, deref_append_of_some heap r m _ h⟩
  · intro heap key val
    simp only [GetSocietyFilterStep_eq]
    constructor
    · simp
    · rw [deref_assign_other]
      · have := deref_append_length (heap ++ [GetSocietyFilter c]) (GetSocietyFilter c) []
        simpa using this
      · simp

theorem GetSocietyFilter_single_entry_witness :
    Context.Get demoContextA "society_code" = some (.str "SOC-A") ∧
    GetSocietyFilter demoContextA = [("society_code", .str "SOC-A")] ∧
    Context.Get [] "society_code" = none ∧
    GetSocietyFilter [] = [("society_code", .str "")] ∧
    GetSocietyFilterStep demoContextA [[("status", .str "pending")]] =
      (1, demoContextA, [[("status", .str "pending")], [("society_code", .str "SOC-A")]]) ∧
    MapHeap.deref [[("status", .str "pending")]] 0 = some [("status", .str "pending")] ∧
    (0 ≠ (GetSocietyFilterStep demoContextA [[("status", .str "pending")]]).1 ∧
      MapHeap.deref (GetSocietyFilterStep demoContextA [[("status", .str "pending")]]).2.2 0 =
        some [("status", .str "pending")]) :=
  ⟨by decide, (GetSocietyFilter_single_entry demoContextA).2.2.1 "SOC-A" (by decide),
   by decide, (GetSocietyFilter_single_entry []).2.2.2.1 (by decide),
   by decide, by decide,
   ((GetSocietyFilter_single_entry demoContextA).2.2.2.2.1 [[("status", .str "pending")]]).2.2.2
     0 [("status", .str "pending")] (by decide)⟩

/-- Claim C11: for two contexts whose society codes differ, no document matches both filters
returned by `GetSocietyFilter`, and none matches both after each filter was given further
constraints under keys other than `society_code`. -/
theorem society_filters_never_overlap (c1 c2 : Context) (extra1 extra2 : List (String × BVal))
    (d : Doc) (hne : c1.GetString "society_code" ≠ c2.GetString "society_code")
    (h1 : ∀ kv ∈ extra1, kv.1 ≠ "society_code")
    (h2 : ∀ kv ∈ extra2, kv.1 ≠ "society_code") :
    ¬ (matchesFilter (GetSocietyFilter c1) d = true ∧
        matchesFilter (GetSocietyFilter c2) d = true) ∧
    ¬ (matchesFilter (addConstraints (GetSocietyFilter c1) extra1) d = true ∧
        matchesFilter (addConstraints (GetSocietyFilter c2) extra2) d = true) := by
  have key : ∀ e1 e2 : List (String × BVal), (∀ kv ∈ e1, kv.1 ≠ "society_code") →
      (∀ kv ∈ e2, kv.1 ≠ "society_code") →
      ¬ (matchesFilter (addConstraints (GetSocietyFilter c1) e1) d = true ∧
        matchesFilter (addConstraints (GetSocietyFilter c2) e2) d = true) := by
    intro e1 e2 he1 he2 ⟨hm1, hm2⟩
    have g1 : assocGet (addConstraints (GetSocietyFilter c1) e1) "society_code" =
        some (.str (c1.GetString "society_code")) := by
      rw [assocGet_addConstraints _ _ _ he1]
      simp [GetSocietyFilter, assocGet]
    have g2 : assocGet (addConstraints (GetSocietyFilter c2) e2) "society_code" =
        some (.str (c2.GetString "society_code")) := by
      rw [assocGet_addConstraints _ _ _ he2]
      simp [GetSocietyFilter, assocGet]
    have d1 := matchesFilter_assocGet _ d _ _ hm1 g1
    have d2 := matchesFilter_assocGet _ d _ _ hm2 g2
    rw [d1] at d2
    simp only [Option.some.injEq, BVal.str.injEq] at d2
    exact hne d2
  exact ⟨key [] [] (by simp) (by simp), key extra1 extra2 h1 h2⟩

theorem society_filters_never_overlap_witness :
    ¬ (matchesFilter (GetSocietyFilter demoContextA) demoVisitorB = true ∧
        matchesFilter (GetSocietyFilter [("society_code", .str "SOC-B")]) demoVisitorB = true) ∧
    ¬ (matchesFilter (addConstraints (GetSocietyFilter demoContextA)
          [("_id", .oid 20), ("status", .str "pending")]) demoVisitorB = true ∧
        matchesFilter (addConstraints (GetSocietyFilter [("society_code", .str "SOC-B")])
          [("host_id", .oid 11)]) demoVisitorB = true) :=
  society_filters_never_overlap demoContextA [("society_code", .str "SOC-B")]
    [("_id", .oid 20), ("status", .str "pending")] [("host_id", .oid 11)] demoVisitorB
    (by decide) (by decide) (by decide)

/-- Claim C12: for a non-OPTIONS request whose header passes the two header checks and whose
token `ValidateToken` accepts with `claims`, `AuthMiddleware` writes no response, calls the next
stage, and hands on a context in which `user_id` is the hex of `claims.UserID`, `user_email`,
`user_role` and `society_code` are the claims' email, role and society code, and every other key
is as it was. -/
theorem AuthMiddleware_attaches_identity (lib : JwtLib) (osEnv : String → String) (now : Nat)
    (r : Request) (c : Context) (claims : Claims) (hm : r.Method ≠ "OPTIONS")
    (hh : r.GetAuthorization ≠ "")
    (ht : bearerToken r.GetAuthorization ≠ r.GetAuthorization)
    (hv : ValidateToken lib (bearerToken r.GetAuthorization) (Load osEnv).JWTSecret now =
      .ok claims) :
    ∃ c', AuthMiddleware lib osEnv now r c =
        { outcome := .next c', validated := [bearerToken r.GetAuthorization] } ∧
      (AuthMiddleware lib osEnv now r c).outcome.response = none ∧
      c'.Get "user_id" = some (.str claims.UserID.Hex) ∧
      c'.Get "user_email" = some (.str claims.Email) ∧
      c'.Get "user_role" = some (.str claims.Role) ∧
      c'.Get "society_code" = some (.str claims.SocietyCode) ∧
      (∀ key, key ≠ "user_id" → key ≠ "user_email" → key ≠ "user_role" →
        key ≠ "society_code" → c'.Get key = c.Get key) := by
  have hA := AuthMiddleware_valid lib osEnv now r c claims hm hh ht hv
  obtain ⟨g1, g2, g3, g4, g5⟩ := identityContext_get c claims
  refine ⟨identityContext c claims, hA, ?_, g1, g2, g3, g4, g5⟩
  rw [hA]
  rfl

theorem AuthMiddleware_attaches_identity_witness :
    ∃ c', AuthMiddleware demoJwt demoOsEnv 0 ⟨"GET", some "Bearer tok:SOC-A"⟩
          [("request_id", .other 7)] =
        { outcome := .next c', validated := ["tok:SOC-A"] } ∧
      (AuthMiddleware demoJwt demoOsEnv 0 ⟨"GET", some "Bearer tok:SOC-A"⟩
          [("request_id", .other 7)]).outcome.response = none ∧
      c'.Get "user_id" = some (.str "00000000000000000000000a") ∧
      c'.Get "user_email" = some (.str "bob@x.com") ∧
      c'.Get "user_role" = some (.str "resident") ∧
      c'.Get "society_code" = some (.str "SOC-A") ∧
      (∀ key, key ≠ "user_id" → key ≠ "user_email" → key ≠ "user_role" →
        key ≠ "society_code" → c'.Get key = Context.Get [("request_id", .other 7)] key) :=
  AuthMiddleware_attaches_identity demoJwt demoOsEnv 0 ⟨"GET", some "Bearer tok:SOC-A"⟩
    [("request_id", .other 7)] (mintClaims 10 "bob@x.com" "resident" "SOC-A" 0 0)
    (by decide) (by decide) (by decide) rfl

/-- Claim C13: two non-OPTIONS requests whose headers pass the header checks and whose tokens
`ValidateToken` rejects, with whatever errors, are both aborted with 401 `Invalid token`; the
two responses are equal. -/
theorem invalid_token_response_uniform (lib : JwtLib) (osEnv : String → String)
    (now1 now2 : Nat) (r1 r2 : Request) (c1 c2 : Context) (e1 e2 : JwtError)
    (hm1 : r1.Method ≠ "OPTIONS") (hh1 : r1.GetAuthorization ≠ "")
    (ht1 : bearerToken r1.GetAuthorization ≠ r1.GetAuthorization)
    (hv1 : ValidateToken lib (bearerToken r1.GetAuthorization) (Load osEnv).JWTSecret now1 =
      .error e1)
    (hm2 : r2.Method ≠ "OPTIONS") (hh2 : r2.GetAuthorization ≠ "")
    (ht2 : bearerToken r2.GetAuthorization ≠ r2.GetAuthorization)
    (hv2 : ValidateToken lib (bearerToken r2.GetAuthorization) (Load osEnv).JWTSecret now2 =
      .error e2) :
    (AuthMiddleware lib osEnv now1 r1 c1).outcome = .abort 401 "Invalid token" c1 ∧
    (AuthMiddleware lib osEnv now2 r2 c2).outcome = .abort 401 "Invalid token" c2 ∧
    (AuthMiddleware lib osEnv now1 r1 c1).outcome.response = some (401, "Invalid token") ∧
    (AuthMiddleware lib osEnv now1 r1 c1).outcome.response =
      (AuthMiddleware lib osEnv now2 r2 c2).outcome.response := by
  rw [AuthMiddleware_invalid lib osEnv now1 r1 c1 e1 hm1 hh1 ht1 hv1,
    AuthMiddleware_invalid lib osEnv now2 r2 c2 e2 hm2 hh2 ht2 hv2]
  exact ⟨rfl, rfl, rfl, rfl⟩

theorem invalid_token_response_uniform_witness :
    (AuthMiddleware demoJwt demoOsEnv 0 ⟨"GET", some "Bearer garbage"⟩ []).outcome =
      .abort 401 "Invalid token" [] ∧
    (AuthMiddleware demoJwt demoOsEnv (90000 * nsPerSec) ⟨"POST", some "Bearer tok:SOC-A"⟩
      demoContextA).outcome = .abort 401 "Invalid token" demoContextA ∧
    (AuthMiddleware demoJwt demoOsEnv 0 ⟨"GET", some "Bearer garbage"⟩ []).outcome.response =
      some (401, "Invalid token") ∧
    (AuthMiddleware demoJwt demoOsEnv 0 ⟨"GET", some "Bearer garbage"⟩ []).outcome.response =
      (AuthMiddleware demoJwt demoOsEnv (90000 * nsPerSec) ⟨"POST", some "Bearer tok:SOC-A"⟩
        demoContextA).outcome.response :=
  invalid_token_response_uniform demoJwt demoOsEnv 0 (90000 * nsPerSec)
    ⟨"GET", some "Bearer garbage"⟩ ⟨"POST", some "Bearer tok:SOC-A"⟩ [] demoContextA
    JwtError.malformed JwtError.expired (by decide) (by decide) (by decide) rfl
    (by decide) (by decide) (by decide) rfl

/-- Claim C14: a non-OPTIONS request with no `Authorization` header, or an empty one, is aborted
with 401 `Authorization header required`; one whose header is exactly `Bearer` is aborted with
401 `Invalid authorization header format`, a different response; `ValidateToken` is called in
neither case. -/
theorem missing_header_and_bare_bearer_rejected (lib : JwtLib) (osEnv : String → String)
    (now : Nat) (method : String) (c : Context) (hm : method ≠ "OPTIONS") :
    AuthMiddleware lib osEnv now ⟨method, none⟩ c =
      { outcome := .abort 401 "Authorization header required" c, validated := [] } ∧
    AuthMiddleware lib osEnv now ⟨method, some ""⟩ c =
      { outcome := .abort 401 "Authorization header required" c, validated := [] } ∧
    AuthMiddleware lib osEnv now ⟨method, some "Bearer"⟩ c =
      { outcome := .abort 401 "Invalid authorization header format" c, validated := [] } ∧
    (AuthMiddleware lib osEnv now ⟨method, none⟩ c).outcome.response ≠
      (AuthMiddleware lib osEnv now ⟨method, some "Bearer"⟩ c).outcome.response := by
  have h1 := AuthMiddleware_missing lib osEnv now ⟨method, none⟩ c hm rfl
  have h2 := AuthMiddleware_missing lib osEnv now ⟨method, some ""⟩ c hm rfl
  have hne : ("Bearer" : String) ≠ "" := by decide
  have htok : bearerToken "Bearer" = "Bearer" := by decide
  have h3 := AuthMiddleware_malformed lib osEnv now ⟨method, some "Bearer"⟩ c hm hne htok
  refine ⟨h1, h2, h3, ?_⟩
  rw [h1, h3]
  simp [MwOutcome.response]

theorem missing_header_and_bare_bearer_rejected_witness :
    AuthMiddleware demoJwt demoOsEnv 0 ⟨"GET", none⟩ [] =
      { outcome := .abort 401 "Authorization header required" [], validated := [] } ∧
    AuthMiddleware demoJwt demoOsEnv 0 ⟨"GET", some "Bearer"⟩ [] =
      { outcome := .abort 401 "Invalid authorization header format" [], validated := [] } :=
  ⟨(missing_header_and_bare_bearer_rejected demoJwt demoOsEnv 0 "GET" [] (by decide)).1,
   (missing_header_and_bare_bearer_rejected demoJwt demoOsEnv 0 "GET" [] (by decide)).2.2.1⟩

/-- Claim C15: for an OPTIONS request, whatever its `Authorization` header, `AuthMiddleware` calls
the next stage with the context as it came, writes no response and does not call
`ValidateToken`. -/
theorem options_bypasses_gate (lib : JwtLib) (osEnv : String → String) (now : Nat)
    (authorization : Option String) (c : Context) :
    AuthMiddleware lib osEnv now ⟨"OPTIONS", authorization⟩ c =
      { outcome := .next c, validated := [] } ∧
    (AuthMiddleware lib osEnv now ⟨"OPTIONS", authorization⟩ c).outcome.response = none ∧
    AuthMiddleware demoJwt demoOsEnv 0 ⟨"OPTIONS", some "Bearer garbage"⟩ [] =
      { outcome := .next [], validated := [] } ∧
    AuthMiddleware demoJwt demoOsEnv 0 ⟨"OPTIONS", some "garbage"⟩ [] =
      { outcome := .next [], validated := [] } := by
  have h := AuthMiddleware_options lib osEnv now ⟨"OPTIONS", authorization⟩ c rfl
  refine ⟨h, ?_, by decide, by decide⟩
  rw [h]
  rfl

/-- Claim C16: each rejecting branch of the gate chain (missing header, malformed header, invalid
token; role missing, role not allowed) aborts the request; an abort by `AuthMiddleware` has
status 401, leaves the context as it came and is the outcome of the whole chain, so
`RequireRole` does not run; an abort by `RequireRole` has status 403 and leaves the context
as it came. -/
theorem gate_rejections_are_terminal (lib : JwtLib) (osEnv : String → String) (now : Nat)
    (roles : List String) (r : Request) (c : Context) :
    (r.Method ≠ "OPTIONS" → r.GetAuthorization = "" →
      (AuthMiddleware lib osEnv now r c).outcome =
        .abort 401 "Authorization header required" c) ∧
    (r.Method ≠ "OPTIONS" → r.GetAuthorization ≠ "" →
      bearerToken r.GetAuthorization = r.GetAuthorization →
      (AuthMiddleware lib osEnv now r c).outcome =
        .abort 401 "Invalid authorization header format" c) ∧
    (∀ e, r.Method ≠ "OPTIONS" → r.GetAuthorization ≠ "" →
      bearerToken r.GetAuthorization ≠ r.GetAuthorization →
      ValidateToken lib (bearerToken r.GetAuthorization) (Load osEnv).JWTSecret now =
        .error e →
      (AuthMiddleware lib osEnv now r c).outcome = .abort 401 "Invalid token" c) ∧
    (c.Get "user_role" = none → RequireRole roles c = .abort 403 "User role not found" c) ∧
    (∀ role, c.Get "user_role" = some (.str role) → role ∉ roles →
      RequireRole roles c = .abort 403 "Insufficient permissions" c) ∧
    (∀ status error c', (AuthMiddleware lib osEnv now r c).outcome = .abort status error c' →
      status = 401 ∧ c' = c ∧
      protectedChain lib osEnv now roles r c = .abort status error c) ∧
    (∀ status error c', RequireRole roles c = .abort status error c' →
      status = 403 ∧ c' = c) := by
  refine ⟨?_, ?_, ?_, ?_, ?_, ?_, ?_⟩
  · intro hm hh
    rw [AuthMiddleware_missing lib osEnv now r c hm hh]
  · intro hm hh ht
    rw [AuthMiddleware_malformed lib osEnv now r c hm hh ht]
  · intro e hm hh ht hv
    rw [AuthMiddleware_invalid lib osEnv now r c e hm hh ht hv]
  · intro hn
    simp [RequireRole, hn]
  · intro role hr hmem
    simp [RequireRole, hr, RequireRole_scan_eq, hmem]
  · intro status error c' hab
    have hch : protectedChain lib osEnv now roles r c = .abort status error c' := by
      simp only [protectedChain, hab]
    rcases AuthMiddleware_cases lib osEnv now r c with
      ⟨_, h⟩ | ⟨_, _, h⟩ | ⟨_, _, _, h⟩ | ⟨_, _, _, _, h⟩ | ⟨_, _, _, _, _, h⟩
    all_goals
      rw [h] at hab
      simp only [MwOutcome.abort.injEq, reduceCtorEq] at hab
    all_goals
      obtain ⟨h1, _, h3⟩ := hab
      subst h3
      exact ⟨h1.symm, rfl, hch⟩
  · intro status error c' hab
    rcases RequireRole_cases roles c with
      ⟨_, h⟩ | ⟨_, _, _, h⟩ | ⟨_, _, _, h⟩ | ⟨_, _, h⟩
    all_goals
      rw [h] at hab
      simp only [MwOutcome.abort.injEq, reduceCtorEq] at hab
    all_goals
      obtain ⟨h1, _, h3⟩ := hab
      exact ⟨h1.symm, h3.symm⟩

theorem gate_rejections_are_terminal_witness :
    (AuthMiddleware demoJwt demoOsEnv 0 ⟨"GET", some "Bearer garbage"⟩
      [("request_id", .other 7)]).outcome =
        .abort 401 "Invalid token" [("request_id", .other 7)] ∧
    RequireRole ["secretary"] demoContextA =
      .abort 403 "Insufficient permissions" demoContextA :=
  ⟨(gate_rejections_are_terminal demoJwt demoOsEnv 0 ["secretary"]
      ⟨"GET", some "Bearer garbage"⟩ [("request_id", .other 7)]).2.2.1 JwtError.malformed
      (by decide) (by decide) (by decide) rfl,
   (gate_rejections_are_terminal demoJwt demoOsEnv 0 ["secretary"]
      ⟨"GET", none⟩ demoContextA).2.2.2.2.1 "resident" (by decide) (by decide)⟩

/-- Claim C17 fails as stated: on an OPTIONS request `AuthMiddleware` passes control without
setting any key, and `RequireRole` composed after it finds no `user_role` and aborts with 403
`User role not found`. -/
theorem options_reaches_role_gate_without_identity :
    AuthMiddleware demoJwt demoOsEnv 0 ⟨"OPTIONS", none⟩ [] =
      { outcome := .next [], validated := [] } ∧
    RequireRole ["secretary"] [] = .abort 403 "User role not found" [] ∧
    protectedChain demoJwt demoOsEnv 0 ["secretary"] ⟨"OPTIONS", none⟩ [] =
      .abort 403 "User role not found" [] := by
  decide

/-- Claim C17 as amended: when `AuthMiddleware` passed control on a request that is not OPTIONS,
the context handed on holds a string under `user_role`, so `RequireRole` composed after it
either passes or aborts with `Insufficient permissions`, never with `User role not found` and
never by a failed type assertion; on an OPTIONS request the context is handed on as it came, and
the chain aborts with `User role not found` when it held no `user_role`. -/
theorem role_present_after_authenticated_pass (lib : JwtLib) (osEnv : String → String)
    (now : Nat) (roles : List String) (r : Request) (c c' : Context)
    (hnext : (AuthMiddleware lib osEnv now r c).outcome = .next c') :
    (r.Method ≠ "OPTIONS" →
      (∃ role, c'.Get "user_role" = some (.str role)) ∧
      (RequireRole roles c' = .next c' ∨
        RequireRole roles c' = .abort 403 "Insufficient permissions" c') ∧
      RequireRole roles c' ≠ .abort 403 "User role not found" c' ∧
      RequireRole roles c' ≠ .panic ∧
      protectedChain lib osEnv now roles r c = RequireRole roles c') ∧
    (r.Method = "OPTIONS" → c' = c ∧
      (c.Get "user_role" = none →
        protectedChain lib osEnv now roles r c = .abort 403 "User role not found" c)) := by
  constructor
  · intro hm
    rcases AuthMiddleware_cases lib osEnv now r c with
      ⟨h0, _⟩ | ⟨_, _, h⟩ | ⟨_, _, _, h⟩ | ⟨_, _, _, _, h⟩ | ⟨_, _, _, claims, _, h⟩
    · exact absurd h0 hm
    · rw [h] at hnext; simp at hnext
    · rw [h] at hnext; simp at hnext
    · rw [h] at hnext; simp at hnext
    · rw [h] at hnext
      simp only [MwOutcome.next.injEq] at hnext
      subst hnext
      have hrole := (identityContext_get c claims).2.2.1
      have hchain : protectedChain lib osEnv now roles r c =
          RequireRole roles (identityContext c claims) := by
        simp only [protectedChain, h]
      by_cases hmem : claims.Role ∈ roles
      · have hR : RequireRole roles (identityContext c claims) =
            .next (identityContext c claims) := by
          simp [RequireRole, hrole, RequireRole_scan_eq, hmem]
        refine ⟨⟨claims.Role, hrole⟩, Or.inl hR, ?_, ?_, hchain⟩ <;> rw [hR] <;> simp
      · have hR : RequireRole roles (identityContext c claims) =
            .abort 403 "Insufficient permissions" (identityContext c claims) := by
          simp [RequireRole, hrole, RequireRole_scan_eq, hmem]
        refine ⟨⟨claims.Role, hrole⟩, Or.inr hR, ?_, ?_, hchain⟩ <;> rw [hR] <;> simp
  · intro hm
    have h := AuthMiddleware_options lib osEnv now r c hm
    rw [h] at hnext
    simp only [MwOutcome.next.injEq] at hnext
    subst hnext
    refine ⟨rfl, ?_⟩
    intro hn
    simp [protectedChain, h, RequireRole, hn]

theorem role_present_after_authenticated_pass_witness :
    (∃ role, Context.Get demoContextA "user_role" = some (.str role)) ∧
    (RequireRole ["secretary"] demoContextA = .next demoContextA ∨
      RequireRole ["secretary"] demoContextA =
        .abort 403 "Insufficient permissions" demoContextA) ∧
    RequireRole ["secretary"] demoContextA ≠ .abort 403 "User role not found" demoContextA ∧
    RequireRole ["secretary"] demoContextA ≠ .panic ∧
    protectedChain demoJwt demoOsEnv 0 ["secretary"] ⟨"GET", some "Bearer tok:SOC-A"⟩ [] =
      RequireRole ["secretary"] demoContextA :=
  (role_present_after_authenticated_pass demoJwt demoOsEnv 0 ["secretary"]
    ⟨"GET", some "Bearer tok:SOC-A"⟩ [] demoContextA (by decide)).1 (by decide)

/-- Claim C18: for a token `t` with no double quote at either end and a request that is not
OPTIONS, the headers `Bearer t` and `Bearer "t"` both make `AuthMiddleware` call `ValidateToken`
with exactly `t`, and the two requests have the same result. -/
theorem quoted_token_same_as_plain (lib : JwtLib) (osEnv : String → String) (now : Nat)
    (method : String) (c : Context) (t : String) (hm : method ≠ "OPTIONS")
    (hfirst : t.data.head? ≠ some (Char.ofNat 34))
    (hlast : t.data.getLast? ≠ some (Char.ofNat 34)) :
    (AuthMiddleware lib osEnv now ⟨method, some ("Bearer " ++ t)⟩ c).validated = [t] ∧
    (AuthMiddleware lib osEnv now
      ⟨method, some ("Bearer " ++ (dquote ++ t ++ dquote))⟩ c).validated = [t] ∧
    AuthMiddleware lib osEnv now ⟨method, some ("Bearer " ++ (dquote ++ t ++ dquote))⟩ c =
      AuthMiddleware lib osEnv now ⟨method, some ("Bearer " ++ t)⟩ c := by
  have h1 := AuthMiddleware_bearer lib osEnv now method c t t hm
    (bearerToken_plain t hfirst hlast) (Nat.le_refl _)
  have h2 := AuthMiddleware_bearer lib osEnv now method c (dquote ++ t ++ dquote) t hm
    (bearerToken_quoted t hfirst hlast)
    (by rw [String.length_append, String.length_append]; omega)
  refine ⟨?_, ?_, ?_⟩
  · rw [h1]
    cases ValidateToken lib t (Load osEnv).JWTSecret now <;> rfl
  · rw [h2]
    cases ValidateToken lib t (Load osEnv).JWTSecret now <;> rfl
  · rw [h1, h2]

theorem quoted_token_same_as_plain_witness :
    (AuthMiddleware demoJwt demoOsEnv 0 ⟨"GET", some ("Bearer " ++ "tok:SOC-A")⟩ []).validated =
      ["tok:SOC-A"] ∧
    (AuthMiddleware demoJwt demoOsEnv 0
      ⟨"GET", some ("Bearer " ++ (dquote ++ "tok:SOC-A" ++ dquote))⟩ []).validated =
      ["tok:SOC-A"] ∧
    AuthMiddleware demoJwt demoOsEnv 0
        ⟨"GET", some ("Bearer " ++ (dquote ++ "tok:SOC-A" ++ dquote))⟩ [] =
      AuthMiddleware demoJwt demoOsEnv 0 ⟨"GET", some ("Bearer " ++ "tok:SOC-A")⟩ [] :=
  quoted_token_same_as_plain demoJwt demoOsEnv 0 "GET" [] "tok:SOC-A" (by decide) (by decide)
    (by decide)

/-- Claim C19: with a codec that verifies what it signed, a token returned by `GenerateToken` is
accepted by `ValidateToken` under the same secret at any time before its expiry, and the claims
returned carry the user id, email, role and society code given to `GenerateToken` and the issuer
`building-management-system`. -/
theorem token_round_trip (lib : JwtLib) (userID : ObjectID)
    (email role societyCode secret : String) (t1 t2 now : Nat) (s : String)
    (hlaw : lib.Lawful)
    (hgen : GenerateToken lib userID email role societyCode secret t1 t2 = .ok s)
    (hnow : now < NewNumericDate (t1 + tokenTTL) * nsPerSec) :
    ∃ claims, ValidateToken lib s secret now = .ok claims ∧
      claims.UserID = userID ∧ claims.Email = email ∧ claims.Role = role ∧
      claims.SocietyCode = societyCode ∧ claims.Issuer = "building-management-system" ∧
      claims.ExpiresAt = NewNumericDate (t1 + tokenTTL) := by
  have hv := hlaw _ _ _ hgen
  exact ⟨mintClaims userID email role societyCode t1 t2,
    ValidateToken_of_verify lib s secret now _ hv hnow, rfl, rfl, rfl, rfl, rfl, rfl⟩

theorem token_round_trip_witness :
    ∃ claims, ValidateToken demoLawfulJwt "tok:SOC-A" "k" (86399 * nsPerSec) = .ok claims ∧
      claims.UserID = 10 ∧ claims.Email = "bob@x.com" ∧ claims.Role = "resident" ∧
      claims.SocietyCode = "SOC-A" ∧ claims.Issuer = "building-management-system" ∧
      claims.ExpiresAt = NewNumericDate (0 + tokenTTL) :=
  token_round_trip demoLawfulJwt 10 "bob@x.com" "resident" "SOC-A" "k" 0 0 (86399 * nsPerSec)
    "tok:SOC-A" demoLawfulJwt_lawful rfl (by decide)

/-- Claim C20 fails as stated: `GenerateToken` reads the clock twice; with the first reading just
before a full second and the second on it, the minted claims have `ExpiresAt = 86400` and
`IssuedAt = 1`, one second short of `IssuedAt + 86400`. -/
theorem token_lifetime_one_second_short :
    (mintClaims 10 "bob@x.com" "resident" "SOC-A" 999999999 1000000000).ExpiresAt = 86400 ∧
    (mintClaims 10 "bob@x.com" "resident" "SOC-A" 999999999 1000000000).IssuedAt = 1 ∧
    (mintClaims 10 "bob@x.com" "resident" "SOC-A" 999999999 1000000000).ExpiresAt ≠
      (mintClaims 10 "bob@x.com" "resident" "SOC-A" 999999999 1000000000).IssuedAt + 86400 ∧
    GenerateToken demoLawfulJwt 10 "bob@x.com" "resident" "SOC-A" "k" 999999999 1000000000 =
      demoLawfulJwt.SignedString
        (mintClaims 10 "bob@x.com" "resident" "SOC-A" 999999999 1000000000) "k" := by
  refine ⟨by decide, by decide, by decide, rfl⟩

/-- Claim C20 as amended: the claims `GenerateToken` signs have `ExpiresAt` equal to the first
clock reading in whole seconds plus 86400 and `IssuedAt` equal to the second reading in whole
seconds; `ExpiresAt = IssuedAt + 86400` when both readings fall in the same second, and
`ExpiresAt ≤ IssuedAt + 86400` when the readings are in order; `ExpiresAt` does not depend on
any argument of the caller. -/
theorem token_lifetime_fixed (lib : JwtLib) (userID : ObjectID)
    (email role societyCode secret : String) (t1 t2 : Nat) :
    GenerateToken lib userID email role societyCode secret t1 t2 =
      lib.SignedString (mintClaims userID email role societyCode t1 t2) secret ∧
    (mintClaims userID email role societyCode t1 t2).ExpiresAt = NewNumericDate t1 + 86400 ∧
    (mintClaims userID email role societyCode t1 t2).IssuedAt = NewNumericDate t2 ∧
    (NewNumericDate t1 = NewNumericDate t2 →
      (mintClaims userID email role societyCode t1 t2).ExpiresAt =
        (mintClaims userID email role societyCode t1 t2).IssuedAt + 86400) ∧
    (t1 ≤ t2 →
      (mintClaims userID email role societyCode t1 t2).ExpiresAt ≤
        (mintClaims userID email role societyCode t1 t2).IssuedAt + 86400) ∧
    (∀ (userID' : ObjectID) (email' role' societyCode' : String),
      (mintClaims userID' email' role' societyCode' t1 t2).ExpiresAt =
        (mintClaims userID email role societyCode t1 t2).ExpiresAt) := by
  have hexp : (mintClaims userID email role societyCode t1 t2).ExpiresAt =
      NewNumericDate t1 + 86400 := NewNumericDate_add_ttl t1
  have hiat : (mintClaims userID email role societyCode t1 t2).IssuedAt = NewNumericDate t2 :=
    rfl
  refine ⟨rfl, hexp, hiat, ?_, ?_, ?_⟩
  · intro h
    rw [hexp, hiat, h]
  · intro h
    rw [hexp, hiat]
    have : NewNumericDate t1 ≤ NewNumericDate t2 := Nat.div_le_div_right h
    omega
  · intro _ _ _ _
    rfl

theorem token_lifetime_fixed_witness :
    NewNumericDate 1500000000 = NewNumericDate 1500000007 ∧
    (mintClaims 10 "bob@x.com" "resident" "SOC-A" 1500000000 1500000007).ExpiresAt =
      (mintClaims 10 "bob@x.com" "resident" "SOC-A" 1500000000 1500000007).IssuedAt + 86400 :=
  ⟨by decide,
   (token_lifetime_fixed demoJwt 10 "bob@x.com" "resident" "SOC-A" "k" 1500000000
      1500000007).2.2.2.1 (by decide)⟩

/-- Claim C22: with a codec that verifies what it signed, a token minted by `GenerateToken` is
rejected by `ValidateToken` under the minting secret with the expiry error exactly from its `exp`
second on; so it is rejected with the expiry error at every time later than 24 hours after the
first clock reading of the minting, after the second reading when the clock did not run
backwards, and after the `iat` second it carries. Under any secret whose verification reads the
minted claims out of the token, a validation later than 24 hours returns an error and no
claims. -/
theorem token_expired_after_24h (lib : JwtLib) (userID : ObjectID)
    (email role societyCode secret : String) (t1 t2 now : Nat) (s : String)
    (hlaw : lib.Lawful)
    (hgen : GenerateToken lib userID email role societyCode secret t1 t2 = .ok s) :
    (ValidateToken lib s secret now = .error JwtError.expired ↔
      NewNumericDate (t1 + tokenTTL) * nsPerSec ≤ now) ∧
    (t1 + tokenTTL < now → ValidateToken lib s secret now = .error JwtError.expired) ∧
    (t1 ≤ t2 → t2 + tokenTTL < now →
      ValidateToken lib s secret now = .error JwtError.expired) ∧
    (t1 ≤ t2 →
      (mintClaims userID email role societyCode t1 t2).IssuedAt * nsPerSec + tokenTTL < now →
      ValidateToken lib s secret now = .error JwtError.expired) ∧
    (∀ key, (∀ claims, lib.verify s key = .ok claims →
        claims = mintClaims userID email role societyCode t1 t2) →
      t1 + tokenTTL < now → ∃ e, ValidateToken lib s key now = .error e) := by
  have hv := hlaw _ _ _ hgen
  have hiff := ValidateToken_expired_iff lib s secret now _ hv
  have hexp : (mintClaims userID email role societyCode t1 t2).ExpiresAt =
      NewNumericDate (t1 + tokenTTL) := rfl
  rw [hexp] at hiff
  have hle := NewNumericDate_mul_le (t1 + tokenTTL)
  refine ⟨hiff, ?_, ?_, ?_, ?_⟩
  · intro h
    exact hiff.2 (by omega)
  · intro h12 h
    exact hiff.2 (by omega)
  swap
  · intro key hpayload h
    rcases except_error_or_ok (lib.verify s key) with ⟨e, he⟩ | ⟨claims, hc⟩
    · exact ⟨e, by simp [ValidateToken, ParseWithClaims, he]⟩
    · refine ⟨JwtError.expired, ?_⟩
      apply (ValidateToken_expired_iff lib s key now claims hc).2
      rw [hpayload claims hc, hexp]
      omega
  · intro h12 h
    apply hiff.2
    have hiat : (mintClaims userID email role societyCode t1 t2).IssuedAt = NewNumericDate t2 :=
      rfl
    rw [hiat] at h
    rw [NewNumericDate_add_ttl]
    have hmono : NewNumericDate t1 ≤ NewNumericDate t2 := Nat.div_le_div_right h12
    have hm : NewNumericDate t1 * nsPerSec ≤ NewNumericDate t2 * nsPerSec :=
      Nat.mul_le_mul_right _ hmono
    have httl : tokenTTL = 86400 * nsPerSec := by decide
    rw [Nat.add_mul, ← httl]
    omega

theorem token_expired_after_24h_witness :
    ValidateToken demoLawfulJwt "tok:SOC-A" "k" (86400 * nsPerSec + 1) =
      .error JwtError.expired :=
  (token_expired_after_24h demoLawfulJwt 10 "bob@x.com" "resident" "SOC-A" "k" 0 0
    (86400 * nsPerSec + 1) "tok:SOC-A" demoLawfulJwt_lawful rfl).2.1 (by decide)

/-- Claim C23: for a `Register` request that passes binding, names an active society and whose
password is hashed: when an account with the email and society code of the request exists,
`Register` answers 409 `User already exists in this society` and the store is as before; when the
new id is fresh and no account has that pair, whatever accounts other societies hold under the
same email, it answers 201 and the store gains exactly one account, a new one with that email
and society code; and when the pair (email, society_code) was unique among the accounts, it is
unique after `Register`. -/
theorem Register_respects_unique_index (h : AuthHandler) (env : Env) (st : Store)
    (req : RegisterRequest) (newID : ObjectID) (tc tu : Nat) (society : Society)
    (hashed : String) (hb : req.bind env = true)
    (hsoc : society ∈ st.societies) (hcode : society.Code = req.SocietyCode)
    (hact : society.IsActive = true)
    (hg : env.GenerateFromPassword req.Password = some hashed) :
    ((∃ u ∈ st.users, u.Email = req.Email ∧ u.SocietyCode = req.SocietyCode) →
      (h.Register env st req newID tc tu).resp =
        ⟨409, .error "User already exists in this society"⟩ ∧
      (h.Register env st req newID tc tu).store = st) ∧
    ((∀ u ∈ st.users, u.ID ≠ newID) →
      (∀ u ∈ st.users, u.Email = req.Email → u.SocietyCode ≠ req.SocietyCode) →
      ∃ created,
        (h.Register env st req newID tc tu).resp =
          ⟨201, .userCreated { created with Password := "" }⟩ ∧
        (h.Register env st req newID tc tu).store =
          { st with users := st.users ++ [created] } ∧
        created.ID = newID ∧ created.Email = req.Email ∧
        created.SocietyCode = req.SocietyCode ∧ created ∉ st.users) ∧
    (UniqueEmailSociety st.users →
      UniqueEmailSociety (h.Register env st req newID tc tu).store.users) := by
  obtain ⟨s', hs'⟩ := society_lookup_isSome st.societies req.SocietyCode society hsoc hcode hact
  refine ⟨?_, ?_, ?_⟩
  · intro ⟨u, hu, he, hc⟩
    have hi := InsertOneUser_dup st.users (registeredUser req s' hashed newID tc tu) u hu he hc
    rw [Register_duplicate h env st req newID tc tu s' hashed hb hs' hg hi]
    exact ⟨rfl, rfl⟩
  · intro hid hpair
    have hi := InsertOneUser_fresh st.users (registeredUser req s' hashed newID tc tu) hid hpair
    refine ⟨registeredUser req s' hashed newID tc tu, ?_, ?_, rfl, rfl, rfl, ?_⟩
    · rw [Register_inserted h env st req newID tc tu s' hashed _ hb hs' hg hi]
    · rw [Register_inserted h env st req newID tc tu s' hashed _ hb hs' hg hi]
    · intro hmem
      exact hid _ hmem rfl
  · intro huniq
    rcases Register_store_cases h env st req newID tc tu with hst | ⟨soc, hsh, hi, hst⟩
    · rw [hst]; exact huniq
    · rw [hst]
      obtain ⟨_, hnew⟩ := InsertOneUser_some _ _ _ hi
      exact UniqueEmailSociety_append _ _ huniq (fun v hv => (hnew v hv).2)

theorem Register_respects_unique_index_witness :
    ((demoHandler.Register demoEnv demoStore
        { demoRegister with Email := "bob@x.com" } 12 0 0).resp =
        ⟨409, .error "User already exists in this society"⟩ ∧
      (demoHandler.Register demoEnv demoStore
        { demoRegister with Email := "bob@x.com" } 12 0 0).store = demoStore) ∧
    (∃ created,
      (demoHandler.Register demoEnv demoStore
        { demoRegister with SocietyCode := "SOC-B" } 12 0 0).resp =
          ⟨201, .userCreated { created with Password := "" }⟩ ∧
      (demoHandler.Register demoEnv demoStore
        { demoRegister with SocietyCode := "SOC-B" } 12 0 0).store =
          { demoStore with users := demoStore.users ++ [created] } ∧
      created.ID = 12 ∧ created.Email = "carol@x.com" ∧
      created.SocietyCode = "SOC-B" ∧ created ∉ demoStore.users) :=
  ⟨(Register_respects_unique_index demoHandler demoEnv demoStore
      { demoRegister with Email := "bob@x.com" } 12 0 0 demoSocietyA "hash(pw)"
      (by decide) (by decide) (by decide) (by decide) rfl).1
      ⟨demoUserA, by decide, by decide, by decide⟩,
   (Register_respects_unique_index demoHandler demoEnv demoStore
      { demoRegister with SocietyCode := "SOC-B" } 12 0 0 demoSocietyB "hash(pw)"
      (by decide) (by decide) (by decide) (by decide) rfl).2.1 (by decide) (by decide)⟩

/-- Claim C24: when `Register` answers 201, the store gained exactly one account; its
`society_code` and `society_id` are the code and id of an active society of the store whose code
is the one in the request, `is_active` is true, name, email, role, unit, building and phone are
those of the request, the id is the new object id, and the password is the output of
`bcrypt.GenerateFromPassword` on the request password, the only hashing call of the run; it is
not the plaintext whenever bcrypt never returns its input. -/
theorem Register_inserted_account_fields (h : AuthHandler) (env : Env) (st : Store)
    (req : RegisterRequest) (newID : ObjectID) (tc tu : Nat)
    (hok : (h.Register env st req newID tc tu).resp.status = 201) :
    ∃ society hashed created,
      society ∈ st.societies ∧ society.Code = req.SocietyCode ∧ society.IsActive = true ∧
      env.GenerateFromPassword req.Password = some hashed ∧
      (h.Register env st req newID tc tu).store.users = st.users ++ [created] ∧
      (h.Register env st req newID tc tu).log =
        [.findOne "societies" [("code", .str req.SocietyCode), ("is_active", .bool true)],
         .generateFromPassword req.Password, .insertOneUser created] ∧
      created.SocietyCode = society.Code ∧ created.SocietyID = society.ID ∧
      created.IsActive = true ∧ created.Name = req.Name ∧ created.Email = req.Email ∧
      created.Role = req.Role ∧ created.Unit = req.Unit ∧ created.Building = req.Building ∧
      created.Phone = req.Phone ∧ created.ID = newID ∧ created.Password = hashed ∧
      ((∀ password hash, env.GenerateFromPassword password = some hash → hash ≠ password) →
        created.Password ≠ req.Password) := by
  obtain ⟨society, hashed, _, hsm, hsc, hsa, hg, hR⟩ :=
    Register_success_full h env st req newID tc tu hok
  refine ⟨society, hashed, registeredUser req society hashed newID tc tu, hsm, hsc, hsa, hg,
    ?_, ?_, ?_, rfl, rfl, rfl, rfl, rfl, rfl, rfl, rfl, rfl, rfl, ?_⟩
  · rw [hR]
  · rw [hR]
  · exact hsc.symm
  · intro hlib
    exact hlib _ _ hg

theorem Register_inserted_account_fields_witness :
    ∃ society hashed created,
      society ∈ demoStore.societies ∧ society.Code = demoRegister.SocietyCode ∧
      society.IsActive = true ∧
      demoEnv.GenerateFromPassword demoRegister.Password = some hashed ∧
      (demoHandler.Register demoEnv demoStore demoRegister 12 3 4).store.users =
        demoStore.users ++ [created] ∧
      (demoHandler.Register demoEnv demoStore demoRegister 12 3 4).log =
        [.findOne "societies"
          [("code", .str demoRegister.SocietyCode), ("is_active", .bool true)],
         .generateFromPassword demoRegister.Password, .insertOneUser created] ∧
      created.SocietyCode = society.Code ∧ created.SocietyID = society.ID ∧
      created.IsActive = true ∧ created.Name = demoRegister.Name ∧
      created.Email = demoRegister.Email ∧
      created.Role = demoRegister.Role ∧ created.Unit = demoRegister.Unit ∧
      created.Building = demoRegister.Building ∧
      created.Phone = demoRegister.Phone ∧ created.ID = 12 ∧ created.Password = hashed := by
  obtain ⟨society, hashed, created, h1, h2, h3, h4, h5, h6, h7, h8, h9, h10, h11, h12, h13, h14,
    h15, h16, h17, _⟩ :=
    Register_inserted_account_fields demoHandler demoEnv demoStore demoRegister 12 3 4
      (by decide)
  exact ⟨society, hashed, created, h1, h2, h3, h4, h5, h6, h7, h8, h9, h10, h11, h12, h13, h14,
    h15, h16, h17⟩

/-- Claim C25 fails as stated: a `Register` request with role `admin` into the active society
`SOC-A` is answered 201 and an account with role `admin` is stored. -/
theorem Register_accepts_unknown_role :
    demoRegisterAdmin.Role = "admin" ∧
    (demoHandler.Register demoEnv demoStore demoRegisterAdmin 12 0 0).resp =
      ⟨201, .userCreated
        { ID := 12, Name := "Carol", Email := "carol@x.com", Password := "", Role := "admin",
          Unit := "", Building := "", Phone := "", Avatar := "", SocietyID := 1,
          SocietyCode := "SOC-A", IsActive := true, CreatedAt := 0, UpdatedAt := 0 }⟩ ∧
    (demoHandler.Register demoEnv demoStore demoRegisterAdmin 12 0 0).store.users =
      demoStore.users ++
        [{ ID := 12, Name := "Carol", Email := "carol@x.com", Password := "hash(pw)",
           Role := "admin", Unit := "", Building := "", Phone := "", Avatar := "",
           SocietyID := 1, SocietyCode := "SOC-A", IsActive := true, CreatedAt := 0,
           UpdatedAt := 0 }] := by
  decide

/-- Claim C25 as amended: `Register` only requires the role to be non-empty. The account a
successful `Register` stores has the role string of the request, which is not empty; a request
with an empty role is answered 400 with nothing stored and no store call; and replacing a
non-empty role by any other non-empty role does not change the status `Register` answers. -/
theorem Register_role_only_required (h : AuthHandler) (env : Env) (st : Store)
    (req : RegisterRequest) (newID : ObjectID) (tc tu : Nat) :
    ((h.Register env st req newID tc tu).resp.status = 201 →
      req.Role ≠ "" ∧
      ∃ created, (h.Register env st req newID tc tu).store.users = st.users ++ [created] ∧
        created.Role = req.Role) ∧
    (req.Role = "" →
      h.Register env st req newID tc tu =
        { resp := ⟨400, .bindError⟩, store := st, log := [] }) ∧
    (∀ role, req.Role ≠ "" → role ≠ "" →
      (h.Register env st { req with Role := role } newID tc tu).resp.status =
        (h.Register env st req newID tc tu).resp.status) := by
  refine ⟨?_, ?_, ?_⟩
  · intro hok
    obtain ⟨society, hashed, hb, _, _, _, _, hR⟩ :=
      Register_success_full h env st req newID tc tu hok
    refine ⟨?_, registeredUser req society hashed newID tc tu, by rw [hR], rfl⟩
    intro hrole
    simp [RegisterRequest.bind, hrole] at hb
  · intro hrole
    have hb : req.bind env = false := by simp [RegisterRequest.bind, hrole]
    simp [AuthHandler.Register, hb]
  · intro role h1 h2
    have hbind := bind_role_irrelevant env req role h1 h2
    rcases Bool.eq_false_or_eq_true (req.bind env) with hb | hb
    swap
    · have hb' : RegisterRequest.bind env { req with Role := role } = false := by
        rw [hbind]; exact hb
      simp [AuthHandler.Register, hb, hb']
    have hb' : RegisterRequest.bind env { req with Role := role } = true := by
      rw [hbind]; exact hb
    rcases Option.eq_none_or_eq_some (FindOne Society.toDoc st.societies
        [("code", .str req.SocietyCode), ("is_active", .bool true)]) with hs | ⟨society, hs⟩
    · rw [Register_no_society h env st req newID tc tu hb hs,
        Register_no_society h env st { req with Role := role } newID tc tu hb' hs]
    rcases Option.eq_none_or_eq_some (env.GenerateFromPassword req.Password)
      with hg | ⟨hashed, hg⟩
    · simp [AuthHandler.Register, hb, hb', hs, hg]
    rcases Option.eq_none_or_eq_some
        (InsertOneUser st.users (registeredUser req society hashed newID tc tu))
      with hi | ⟨users, hi⟩
    · have hi' : InsertOneUser st.users
          (registeredUser { req with Role := role } society hashed newID tc tu) = none := by
        simp only [InsertOneUser, registeredUser] at hi ⊢
        split at hi
        · rename_i hany
          rw [if_pos hany]
        · exact absurd hi (by simp)
      rw [Register_duplicate h env st req newID tc tu society hashed hb hs hg hi,
        Register_duplicate h env st { req with Role := role } newID tc tu society hashed hb'
          hs hg hi']
    · have hi' : InsertOneUser st.users
          (registeredUser { req with Role := role } society hashed newID tc tu) =
          some (st.users ++
            [registeredUser { req with Role := role } society hashed newID tc tu]) := by
        obtain ⟨_, hfresh⟩ := InsertOneUser_some _ _ _ hi
        apply InsertOneUser_fresh
        · intro v hv; exact (hfresh v hv).1
        · intro v hv he hc; exact (hfresh v hv).2 ⟨he, hc⟩
      rw [Register_inserted h env st req newID tc tu society hashed _ hb hs hg hi,
        Register_inserted h env st { req with Role := role } newID tc tu society hashed _ hb'
          hs hg hi']

theorem Register_role_only_required_witness :
    demoRegister.Role ≠ "" ∧
    ∃ created,
      (demoHandler.Register demoEnv demoStore demoRegister 12 0 0).store.users =
        demoStore.users ++ [created] ∧
      created.Role = demoRegister.Role :=
  (Register_role_only_required demoHandler demoEnv demoStore demoRegister 12 0 0).1 (by decide)

/-- Claim C26: a successful `Login` answers with a copy of the stored account in which only
`Password` differs, being empty, the token being minted from the stored account, and the store
is as before, so the stored hash stays; a successful `Register` answers with a copy of the
created account in which only `Password` differs, being empty, while the account handed to the
store and appended to it carries the bcrypt hash. -/
theorem responses_clear_password_only (h : AuthHandler) (env : Env) (st : Store) :
    (∀ req t1 t2, (h.Login env st req t1 t2).resp.status = 200 →
      ∃ token account user soc,
        account ∈ st.users ∧
        (h.Login env st req t1 t2).resp =
          ⟨200, .login { Token := token, User := user, Society := soc }⟩ ∧
        user.Password = "" ∧ user = { account with Password := "" } ∧
        GenerateToken env.jwt account.ID account.Email account.Role account.SocietyCode
          h.jwtSecret t1 t2 = .ok token ∧
        (h.Login env st req t1 t2).store = st) ∧
    (∀ req newID tc tu, (h.Register env st req newID tc tu).resp.status = 201 →
      ∃ hashed created user,
        (h.Register env st req newID tc tu).resp = ⟨201, .userCreated user⟩ ∧
        user.Password = "" ∧ user = { created with Password := "" } ∧
        env.GenerateFromPassword req.Password = some hashed ∧ created.Password = hashed ∧
        Event.insertOneUser created ∈ (h.Register env st req newID tc tu).log ∧
        (h.Register env st req newID tc tu).store =
          { st with users := st.users ++ [created] }) := by
  constructor
  · intro req t1 t2 hok
    obtain ⟨society, account, token, _, _, hu, _, hg, hL⟩ :=
      Login_success_inv h env st req t1 t2 hok
    obtain ⟨hum, _⟩ := user_lookup_some _ _ _ _ hu
    refine ⟨token, account, { account with Password := "" }, societyResponse society, hum,
      ?_, rfl, rfl, hg, ?_⟩ <;> rw [hL]
  · intro req newID tc tu hok
    obtain ⟨society, hashed, _, _, _, _, hg, hR⟩ :=
      Register_success_full h env st req newID tc tu hok
    refine ⟨hashed, registeredUser req society hashed newID tc tu,
      { registeredUser req society hashed newID tc tu with Password := "" }, ?_, rfl, rfl, hg,
      rfl, ?_, ?_⟩
    · rw [hR]
    · rw [hR]; simp
    · rw [hR]

theorem responses_clear_password_only_witness :
    ∃ token account user soc,
      account ∈ demoStore.users ∧
      (demoHandler.Login demoEnv demoStore ⟨"bob@x.com", "pw", "SOC-A"⟩ 0 0).resp =
        ⟨200, .login { Token := token, User := user, Society := soc }⟩ ∧
      user.Password = "" ∧ user = { account with Password := "" } ∧
      GenerateToken demoEnv.jwt account.ID account.Email account.Role account.SocietyCode
        demoHandler.jwtSecret 0 0 = .ok token ∧
      (demoHandler.Login demoEnv demoStore ⟨"bob@x.com", "pw", "SOC-A"⟩ 0 0).store =
        demoStore :=
  (responses_clear_password_only demoHandler demoEnv demoStore).1
    ⟨"bob@x.com", "pw", "SOC-A"⟩ 0 0 (by decide)

/-- Claim C28: for non-negative timestamps, `GenerateQRCode` is injective on visitor ids without
the character `-`: equal codes have equal visitor ids, equal society codes and equal timestamps,
whatever the society codes contain. The 24 hexadecimal digits of an object id hold no `-`, so
two distinct object ids never get the same code, and two visitors created by `CreateVisitor`
under distinct new ids carry distinct `qr_code` values. -/
theorem GenerateQRCode_injective (v1 v2 s1 s2 : String) (t1 t2 : Int)
    (ht1 : 0 ≤ t1) (ht2 : 0 ≤ t2) :
    (dash ∉ v1.data → dash ∉ v2.data →
      GenerateQRCode v1 s1 t1 = GenerateQRCode v2 s2 t2 → v1 = v2 ∧ s1 = s2 ∧ t1 = t2) ∧
    (∀ id1 id2 : ObjectID, dash ∉ (ObjectID.Hex id1).data ∧
      (id1 ≠ id2 → GenerateQRCode id1.Hex s1 t1 ≠ GenerateQRCode id2.Hex s2 t2)) ∧
    (∀ st1 st2 c1 c2 visitor1 visitor2 id1 id2 tc1 tc2 tu1 tu2 te1 te2 doc1 doc2,
      id1 ≠ id2 →
      (VisitorHandler.CreateVisitor st1 c1 visitor1 id1 t1 tc1 tu1 te1).resp =
        ⟨201, .doc doc1⟩ →
      (VisitorHandler.CreateVisitor st2 c2 visitor2 id2 t2 tc2 tu2 te2).resp =
        ⟨201, .doc doc2⟩ →
      assocGet doc1 "qr_code" ≠ assocGet doc2 "qr_code") := by
  obtain ⟨n1, rfl⟩ := Int.eq_ofNat_of_zero_le ht1
  obtain ⟨n2, rfl⟩ := Int.eq_ofNat_of_zero_le ht2
  have hids : ∀ (a b : String) (id1 id2 : ObjectID), id1 ≠ id2 →
      GenerateQRCode id1.Hex a (Int.ofNat n1) ≠ GenerateQRCode id2.Hex b (Int.ofNat n2) := by
    intro a b id1 id2 hne h
    obtain ⟨hv, _, _⟩ := QRCode_parts_equal _ _ a b n1 n2 (dash_not_mem_Hex id1)
      (dash_not_mem_Hex id2) h
    exact hne (Hex_injective id1 id2 hv)
  refine ⟨?_, ?_, ?_⟩
  · intro hv1 hv2 h
    obtain ⟨hv, hs, hn⟩ := QRCode_parts_equal v1 v2 s1 s2 n1 n2 hv1 hv2 h
    exact ⟨hv, hs, by rw [hn]⟩
  · intro id1 id2
    exact ⟨dash_not_mem_Hex id1, hids s1 s2 id1 id2⟩
  · intro st1 st2 c1 c2 visitor1 visitor2 id1 id2 tc1 tc2 tu1 tu2 te1 te2 doc1 doc2 hne h1 h2
    obtain ⟨d1, hr1, _, hq1⟩ := CreateVisitor_qr_code st1 c1 visitor1 id1 (Int.ofNat n1) tc1 tu1
      te1 (congrArg Response.status h1)
    obtain ⟨d2, hr2, _, hq2⟩ := CreateVisitor_qr_code st2 c2 visitor2 id2 (Int.ofNat n2) tc2 tu2
      te2 (congrArg Response.status h2)
    have e1 := hr1.symm.trans h1
    have e2 := hr2.symm.trans h2
    simp only [Response.mk.injEq, Body.doc.injEq, true_and] at e1 e2
    subst e1
    subst e2
    rw [hq1, hq2]
    intro h
    simp only [Option.some.injEq, BVal.str.injEq] at h
    exact hids _ _ id1 id2 hne h

theorem GenerateQRCode_injective_witness :
    GenerateQRCode (ObjectID.Hex 20) "SOC-B" 1700000000 =
      "BMS-SOC-B-000000000000000000000014-1700000000" ∧
    GenerateQRCode (ObjectID.Hex 20) "SOC-B" 1700000000 ≠
      GenerateQRCode (ObjectID.Hex 21) "SOC" 1700000001 ∧
    (VisitorHandler.CreateVisitor demoStore demoContextA demoVisitorRequest 22 1700000000
        1 2 3).resp.status = 201 ∧
    (VisitorHandler.CreateVisitor demoStore demoContextA demoVisitorRequest 22 1700000000
        1 2 3).store.visitors.map (fun d => assocGet d "qr_code") =
      [assocGet demoVisitorB "qr_code",
       some (.str "BMS-SOC-A-000000000000000000000016-1700000000")] :=
  ⟨by decide,
   ((GenerateQRCode_injective "a" "b" "SOC-B" "SOC" 1700000000 1700000001
      (by decide) (by decide)).2.1 20 21).2 (by decide),
   by decide, by decide⟩

/-- Claim C29, evaluated on the code where it fails: `GetStats` builds its four filters in one
map, so for every store and context the `visitors` count runs under
`{society_code, is_active, role, status = pending}` and the `maintenance` count under
`{society_code, is_active, role, status = overdue}`. In a store of `SOC-A` with one pending
visitor and one overdue maintenance record, a requester of `SOC-A` is told 0 and 0, where the
filters `{society_code, status}` count 1 and 1. -/
theorem GetStats_filters_accumulate :
    (∀ st c,
      (UserHandler.GetStats st c).log =
        [.countDocuments "users"
           [("society_code", .str (c.GetString "society_code")), ("is_active", .bool true)],
         .countDocuments "users"
           [("society_code", .str (c.GetString "society_code")), ("is_active", .bool true),
            ("role", .str "resident")],
         .countDocuments "visitors"
           [("society_code", .str (c.GetString "society_code")), ("is_active", .bool true),
            ("role", .str "resident"), ("status", .str "pending")],
         .countDocuments "maintenance"
           [("society_code", .str (c.GetString "society_code")), ("is_active", .bool true),
            ("role", .str "resident"), ("status", .str "overdue")]]) ∧
    (UserHandler.GetStats demoStatsStore demoContextA).resp =
      ⟨200, .stats 1 1 0 0 "SOC-A"⟩ ∧
    CountDocuments id demoStatsStore.visitors
      [("society_code", .str "SOC-A"), ("status", .str "pending")] = 1 ∧
    CountDocuments id demoStatsStore.maintenance
      [("society_code", .str "SOC-A"), ("status", .str "overdue")] = 1 := by
  refine ⟨?_, by decide, by decide, by decide⟩
  intro st c
  simp [UserHandler.GetStats, GetSocietyFilter, assocSet]

/-- Claim C30, evaluated on the code where it fails: a secretary of `SOC-B` creates a notice,
stored with `society_id` and `society_code` of `SOC-B`, then calls `UpdateNotice` on it with the
body `{society_code: SOC-A, society_id: <id of SOC-A>}`; the answer is 200 and the stored notice
now carries the id and code of `SOC-A`. With the body `{society_code: SOC-A}` alone the answer
is 200 as well and the stored notice carries the code of `SOC-A`. -/
theorem UpdateNotice_moves_notice_between_societies :
    (NoticeHandler.CreateNotice demoStore demoContextB demoNoticeRequest 41 5).resp.status = 201 ∧
    ((NoticeHandler.CreateNotice demoStore demoContextB demoNoticeRequest 41 5).store.notices.map
        (fun d => (assocGet d "_id", assocGet d "society_id", assocGet d "society_code"))) =
      [(some (.oid 40), none, some (.str "SOC-B")),
       (some (.oid 41), some (.oid 2), some (.str "SOC-B"))] ∧
    (NoticeHandler.UpdateNotice
        (NoticeHandler.CreateNotice demoStore demoContextB demoNoticeRequest 41 5).store
        demoContextB "000000000000000000000029"
        [("society_code", .str "SOC-A"), ("society_id", .oid 1)]).resp =
      ⟨200, .message "Notice updated successfully"⟩ ∧
    ((NoticeHandler.UpdateNotice
        (NoticeHandler.CreateNotice demoStore demoContextB demoNoticeRequest 41 5).store
        demoContextB "000000000000000000000029"
        [("society_code", .str "SOC-A"), ("society_id", .oid 1)]).store.notices.map
        (fun d => (assocGet d "_id", assocGet d "society_id", assocGet d "society_code"))) =
      [(some (.oid 40), none, some (.str "SOC-B")),
       (some (.oid 41), some (.oid 1), some (.str "SOC-A"))] ∧
    (NoticeHandler.UpdateNotice
        (NoticeHandler.CreateNotice demoStore demoContextB demoNoticeRequest 41 5).store
        demoContextB "000000000000000000000029" [("society_code", .str "SOC-A")]).resp =
      ⟨200, .message "Notice updated successfully"⟩ ∧
    ((NoticeHandler.UpdateNotice
        (NoticeHandler.CreateNotice demoStore demoContextB demoNoticeRequest 41 5).store
        demoContextB "000000000000000000000029"
        [("society_code", .str "SOC-A")]).store.notices.map
        (fun d => (assocGet d "_id", assocGet d "society_id", assocGet d "society_code"))) =
      [(some (.oid 40), none, some (.str "SOC-B")),
       (some (.oid 41), some (.oid 2), some (.str "SOC-A"))] := by
  decide

end BMS
